import Mathlib

/-!
# gedit: I/O error info bars and the print job

A shallow embedding of `gedit/gedit-io-error-info-bar.c` and of the status part of
`gedit/gedit-print-job.c`.

Conventions of the embedding.

* A `gchar *` that may be `NULL` is an `Option String`; out-parameters
  (`gchar **error_message`, `gchar **message_details`) are passed in and returned.
* `_( )` (gettext) is the identity: the messages are the untranslated msgids.
* A widget is represented by what the function puts into it: the two label texts, the
  buttons in the order they are added, the message type, and whether the encoding combo
  box is attached (`create_combo_box`).
* `g_return_val_if_fail (cond, NULL)` returns `none` when `cond` fails.
* `gdouble` progress values are rationals.
-/

namespace Gedit

/-! ## Errors -/

/-- The error domain of a `GError` (a `GQuark`): the three domains the file tests for,
and every other quark. -/
inductive ErrorDomain where
  | G_IO_ERROR
  | G_CONVERT_ERROR
  | GEDIT_DOCUMENT_ERROR
  | other (quark : Nat)
  deriving DecidableEq, Repr

/-- A `GError`: domain, code and the raw message text. -/
structure GError where
  domain : ErrorDomain
  code : Int
  message : String
  deriving DecidableEq, Repr

/-! The members of GLib's `GIOErrorEnum` that the file names, with their values in
`gio/gioenums.h`. -/

def G_IO_ERROR_NOT_FOUND : Int := 1
def G_IO_ERROR_EXISTS : Int := 2
def G_IO_ERROR_IS_DIRECTORY : Int := 3
def G_IO_ERROR_NOT_DIRECTORY : Int := 4
def G_IO_ERROR_NOT_REGULAR_FILE : Int := 6
def G_IO_ERROR_NOT_MOUNTABLE_FILE : Int := 8
def G_IO_ERROR_FILENAME_TOO_LONG : Int := 9
def G_IO_ERROR_INVALID_FILENAME : Int := 10
def G_IO_ERROR_TOO_MANY_LINKS : Int := 11
def G_IO_ERROR_NO_SPACE : Int := 12
def G_IO_ERROR_PERMISSION_DENIED : Int := 14
def G_IO_ERROR_NOT_SUPPORTED : Int := 15
def G_IO_ERROR_NOT_MOUNTED : Int := 16
def G_IO_ERROR_READ_ONLY : Int := 21
def G_IO_ERROR_CANT_CREATE_BACKUP : Int := 22
def G_IO_ERROR_TIMED_OUT : Int := 24
def G_IO_ERROR_BUSY : Int := 26
def G_IO_ERROR_HOST_NOT_FOUND : Int := 28
def G_IO_ERROR_INVALID_DATA : Int := 35

/-- The enumerators of the `GEDIT_DOCUMENT_ERROR` domain. They are declared in
`gedit-document.h`, which is not among the sources, so their numeric values are a
parameter of the embedding. -/
structure GeditDocumentErrorCodes where
  GEDIT_DOCUMENT_ERROR_EXTERNALLY_MODIFIED : Int
  GEDIT_DOCUMENT_ERROR_CANT_CREATE_BACKUP : Int
  GEDIT_DOCUMENT_ERROR_TOO_BIG : Int
  GEDIT_DOCUMENT_ERROR_ENCODING_AUTO_DETECTION_FAILED : Int
  GEDIT_DOCUMENT_ERROR_CONVERSION_FALLBACK : Int
  deriving DecidableEq, Repr

/-- A numbering of the document error codes in declaration order, used for concrete
evaluations. -/
def documentErrorCodes : GeditDocumentErrorCodes :=
  { GEDIT_DOCUMENT_ERROR_EXTERNALLY_MODIFIED := 0
    GEDIT_DOCUMENT_ERROR_CANT_CREATE_BACKUP := 1
    GEDIT_DOCUMENT_ERROR_TOO_BIG := 2
    GEDIT_DOCUMENT_ERROR_ENCODING_AUTO_DETECTION_FAILED := 3
    GEDIT_DOCUMENT_ERROR_CONVERSION_FALLBACK := 4 }

/-! ## Collaborators -/

/-- A `GFile`, seen through the calls the file makes on it. -/
structure GFile where
  /-- Result of `g_file_get_parse_name (location)`. -/
  parse_name : String
  /-- Result of `g_file_get_uri_scheme (location)`. -/
  uri_scheme : Option String
  /-- Result of `g_utf8_validate (scheme_string, -1, NULL)`. -/
  uri_scheme_is_utf8 : Bool
  /-- Result of `g_file_get_uri (location)`. -/
  uri : Option String
  /-- Value returned by `gedit_utils_decode_uri (uri, NULL, NULL, &hn, NULL, NULL)`. -/
  decode_uri_ok : Bool
  /-- Host name `hn` set by that call, passed through `gedit_utils_make_valid_utf8`. -/
  host_name : Option String
  deriving DecidableEq, Repr

/-- A `GeditEncoding`, seen through `gedit_encoding_to_string`. -/
structure GeditEncoding where
  to_string : String
  deriving DecidableEq, Repr

def MAX_URI_IN_DIALOG_LENGTH : Nat := 50

/-- The text `g_markup_escape_text` writes for one character: the five markup characters
become entities, the control characters a hexadecimal character reference. -/
def markup_escape_char (c : Char) : String :=
  if c = Char.ofNat 38 then "&amp;"
  else if c = Char.ofNat 60 then "&lt;"
  else if c = Char.ofNat 62 then "&gt;"
  else if c = Char.ofNat 39 then "&apos;"
  else if c = Char.ofNat 34 then "&quot;"
  else
    let n := c.toNat
    if (1 ≤ n ∧ n ≤ 8) ∨ (11 ≤ n ∧ n ≤ 12) ∨ (14 ≤ n ∧ n ≤ 31) ∨
        (127 ≤ n ∧ n ≤ 132) ∨ (134 ≤ n ∧ n ≤ 159) then
      "&#x" ++ String.mk (Nat.toDigits 16 n) ++ ";"
    else String.singleton c

/-- GLib's `g_markup_escape_text`. -/
def g_markup_escape_text (text : String) : String :=
  String.join (text.data.map markup_escape_char)

/-- Modelled from the spec: `gedit_utils_str_middle_truncate` is defined in
`gedit-utils.c`, which is not among the sources. A string of at most `truncate_length`
characters is returned as it is; a longer one keeps its head and its tail and gets one
ellipsis character in the middle, so that the result has `truncate_length` characters.
Lengths too small to hold the ellipsis and one character on each side leave the string
alone. -/
def gedit_utils_str_middle_truncate (string : String) (truncate_length : Nat) : String :=
  let delimiter := "…"
  let delimiter_length := delimiter.length
  if truncate_length < delimiter_length + 2 then string
  else
    let n_chars := string.length
    if n_chars ≤ truncate_length then string
    else
      let num_left_chars := (truncate_length - delimiter_length) / 2
      let right_offset := n_chars - truncate_length + num_left_chars + delimiter_length
      String.mk (string.data.take num_left_chars) ++ delimiter ++
        String.mk (string.data.drop right_offset)

/-- The display form of a location name that every info bar constructor computes:
truncate `full_formatted_uri` in the middle, then
`g_markup_printf_escaped ("<i>%s</i>", temp_uri_for_display)`. -/
def uri_for_display (full_formatted_uri : String) : String :=
  let temp_uri_for_display :=
    gedit_utils_str_middle_truncate full_formatted_uri MAX_URI_IN_DIALOG_LENGTH
  "<i>" ++ g_markup_escape_text temp_uri_for_display ++ "</i>"

/-! ## Info bars -/

/-- The buttons an info bar can carry, named after their labels: `_Retry`, the stock
Cancel button, `Edit Any_way`, `D_on't Edit`, `S_ave Anyway`, `D_on't Save`, `_Reload`. -/
inductive Action where
  | RETRY
  | CANCEL
  | EDIT_ANYWAY
  | DONT_EDIT
  | SAVE_ANYWAY
  | DONT_SAVE
  | RELOAD
  deriving DecidableEq, Repr

/-- The message type set with `gtk_info_bar_set_message_type`. -/
inductive Severity where
  | ERROR
  | WARNING
  deriving DecidableEq, Repr

/-- What an info bar presents: primary and secondary text, the buttons in the order they
are added, the message type, and whether the encoding combo box is attached. -/
structure Decision where
  primaryMessage : String
  secondaryMessage : Option String
  actions : List Action
  severity : Severity
  requiresEncodingChoice : Bool
  deriving DecidableEq, Repr

def is_recoverable_error (error : GError) : Bool :=
  if error.domain = ErrorDomain.G_IO_ERROR then
    if error.code = G_IO_ERROR_PERMISSION_DENIED ∨ error.code = G_IO_ERROR_NOT_FOUND ∨
        error.code = G_IO_ERROR_HOST_NOT_FOUND ∨ error.code = G_IO_ERROR_TIMED_OUT ∨
        error.code = G_IO_ERROR_NOT_MOUNTABLE_FILE ∨ error.code = G_IO_ERROR_NOT_MOUNTED ∨
        error.code = G_IO_ERROR_BUSY then true
    else false
  else false

def is_gio_error (error : GError) (code : Int) : Bool :=
  decide (error.domain = ErrorDomain.G_IO_ERROR) && decide (error.code = code)

/-- The bar starts with the stock Cancel button and the error message type; `_Retry` is
added after it when the error is recoverable. -/
def create_io_loading_error_info_bar (primary_text : String) (secondary_text : Option String)
    (recoverable_error : Bool) : Decision :=
  { primaryMessage := primary_text
    secondaryMessage := secondary_text
    actions := [Action.CANCEL] ++ (if recoverable_error then [Action.RETRY] else [])
    severity := Severity.ERROR
    requiresEncodingChoice := false }

/-- The bar always gets `_Retry` and the combo box (`create_combo_box`); the other
buttons and the message type depend on `edit_anyway`. -/
def create_conversion_error_info_bar (primary_text : String) (secondary_text : Option String)
    (edit_anyway : Bool) : Decision :=
  { primaryMessage := primary_text
    secondaryMessage := secondary_text
    actions := [Action.RETRY] ++
      (if edit_anyway then [Action.EDIT_ANYWAY, Action.DONT_EDIT] else [Action.CANCEL])
    severity := if edit_anyway then Severity.WARNING else Severity.ERROR
    requiresEncodingChoice := true }

/-! ## The generic table -/

/-- The out-parameters of the `parse_*` functions together with their return value. -/
structure ParseState where
  error_message : Option String
  message_details : Option String
  ret : Bool
  deriving DecidableEq, Repr

def parse_gio_error (code : Int) (error_message message_details : Option String)
    (location : Option GFile) (uri_for_display : String) : ParseState :=
  if code = G_IO_ERROR_NOT_FOUND ∨ code = G_IO_ERROR_NOT_DIRECTORY then
    { error_message := some ("Could not find the file " ++ uri_for_display ++ ".")
      message_details :=
        some "Please check that you typed the location correctly and try again."
      ret := true }
  else if code = G_IO_ERROR_NOT_SUPPORTED then
    let scheme_string : Option String :=
      match location with
      | some l => l.uri_scheme
      | none => none
    let scheme_valid : Bool :=
      match location with
      | some l => l.uri_scheme_is_utf8
      | none => false
    match scheme_string with
    | some scheme =>
      if scheme_valid then
        let scheme_markup := "<i>" ++ g_markup_escape_text scheme ++ ":</i>"
        { error_message := error_message
          message_details := some ("gedit cannot handle " ++ scheme_markup ++ " locations.")
          ret := true }
      else
        { error_message := error_message
          message_details := some "gedit cannot handle this location."
          ret := true }
    | none =>
      { error_message := error_message
        message_details := some "gedit cannot handle this location."
        ret := true }
  else if code = G_IO_ERROR_NOT_MOUNTABLE_FILE then
    { error_message := error_message
      message_details := some "The location of the file cannot be mounted."
      ret := true }
  else if code = G_IO_ERROR_NOT_MOUNTED then
    { error_message := error_message
      message_details :=
        some "The location of the file cannot be accessed because it is not mounted."
      ret := true }
  else if code = G_IO_ERROR_IS_DIRECTORY then
    { error_message := some (uri_for_display ++ " is a directory.")
      message_details :=
        some "Please check that you typed the location correctly and try again."
      ret := true }
  else if code = G_IO_ERROR_INVALID_FILENAME then
    { error_message := some (uri_for_display ++ " is not a valid location.")
      message_details :=
        some "Please check that you typed the location correctly and try again."
      ret := true }
  else if code = G_IO_ERROR_HOST_NOT_FOUND then
    let uri : Option String :=
      match location with
      | some l => l.uri
      | none => none
    let hn : Option String :=
      match location with
      | some l => if uri.isSome && l.decode_uri_ok then l.host_name else none
      | none => none
    let details : Option String :=
      match hn with
      | some host_name =>
        let host_markup := "<i>" ++ g_markup_escape_text host_name ++ "</i>"
        some ("Host " ++ host_markup ++
          " could not be found. Please check that your proxy settings are correct and try again.")
      | none => message_details
    { error_message := error_message
      message_details :=
        match details with
        | some d => some d
        | none =>
          some "Hostname was invalid. Please check that you typed the location correctly and try again."
      ret := true }
  else if code = G_IO_ERROR_NOT_REGULAR_FILE then
    { error_message := error_message
      message_details := some (uri_for_display ++ " is not a regular file.")
      ret := true }
  else if code = G_IO_ERROR_TIMED_OUT then
    { error_message := error_message
      message_details := some "Connection timed out. Please try again."
      ret := true }
  else
    { error_message := error_message, message_details := message_details, ret := false }

def parse_gedit_error (K : GeditDocumentErrorCodes) (code : Int)
    (error_message message_details : Option String)
    (_location : Option GFile) (_uri_for_display : String) : ParseState :=
  if code = K.GEDIT_DOCUMENT_ERROR_TOO_BIG then
    { error_message := error_message
      message_details := some "The file is too big."
      ret := true }
  else
    { error_message := error_message, message_details := message_details, ret := false }

/-- What `parse_error` leaves behind: the two out-parameters and the `g_warning` lines
it wrote. -/
structure ParseOutcome where
  error_message : Option String
  message_details : Option String
  warnings : List String
  deriving DecidableEq, Repr

/-- The text of the `g_warning` in `parse_error`; `G_STRFUNC` is `parse_error`. -/
def unhandled_warning (error : GError) : String :=
  "Hit unhandled case " ++ toString error.code ++ " (" ++ error.message ++ ") in parse_error."

def parse_error (K : GeditDocumentErrorCodes) (error : GError)
    (error_message message_details : Option String)
    (location : Option GFile) (uri_for_display : String) : ParseOutcome :=
  let st : ParseState :=
    if error.domain = ErrorDomain.G_IO_ERROR then
      parse_gio_error error.code error_message message_details location uri_for_display
    else if error.domain = ErrorDomain.GEDIT_DOCUMENT_ERROR then
      parse_gedit_error K error.code error_message message_details location uri_for_display
    else
      { error_message := error_message, message_details := message_details, ret := false }
  if st.ret then
    { error_message := st.error_message, message_details := st.message_details, warnings := [] }
  else
    { error_message := st.error_message
      message_details := some ("Unexpected error: " ++ error.message)
      warnings := [unhandled_warning error] }

/-! ## The info bar constructors

The `g_warning` lines of `parse_error` are not part of the value returned by the
constructors; they are observable on `parse_error` itself. The `error` argument is never
`NULL` here. -/

def gedit_unrecoverable_reverting_error_info_bar_new (K : GeditDocumentErrorCodes)
    (location : Option GFile) (error : GError) : Option Decision :=
  match location with
  | none => none
  | some loc =>
    if ¬ (error.domain = ErrorDomain.GEDIT_DOCUMENT_ERROR ∨
          error.domain = ErrorDomain.G_IO_ERROR) then none
    else
      let full_formatted_uri := loc.parse_name
      let uri_for_display := uri_for_display full_formatted_uri
      let r : ParseOutcome :=
        if is_gio_error error G_IO_ERROR_NOT_FOUND then
          { error_message := none
            message_details :=
              some "gedit cannot find the file. Perhaps it has recently been deleted."
            warnings := [] }
        else
          parse_error K error none none location uri_for_display
      let error_message : String :=
        match r.error_message with
        | some m => m
        | none => "Could not revert the file " ++ uri_for_display ++ "."
      some (create_io_loading_error_info_bar error_message r.message_details false)

/-- The four locals the branches of `gedit_io_loading_error_info_bar_new` assign. -/
structure LoadState where
  error_message : Option String
  message_details : Option String
  edit_anyway : Bool
  convert_error : Bool
  deriving DecidableEq, Repr

def gedit_io_loading_error_info_bar_new (K : GeditDocumentErrorCodes)
    (location : Option GFile) (encoding : Option GeditEncoding) (error : GError) :
    Option Decision :=
  if ¬ (error.domain = ErrorDomain.G_CONVERT_ERROR ∨
        error.domain = ErrorDomain.GEDIT_DOCUMENT_ERROR ∨
        error.domain = ErrorDomain.G_IO_ERROR) then none
  else
    let full_formatted_uri : String :=
      match location with
      | some loc => loc.parse_name
      | none => "stdin"
    let uri_for_display := uri_for_display full_formatted_uri
    let encoding_name : String :=
      match encoding with
      | some enc => enc.to_string
      | none => "UTF-8"
    let st : LoadState :=
      if is_gio_error error G_IO_ERROR_TOO_MANY_LINKS then
        { error_message := none
          message_details := some "The number of followed links is limited and the actual file could not be found within this limit."
          edit_anyway := false, convert_error := false }
      else if is_gio_error error G_IO_ERROR_PERMISSION_DENIED then
        { error_message := none
          message_details := some "You do not have the permissions necessary to open the file."
          edit_anyway := false, convert_error := false }
      else if (is_gio_error error G_IO_ERROR_INVALID_DATA && encoding.isNone) ||
          (decide (error.domain = ErrorDomain.GEDIT_DOCUMENT_ERROR) &&
           decide (error.code = K.GEDIT_DOCUMENT_ERROR_ENCODING_AUTO_DETECTION_FAILED)) then
        { error_message := none
          message_details := some ("gedit has not been able to detect the character encoding." ++
            "\n" ++ "Please check that you are not trying to open a binary file." ++
            "\n" ++ "Select a character encoding from the menu and try again.")
          edit_anyway := false, convert_error := true }
      else if decide (error.domain = ErrorDomain.GEDIT_DOCUMENT_ERROR) &&
          decide (error.code = K.GEDIT_DOCUMENT_ERROR_CONVERSION_FALLBACK) then
        { error_message := some ("There was a problem opening the file " ++ uri_for_display ++ ".")
          message_details := some ("The file you opened has some invalid characters. If you continue editing this file you could make this document useless." ++
            "\n" ++ "You can also choose another character encoding and try again.")
          edit_anyway := true, convert_error := true }
      else if is_gio_error error G_IO_ERROR_INVALID_DATA && encoding.isSome then
        { error_message := some ("Could not open the file " ++ uri_for_display ++ " using the " ++
            encoding_name ++ " character encoding.")
          message_details := some ("Please check that you are not trying to open a binary file." ++
            "\n" ++ "Select a different character encoding from the menu and try again.")
          edit_anyway := false, convert_error := true }
      else
        let r := parse_error K error none none location uri_for_display
        { error_message := r.error_message, message_details := r.message_details
          edit_anyway := false, convert_error := false }
    let error_message : String :=
      match st.error_message with
      | some m => m
      | none => "Could not open the file " ++ uri_for_display ++ "."
    if st.convert_error then
      some (create_conversion_error_info_bar error_message st.message_details st.edit_anyway)
    else
      some (create_io_loading_error_info_bar error_message st.message_details
        (is_recoverable_error error))

def gedit_conversion_error_while_saving_info_bar_new (location : Option GFile)
    (encoding : Option GeditEncoding) (error : GError) : Option Decision :=
  match location with
  | none => none
  | some loc =>
    if ¬ (error.domain = ErrorDomain.G_CONVERT_ERROR ∨
          error.domain = ErrorDomain.G_IO_ERROR) then none
    else
      match encoding with
      | none => none
      | some enc =>
        let uri_for_display := uri_for_display loc.parse_name
        let encoding_name := enc.to_string
        let error_message := "Could not save the file " ++ uri_for_display ++ " using the " ++
          encoding_name ++ " character encoding."
        let message_details := "The document contains one or more characters that cannot be encoded using the specified character encoding." ++
          "\n" ++ "Select a different character encoding from the menu and try again."
        some (create_conversion_error_info_bar error_message (some message_details) false)

def gedit_file_already_open_warning_info_bar_new (location : Option GFile) : Option Decision :=
  match location with
  | none => none
  | some loc =>
    let uri_for_display := uri_for_display loc.parse_name
    some
      { primaryMessage :=
          "This file (" ++ uri_for_display ++ ") is already open in another gedit window."
        secondaryMessage := some "gedit opened this instance of the file in a non-editable way. Do you want to edit it anyway?"
        actions := [Action.EDIT_ANYWAY, Action.DONT_EDIT]
        severity := Severity.WARNING
        requiresEncodingChoice := false }

def gedit_externally_modified_saving_error_info_bar_new (K : GeditDocumentErrorCodes)
    (location : Option GFile) (error : GError) : Option Decision :=
  match location with
  | none => none
  | some loc =>
    if ¬ (error.domain = ErrorDomain.GEDIT_DOCUMENT_ERROR) then none
    else if ¬ (error.code = K.GEDIT_DOCUMENT_ERROR_EXTERNALLY_MODIFIED) then none
    else
      let uri_for_display := uri_for_display loc.parse_name
      some
        { primaryMessage :=
            "The file " ++ uri_for_display ++ " has been modified since reading it."
          secondaryMessage :=
            some "If you save it, all the external changes could be lost. Save it anyway?"
          actions := [Action.SAVE_ANYWAY, Action.DONT_SAVE]
          severity := Severity.WARNING
          requiresEncodingChoice := false }

/-- The constructor reads the boolean setting `GEDIT_SETTINGS_CREATE_BACKUP_COPY`; its
value is the argument `create_backup_copy`. -/
def gedit_no_backup_saving_error_info_bar_new (K : GeditDocumentErrorCodes)
    (create_backup_copy : Bool) (location : Option GFile) (error : GError) : Option Decision :=
  match location with
  | none => none
  | some loc =>
    if ¬ ((error.domain = ErrorDomain.GEDIT_DOCUMENT_ERROR ∧
            error.code = K.GEDIT_DOCUMENT_ERROR_CANT_CREATE_BACKUP) ∨
          (error.domain = ErrorDomain.G_IO_ERROR ∧
            error.code = G_IO_ERROR_CANT_CREATE_BACKUP)) then none
    else
      let uri_for_display := uri_for_display loc.parse_name
      let primary_text :=
        if create_backup_copy then
          "Could not create a backup file while saving " ++ uri_for_display
        else
          "Could not create a temporary backup file while saving " ++ uri_for_display
      some
        { primaryMessage := primary_text
          secondaryMessage := some "gedit could not back up the old copy of the file before saving the new one. You can ignore this warning and save the file anyway, but if an error occurs while saving, you could lose the old copy of the file. Save anyway?"
          actions := [Action.SAVE_ANYWAY, Action.DONT_SAVE]
          severity := Severity.WARNING
          requiresEncodingChoice := false }

def gedit_unrecoverable_saving_error_info_bar_new (K : GeditDocumentErrorCodes)
    (location : Option GFile) (error : GError) : Option Decision :=
  match location with
  | none => none
  | some loc =>
    if ¬ (error.domain = ErrorDomain.GEDIT_DOCUMENT_ERROR ∨
          error.domain = ErrorDomain.G_IO_ERROR) then none
    else
      let uri_for_display := uri_for_display loc.parse_name
      let r : ParseOutcome :=
        if is_gio_error error G_IO_ERROR_NOT_SUPPORTED then
          let details : String :=
            match loc.uri_scheme with
            | some scheme =>
              if loc.uri_scheme_is_utf8 then
                let scheme_markup := "<i>" ++ g_markup_escape_text scheme ++ ":</i>"
                "gedit cannot handle " ++ scheme_markup ++
                  " locations in write mode. Please check that you typed the location correctly and try again."
              else
                "gedit cannot handle this location in write mode. Please check that you typed the location correctly and try again."
            | none =>
              "gedit cannot handle this location in write mode. Please check that you typed the location correctly and try again."
          { error_message := none, message_details := some details, warnings := [] }
        else if is_gio_error error G_IO_ERROR_INVALID_FILENAME then
          { error_message := none
            message_details := some "%s is not a valid location. Please check that you typed the location correctly and try again."
            warnings := [] }
        else if is_gio_error error G_IO_ERROR_PERMISSION_DENIED then
          { error_message := none
            message_details := some "You do not have the permissions necessary to save the file. Please check that you typed the location correctly and try again."
            warnings := [] }
        else if is_gio_error error G_IO_ERROR_NO_SPACE then
          { error_message := none
            message_details := some "There is not enough disk space to save the file. Please free some disk space and try again."
            warnings := [] }
        else if is_gio_error error G_IO_ERROR_READ_ONLY then
          { error_message := none
            message_details := some "You are trying to save the file on a read-only disk. Please check that you typed the location correctly and try again."
            warnings := [] }
        else if is_gio_error error G_IO_ERROR_EXISTS then
          { error_message := none
            message_details :=
              some "A file with the same name already exists. Please use a different name."
            warnings := [] }
        else if is_gio_error error G_IO_ERROR_FILENAME_TOO_LONG then
          { error_message := none
            message_details := some "The disk where you are trying to save the file has a limitation on length of the file names. Please use a shorter name."
            warnings := [] }
        else if decide (error.domain = ErrorDomain.GEDIT_DOCUMENT_ERROR) &&
            decide (error.code = K.GEDIT_DOCUMENT_ERROR_TOO_BIG) then
          { error_message := none
            message_details := some "The disk where you are trying to save the file has a limitation on file sizes. Please try saving a smaller file or saving it to a disk that does not have this limitation."
            warnings := [] }
        else
          parse_error K error none none location uri_for_display
      let error_message : String :=
        match r.error_message with
        | some m => m
        | none => "Could not save the file " ++ uri_for_display ++ "."
      some (create_io_loading_error_info_bar error_message r.message_details false)

def gedit_externally_modified_info_bar_new (location : Option GFile)
    (document_modified : Bool) : Option Decision :=
  match location with
  | none => none
  | some loc =>
    let uri_for_display := uri_for_display loc.parse_name
    let primary_text := "The file " ++ uri_for_display ++ " changed on disk."
    let secondary_text :=
      if document_modified then "Do you want to drop your changes and reload the file?"
      else "Do you want to reload the file?"
    some
      { primaryMessage := primary_text
        secondaryMessage := some secondary_text
        actions := [Action.RELOAD, Action.CANCEL]
        severity := Severity.WARNING
        requiresEncodingChoice := false }

/-! ## The print job -/

/-- The job status (`GeditPrintJobStatus`). -/
inductive GeditPrintJobStatus where
  | GEDIT_PRINT_JOB_STATUS_INIT
  | GEDIT_PRINT_JOB_STATUS_PAGINATING
  | GEDIT_PRINT_JOB_STATUS_DRAWING
  | GEDIT_PRINT_JOB_STATUS_DONE
  deriving DecidableEq, Repr

/-- The result a job reports (`GeditPrintJobResult`). -/
inductive GeditPrintJobResult where
  | GEDIT_PRINT_JOB_RESULT_OK
  | GEDIT_PRINT_JOB_RESULT_CANCEL
  | GEDIT_PRINT_JOB_RESULT_ERROR
  deriving DecidableEq, Repr

inductive GtkWrapMode where
  | GTK_WRAP_NONE
  | GTK_WRAP_CHAR
  | GTK_WRAP_WORD
  | GTK_WRAP_WORD_CHAR
  deriving DecidableEq, Repr

/-- The keys of `org.gnome.gedit.preferences.print` that the job reads. -/
structure PrintSettings where
  print_font_body : String
  print_font_header : String
  print_font_numbers : String
  print_syntax_highlighting : Bool
  print_line_numbers : Nat
  print_header : Bool
  print_wrap_mode : GtkWrapMode
  deriving DecidableEq, Repr

/-- The properties `create_compositor` gives the `GtkSourcePrintCompositor`; the header
format is the left and the right text set by
`gtk_source_print_compositor_set_header_format`. -/
structure GtkSourcePrintCompositor where
  tab_width : Nat
  highlight_syntax : Bool
  wrap_mode : GtkWrapMode
  print_line_numbers : Nat
  print_header : Bool
  print_footer : Bool
  body_font_name : String
  line_numbers_font_name : String
  header_font_name : String
  header_format : Option (String × String)
  deriving DecidableEq, Repr

/-- The signals a job emits, with their arguments. -/
inductive Signal where
  | PRINTING (status : GeditPrintJobStatus)
  | SHOW_PREVIEW
  | DONE (result : GeditPrintJobResult) (error : Option GError)
  deriving DecidableEq, Repr

/-- The private data of a `GeditPrintJob`. Of the view and the document it keeps what
the job reads from them; `operation` says whether the pointer is set. -/
structure GeditPrintJob where
  print_settings : PrintSettings
  view_tab_width : Nat
  doc_highlight_syntax : Bool
  doc_uri_for_display : String
  operation : Bool
  compositor : Option GtkSourcePrintCompositor
  status : GeditPrintJobStatus
  status_string : String
  progress : ℚ
  is_preview : Bool
  deriving DecidableEq, Repr

def create_compositor (job : GeditPrintJob) : GeditPrintJob :=
  let print_header := job.print_settings.print_header
  let header_format : Option (String × String) :=
    if print_header then
      let name_to_display := gedit_utils_str_middle_truncate job.doc_uri_for_display 60
      let left := "File: " ++ name_to_display
      some (left, "Page %N of %Q")
    else none
  { job with
    compositor := some
      { tab_width := job.view_tab_width
        highlight_syntax :=
          job.doc_highlight_syntax && job.print_settings.print_syntax_highlighting
        wrap_mode := job.print_settings.print_wrap_mode
        print_line_numbers := job.print_settings.print_line_numbers
        print_header := print_header
        print_footer := false
        body_font_name := job.print_settings.print_font_body
        line_numbers_font_name := job.print_settings.print_font_numbers
        header_font_name := job.print_settings.print_font_header
        header_format := header_format } }

/-- The callback returns the job it leaves behind and the signals it emitted. -/
def begin_print_cb (job : GeditPrintJob) : GeditPrintJob × List Signal :=
  let job := create_compositor job
  let job := { job with status := GeditPrintJobStatus.GEDIT_PRINT_JOB_STATUS_PAGINATING }
  let job := { job with progress := 0 }
  (job, [Signal.PRINTING job.status])

/-- The values of `GtkPrintOperationResult`; `other` stands for any integer outside the
enumeration. -/
inductive GtkPrintOperationResult where
  | GTK_PRINT_OPERATION_RESULT_ERROR
  | GTK_PRINT_OPERATION_RESULT_APPLY
  | GTK_PRINT_OPERATION_RESULT_CANCEL
  | GTK_PRINT_OPERATION_RESULT_IN_PROGRESS
  | other (value : Int)
  deriving DecidableEq, Repr

inductive GtkPrintOperationAction where
  | GTK_PRINT_OPERATION_ACTION_PRINT_DIALOG
  | GTK_PRINT_OPERATION_ACTION_PRINT
  | GTK_PRINT_OPERATION_ACTION_PREVIEW
  | GTK_PRINT_OPERATION_ACTION_EXPORT
  deriving DecidableEq, Repr

/-- The handler of the `ready` signal of the preview. -/
def preview_ready (job : GeditPrintJob) : GeditPrintJob × List Signal :=
  let job := { job with is_preview := true }
  (job, [Signal.SHOW_PREVIEW])

/-- What `paginate_cb` leaves behind: the job, the signals it emitted, the page count it
passed to `gtk_print_operation_set_n_pages` if it did, and its return value. -/
structure PaginateOutcome where
  job : GeditPrintJob
  signals : List Signal
  n_pages_set : Option Int
  res : Bool
  deriving DecidableEq, Repr

/-- The answers of the compositor are arguments: `res` is what
`gtk_source_print_compositor_paginate` returns, `n_pages` what
`gtk_source_print_compositor_get_n_pages` returns and `pagination_progress` what
`gtk_source_print_compositor_get_pagination_progress` returns. -/
def paginate_cb (job : GeditPrintJob) (res : Bool) (n_pages : Int)
    (pagination_progress : ℚ) : PaginateOutcome :=
  let job := { job with status := GeditPrintJobStatus.GEDIT_PRINT_JOB_STATUS_PAGINATING }
  let n_pages_set : Option Int := if res then some n_pages else none
  let job := { job with progress := pagination_progress }
  let job := if ¬ job.is_preview then { job with progress := job.progress / 2 } else job
  { job := job, signals := [Signal.PRINTING job.status], n_pages_set := n_pages_set, res := res }

/-- The page count `n_pages` is what `gtk_source_print_compositor_get_n_pages` returns.
Page numbers are `gint`; they are integers here, and `page_nr + 1` is their successor,
which is what the code computes for every page number below `G_MAXINT`. The progress is
the exact value of `page_nr / (2.0 * n_pages) + 0.5`; the code evaluates the expression
in `gdouble` arithmetic, which rounds the quotient and the sum to a double each. -/
def draw_page_cb (job : GeditPrintJob) (page_nr : Int) (n_pages : Int) :
    GeditPrintJob × List Signal :=
  if ¬ job.is_preview then
    let job := { job with status := GeditPrintJobStatus.GEDIT_PRINT_JOB_STATUS_DRAWING }
    let job := { job with
      status_string :=
        "Rendering page " ++ toString (page_nr + 1) ++ " of " ++ toString n_pages ++ "..." }
    let job := { job with progress := (page_nr : ℚ) / (2 * (n_pages : ℚ)) + 1 / 2 }
    (job, [Signal.PRINTING job.status])
  else (job, [])

def end_print_cb (job : GeditPrintJob) : GeditPrintJob :=
  if job.compositor.isSome then { job with compositor := none } else job

/-- The argument `operation_error` is what `gtk_print_operation_get_error` stores for the
operation. -/
def done_cb (job : GeditPrintJob) (result : GtkPrintOperationResult)
    (operation_error : Option GError) : GeditPrintJob × List Signal :=
  match result with
  | GtkPrintOperationResult.GTK_PRINT_OPERATION_RESULT_CANCEL =>
    ({ job with operation := false },
      [Signal.DONE GeditPrintJobResult.GEDIT_PRINT_JOB_RESULT_CANCEL none])
  | GtkPrintOperationResult.GTK_PRINT_OPERATION_RESULT_APPLY =>
    ({ job with operation := false },
      [Signal.DONE GeditPrintJobResult.GEDIT_PRINT_JOB_RESULT_OK none])
  | GtkPrintOperationResult.GTK_PRINT_OPERATION_RESULT_ERROR =>
    ({ job with operation := false },
      [Signal.DONE GeditPrintJobResult.GEDIT_PRINT_JOB_RESULT_ERROR operation_error])
  | _ => (job, [])

/-- The calls `gedit_print_job_print` makes on the print engine. -/
inductive PrintCall where
  | gtk_print_operation_new
  | gtk_print_operation_run (action : GtkPrintOperationAction)
  deriving DecidableEq, Repr

/-- What `gedit_print_job_print` leaves behind: the job, the calls it made on the print
engine, and its return value. -/
structure PrintOutcome where
  job : GeditPrintJob
  calls : List PrintCall
  result : GtkPrintOperationResult
  deriving DecidableEq, Repr

/-- The argument `run_result` is what `gtk_print_operation_run` returns. The callbacks
the operation fires during and after the run are separate steps. -/
def gedit_print_job_print (job : GeditPrintJob) (action : GtkPrintOperationAction)
    (run_result : GtkPrintOperationResult) : PrintOutcome :=
  if ¬ (job.compositor = none) then
    { job := job, calls := []
      result := GtkPrintOperationResult.GTK_PRINT_OPERATION_RESULT_ERROR }
  else
    let job := { job with
      is_preview := decide (action = GtkPrintOperationAction.GTK_PRINT_OPERATION_ACTION_PREVIEW) }
    let job := { job with operation := true }
    { job := job
      calls := [PrintCall.gtk_print_operation_new, PrintCall.gtk_print_operation_run action]
      result := run_result }

/-- The job after `gedit_print_job_init` and the construction property `view`: the
settings object and the data of the view are arguments, every other field of the
zero-filled private data is as `gedit_print_job_init` leaves it. -/
def gedit_print_job_new (print_settings : PrintSettings) (view_tab_width : Nat)
    ( doc_highlight_syntax : Bool) (doc_uri_for_display : String) : GeditPrintJob :=
  { print_settings := print_settings
    view_tab_width := view_tab_width
    doc_highlight_syntax := doc_highlight_syntax
    doc_uri_for_display := doc_uri_for_display
    operation := false
    compositor := none
    status := GeditPrintJobStatus.GEDIT_PRINT_JOB_STATUS_INIT
    status_string := "Preparing..."
    progress := 0
    is_preview := false }

def gedit_print_job_get_status_string (job : GeditPrintJob) : String :=
  job.status_string

def gedit_print_job_get_progress (job : GeditPrintJob) : ℚ :=
  job.progress

/-! ## The print preferences tab -/

/-- The widgets of the custom tab of the print dialog, as far as the two callbacks read
or write them. The job holds pointers to them only while the dialog is shown, so their
state is a value of its own here. A check button is its `active` flag; the spin button is
the integer `gtk_spin_button_get_value_as_int` returns, with the bounds of its
adjustment; a font button is its font name. -/
structure PrintPreferencesWidget where
  syntax_checkbutton : Bool
  page_header_checkbutton : Bool
  line_numbers_checkbutton : Bool
  line_numbers_hbox_sensitive : Bool
  line_numbers_spinbutton : Int
  line_numbers_spinbutton_lower : Int
  line_numbers_spinbutton_upper : Int
  text_wrapping_checkbutton : Bool
  do_not_split_checkbutton : Bool
  do_not_split_checkbutton_inconsistent : Bool
  do_not_split_checkbutton_sensitive : Bool
  body_fontbutton : String
  headers_fontbutton : String
  numbers_fontbutton : String
  deriving DecidableEq, Repr

/-- The macro `CLAMP (x, low, high)` of GLib. -/
def CLAMP (x low high : Int) : Int :=
  if x > high then high else if x < low then low else x

/-- The macro `MAX (a, b)` of GLib. -/
def MAX (a b : Int) : Int :=
  if a > b then a else b

/-- GTK keeps the value of a spin button within the bounds of its adjustment. -/
def gtk_spin_button_set_value (widget : PrintPreferencesWidget) (value : Int) :
    PrintPreferencesWidget :=
  { widget with
    line_numbers_spinbutton :=
      CLAMP value widget.line_numbers_spinbutton_lower widget.line_numbers_spinbutton_upper }

/-- The `gint` a 32-bit unsigned value is read as. -/
def guint_as_gint (n : Nat) : Int :=
  if n % 2 ^ 32 < 2 ^ 31 then ((n % 2 ^ 32 : Nat) : Int) else ((n % 2 ^ 32 : Nat) : Int) - 2 ^ 32

/-- The `guint` an `int` is converted to. -/
def gint_as_guint (i : Int) : Nat :=
  (i % 2 ^ 32).toNat

/-- The argument `ui` is the state of the widgets as the builder creates them from
`gedit-print-preferences.ui`. The handlers of `toggled` and `clicked` are connected
after the widgets are filled, so none of them runs here. -/
def create_custom_widget_cb (job : GeditPrintJob) (ui : PrintPreferencesWidget) :
    PrintPreferencesWidget :=
  let syntax_hl := job.print_settings.print_syntax_highlighting
  let print_header := job.print_settings.print_header
  let line_numbers : Int := guint_as_gint job.print_settings.print_line_numbers
  let font_body := job.print_settings.print_font_body
  let font_header := job.print_settings.print_font_header
  let font_numbers := job.print_settings.print_font_numbers
  let w := { ui with syntax_checkbutton := syntax_hl }
  let w := { w with page_header_checkbutton := print_header }
  let w := { w with line_numbers_checkbutton := decide (line_numbers > 0) }
  let w :=
    if line_numbers > 0 then
      let w := gtk_spin_button_set_value w (gint_as_guint line_numbers)
      { w with line_numbers_hbox_sensitive := true }
    else
      let w := gtk_spin_button_set_value w 1
      { w with line_numbers_hbox_sensitive := false }
  let wrap_mode := job.print_settings.print_wrap_mode
  let w :=
    match wrap_mode with
    | GtkWrapMode.GTK_WRAP_WORD =>
      { w with text_wrapping_checkbutton := true, do_not_split_checkbutton := true }
    | GtkWrapMode.GTK_WRAP_CHAR =>
      { w with text_wrapping_checkbutton := true, do_not_split_checkbutton := false }
    | _ =>
      { w with text_wrapping_checkbutton := false
               do_not_split_checkbutton_inconsistent := true }
  let w := { w with
    do_not_split_checkbutton_sensitive := decide (wrap_mode ≠ GtkWrapMode.GTK_WRAP_NONE) }
  let w := { w with body_fontbutton := font_body }
  let w := { w with headers_fontbutton := font_header }
  { w with numbers_fontbutton := font_numbers }

/-- The callback writes the state of the widgets to the settings of the job. -/
def custom_widget_apply_cb (job : GeditPrintJob) (widget : PrintPreferencesWidget) :
    GeditPrintJob :=
  let syntax_active := widget.syntax_checkbutton
  let page_header := widget.page_header_checkbutton
  let body := widget.body_fontbutton
  let header := widget.headers_fontbutton
  let numbers := widget.numbers_fontbutton
  let line_numbers : Nat :=
    if widget.line_numbers_checkbutton then
      gint_as_guint (MAX 1 widget.line_numbers_spinbutton)
    else 0
  let wrap_mode : GtkWrapMode :=
    if ¬ widget.text_wrapping_checkbutton then GtkWrapMode.GTK_WRAP_NONE
    else if widget.do_not_split_checkbutton then GtkWrapMode.GTK_WRAP_WORD
    else GtkWrapMode.GTK_WRAP_CHAR
  { job with
    print_settings :=
      { print_font_body := body
        print_font_header := header
        print_font_numbers := numbers
        print_syntax_highlighting := syntax_active
        print_line_numbers := line_numbers
        print_header := page_header
        print_wrap_mode := wrap_mode } }

/-! ## Vocabulary of the statements -/

/-- The codes `parse_gio_error` has a case for. -/
def gio_error_handled (code : Int) : Prop :=
  code = G_IO_ERROR_NOT_FOUND ∨ code = G_IO_ERROR_NOT_DIRECTORY ∨
  code = G_IO_ERROR_NOT_SUPPORTED ∨ code = G_IO_ERROR_NOT_MOUNTABLE_FILE ∨
  code = G_IO_ERROR_NOT_MOUNTED ∨ code = G_IO_ERROR_IS_DIRECTORY ∨
  code = G_IO_ERROR_INVALID_FILENAME ∨ code = G_IO_ERROR_HOST_NOT_FOUND ∨
  code = G_IO_ERROR_NOT_REGULAR_FILE ∨ code = G_IO_ERROR_TIMED_OUT

instance (code : Int) : Decidable (gio_error_handled code) := by
  unfold gio_error_handled; infer_instance

/-- The errors the generic table of `parse_error` has an entry for: the cases of
`parse_gio_error` in the I/O domain and the one case of `parse_gedit_error` in the
document domain. -/
def error_handled (K : GeditDocumentErrorCodes) (error : GError) : Prop :=
  (error.domain = ErrorDomain.G_IO_ERROR ∧ gio_error_handled error.code) ∨
  (error.domain = ErrorDomain.GEDIT_DOCUMENT_ERROR ∧
    error.code = K.GEDIT_DOCUMENT_ERROR_TOO_BIG)

instance (K : GeditDocumentErrorCodes) (error : GError) : Decidable (error_handled K error) := by
  unfold error_handled; infer_instance

/-- The codes `is_recoverable_error` marks as recoverable in the I/O domain. -/
def recoverable_code (code : Int) : Prop :=
  code = G_IO_ERROR_PERMISSION_DENIED ∨ code = G_IO_ERROR_NOT_FOUND ∨
  code = G_IO_ERROR_HOST_NOT_FOUND ∨ code = G_IO_ERROR_TIMED_OUT ∨
  code = G_IO_ERROR_NOT_MOUNTABLE_FILE ∨ code = G_IO_ERROR_NOT_MOUNTED ∨
  code = G_IO_ERROR_BUSY

instance (code : Int) : Decidable (recoverable_code code) := by
  unfold recoverable_code; infer_instance

/-- The name an info bar constructor shows for its location argument; only
`gedit_io_loading_error_info_bar_new` accepts an absent location and calls it `stdin`. -/
def display_name (location : Option GFile) : String :=
  match location with
  | some loc => loc.parse_name
  | none => "stdin"

/-- The string `part` occurs in `text` with something before and something after it. -/
def occurs_inside (part text : String) : Prop :=
  ∃ before after : String, before ≠ "" ∧ after ≠ "" ∧ text = before ++ part ++ after

/-- The primary text of the bar `d` contains the display form of `location`: the display
name truncated in the middle to `MAX_URI_IN_DIALOG_LENGTH` characters, then escaped for
markup and wrapped in `<i>`. -/
def shows_location (d : Decision) (location : Option GFile) : Prop :=
  ∃ pre suf : String,
    d.primaryMessage =
      pre ++
        ("<i>" ++
          g_markup_escape_text
            (gedit_utils_str_middle_truncate (display_name location) MAX_URI_IN_DIALOG_LENGTH) ++
          "</i>") ++
        suf

/-- The callbacks the print operation fires on a job, with the answers of the engine
they read. -/
inductive PrintEvent where
  | begin_print
  | paginate (res : Bool) (n_pages : Int) (pagination_progress : ℚ)
  | draw_page (page_nr : Int) (n_pages : Int)
  | end_print
  | done (result : GtkPrintOperationResult) (operation_error : Option GError)
  deriving DecidableEq, Repr

/-- The job after one callback. -/
def print_step (job : GeditPrintJob) (event : PrintEvent) : GeditPrintJob :=
  match event with
  | PrintEvent.begin_print => (begin_print_cb job).1
  | PrintEvent.paginate res n_pages pagination_progress =>
    (paginate_cb job res n_pages pagination_progress).job
  | PrintEvent.draw_page page_nr n_pages => (draw_page_cb job page_nr n_pages).1
  | PrintEvent.end_print => end_print_cb job
  | PrintEvent.done result operation_error => (done_cb job result operation_error).1

/-- The job after a sequence of callbacks. -/
def print_run (job : GeditPrintJob) (events : List PrintEvent) : GeditPrintJob :=
  events.foldl print_step job

/-- The jobs after each callback of a sequence, in order. -/
def print_trace (job : GeditPrintJob) : List PrintEvent → List GeditPrintJob
  | [] => []
  | event :: events => print_step job event :: print_trace (print_step job event) events

/-- The place of a status in the order INIT, PAGINATING, DRAWING, DONE. -/
def phase_rank (status : GeditPrintJobStatus) : Nat :=
  match status with
  | GeditPrintJobStatus.GEDIT_PRINT_JOB_STATUS_INIT => 0
  | GeditPrintJobStatus.GEDIT_PRINT_JOB_STATUS_PAGINATING => 1
  | GeditPrintJobStatus.GEDIT_PRINT_JOB_STATUS_DRAWING => 2
  | GeditPrintJobStatus.GEDIT_PRINT_JOB_STATUS_DONE => 3

/-- The event is `begin_print` or a `paginate` step. -/
def sets_paginating (event : PrintEvent) : Bool :=
  match event with
  | PrintEvent.begin_print => true
  | PrintEvent.paginate _ _ _ => true
  | _ => false

/-- The event is a `draw_page` step. -/
def is_draw_page (event : PrintEvent) : Bool :=
  match event with
  | PrintEvent.draw_page _ _ => true
  | _ => false

/-- The engine's report in the event is in range: a pagination progress lies in [0, 1],
a page number is at least 0 and below the page count. -/
def event_in_range (event : PrintEvent) : Prop :=
  match event with
  | PrintEvent.paginate _ _ pagination_progress =>
    0 ≤ pagination_progress ∧ pagination_progress ≤ 1
  | PrintEvent.draw_page page_nr n_pages => 0 ≤ page_nr ∧ page_nr < n_pages
  | _ => True

/-- A fresh job for concrete evaluations: default fonts, a header, line numbers off. -/
def sample_print_job : GeditPrintJob :=
  gedit_print_job_new
    { print_font_body := "Monospace 9"
      print_font_header := "Sans 11"
      print_font_numbers := "Sans 8"
      print_syntax_highlighting := true
      print_line_numbers := 0
      print_header := true
      print_wrap_mode := GtkWrapMode.GTK_WRAP_WORD }
    8 true "/tmp/notes.txt"

/-- The widgets of the print preferences tab for concrete evaluations: nothing checked,
a spin button from 1 to 100. -/
def sample_preferences_ui : PrintPreferencesWidget :=
  { syntax_checkbutton := false
    page_header_checkbutton := false
    line_numbers_checkbutton := false
    line_numbers_hbox_sensitive := true
    line_numbers_spinbutton := 1
    line_numbers_spinbutton_lower := 1
    line_numbers_spinbutton_upper := 100
    text_wrapping_checkbutton := false
    do_not_split_checkbutton := false
    do_not_split_checkbutton_inconsistent := false
    do_not_split_checkbutton_sensitive := true
    body_fontbutton := ""
    headers_fontbutton := ""
    numbers_fontbutton := "" }

/-- The text `part` occurs somewhere in `text`. -/
def contains_text (part text : String) : Prop :=
  ∃ before after : String, text = before ++ part ++ after

/-- The characters `g_markup_escape_text` copies as they are: every character but the five
markup characters and the control characters that it writes as character references. -/
def markup_plain (c : Char) : Prop :=
  c ≠ Char.ofNat 38 ∧ c ≠ Char.ofNat 60 ∧ c ≠ Char.ofNat 62 ∧ c ≠ Char.ofNat 39 ∧
  c ≠ Char.ofNat 34 ∧
  ¬ ((1 ≤ c.toNat ∧ c.toNat ≤ 8) ∨ (11 ≤ c.toNat ∧ c.toNat ≤ 12) ∨
      (14 ≤ c.toNat ∧ c.toNat ≤ 31) ∨ (127 ≤ c.toNat ∧ c.toNat ≤ 132) ∨
      (134 ≤ c.toNat ∧ c.toNat ≤ 159))

instance : DecidablePred markup_plain := fun c => by
  unfold markup_plain; infer_instance

/-- The character `c` is none of the characters that open or close a tag (`<`, `>`) or
delimit an attribute value (the two quotes) in markup. -/
def no_markup_delimiter (c : Char) : Prop :=
  c ≠ Char.ofNat 60 ∧ c ≠ Char.ofNat 62 ∧ c ≠ Char.ofNat 34 ∧ c ≠ Char.ofNat 39

instance : DecidablePred no_markup_delimiter := fun c => by
  unfold no_markup_delimiter; infer_instance

/-- A location whose name holds markup characters. -/
def sample_markup_location : GFile :=
  { parse_name := "/tmp/a&b <draft>.txt"
    uri_scheme := some "file"
    uri_scheme_is_utf8 := true
    uri := some "file:///tmp/a%26b%20%3Cdraft%3E.txt"
    decode_uri_ok := true
    host_name := none }

/-! ## Lemmas on the generic table -/

theorem parse_gio_error_spec (code : Int) (em md : Option String)
    (location : Option GFile) (u : String) :
    (gio_error_handled code →
      (parse_gio_error code em md location u).ret = true ∧
      (parse_gio_error code em md location u).message_details.isSome = true ∧
      ((parse_gio_error code em md location u).error_message = em ∨
        ∃ pre suf, (parse_gio_error code em md location u).error_message =
          some (pre ++ u ++ suf))) ∧
    (¬ gio_error_handled code →
      parse_gio_error code em md location u =
        { error_message := em, message_details := md, ret := false }) := by
  unfold gio_error_handled parse_gio_error
  by_cases h1 : code = G_IO_ERROR_NOT_FOUND ∨ code = G_IO_ERROR_NOT_DIRECTORY
  · rw [if_pos h1]
    refine ⟨fun _ => ⟨rfl, rfl, Or.inr ⟨"Could not find the file ", ".", rfl⟩⟩, fun h => ?_⟩
    exact absurd (by tauto) h
  rw [if_neg h1]
  by_cases h2 : code = G_IO_ERROR_NOT_SUPPORTED
  · rw [if_pos h2]
    refine ⟨fun _ => ?_, fun h => absurd (by tauto) h⟩
    cases location with
    | none => exact ⟨rfl, rfl, Or.inl rfl⟩
    | some l =>
      simp only []
      cases l.uri_scheme with
      | none => exact ⟨rfl, rfl, Or.inl rfl⟩
      | some s =>
        simp only []
        cases l.uri_scheme_is_utf8
        · exact ⟨rfl, rfl, Or.inl rfl⟩
        · exact ⟨rfl, rfl, Or.inl rfl⟩
  rw [if_neg h2]
  by_cases h3 : code = G_IO_ERROR_NOT_MOUNTABLE_FILE
  · rw [if_pos h3]
    exact ⟨fun _ => ⟨rfl, rfl, Or.inl rfl⟩, fun h => absurd (by tauto) h⟩
  rw [if_neg h3]
  by_cases h4 : code = G_IO_ERROR_NOT_MOUNTED
  · rw [if_pos h4]
    exact ⟨fun _ => ⟨rfl, rfl, Or.inl rfl⟩, fun h => absurd (by tauto) h⟩
  rw [if_neg h4]
  by_cases h5 : code = G_IO_ERROR_IS_DIRECTORY
  · rw [if_pos h5]
    exact ⟨fun _ => ⟨rfl, rfl, Or.inr ⟨"", " is a directory.", by simp⟩⟩,
      fun h => absurd (by tauto) h⟩
  rw [if_neg h5]
  by_cases h6 : code = G_IO_ERROR_INVALID_FILENAME
  · rw [if_pos h6]
    exact ⟨fun _ => ⟨rfl, rfl, Or.inr ⟨"", " is not a valid location.", by simp⟩⟩,
      fun h => absurd (by tauto) h⟩
  rw [if_neg h6]
  by_cases h7 : code = G_IO_ERROR_HOST_NOT_FOUND
  · rw [if_pos h7]
    refine ⟨fun _ => ⟨rfl, ?_, Or.inl rfl⟩, fun h => absurd (by tauto) h⟩
    simp only []
    split <;> rfl
  rw [if_neg h7]
  by_cases h8 : code = G_IO_ERROR_NOT_REGULAR_FILE
  · rw [if_pos h8]
    exact ⟨fun _ => ⟨rfl, rfl, Or.inl rfl⟩, fun h => absurd (by tauto) h⟩
  rw [if_neg h8]
  by_cases h9 : code = G_IO_ERROR_TIMED_OUT
  · rw [if_pos h9]
    exact ⟨fun _ => ⟨rfl, rfl, Or.inl rfl⟩, fun h => absurd (by tauto) h⟩
  rw [if_neg h9]
  exact ⟨fun h => absurd h (by tauto), fun _ => rfl⟩

theorem parse_gedit_error_spec (K : GeditDocumentErrorCodes) (code : Int)
    (em md : Option String) (location : Option GFile) (u : String) :
    (code = K.GEDIT_DOCUMENT_ERROR_TOO_BIG →
      parse_gedit_error K code em md location u =
        { error_message := em, message_details := some "The file is too big.", ret := true }) ∧
    (¬ code = K.GEDIT_DOCUMENT_ERROR_TOO_BIG →
      parse_gedit_error K code em md location u =
        { error_message := em, message_details := md, ret := false }) := by
  unfold parse_gedit_error
  constructor
  · intro h; rw [if_pos h]
  · intro h; rw [if_neg h]

/-- An error without a table entry: the primary text is left alone, the secondary text
is the generic one, and one warning is written. -/
theorem parse_error_unhandled (K : GeditDocumentErrorCodes) (error : GError)
    (em md : Option String) (location : Option GFile) (u : String)
    (h : ¬ error_handled K error) :
    parse_error K error em md location u =
      { error_message := em
        message_details := some ("Unexpected error: " ++ error.message)
        warnings := [unhandled_warning error] } := by
  unfold error_handled at h
  unfold parse_error
  by_cases h1 : error.domain = ErrorDomain.G_IO_ERROR
  · have hn : ¬ gio_error_handled error.code := fun hc => h (Or.inl ⟨h1, hc⟩)
    rw [if_pos h1, (parse_gio_error_spec error.code em md location u).2 hn]
    rfl
  · rw [if_neg h1]
    by_cases h2 : error.domain = ErrorDomain.GEDIT_DOCUMENT_ERROR
    · have hn : ¬ error.code = K.GEDIT_DOCUMENT_ERROR_TOO_BIG := fun hc => h (Or.inr ⟨h2, hc⟩)
      rw [if_pos h2, (parse_gedit_error_spec K error.code em md location u).2 hn]
      rfl
    · rw [if_neg h2]
      rfl

/-- An error with a table entry: no warning, a secondary text, and a primary text that
is either left alone or names the location. -/
theorem parse_error_handled (K : GeditDocumentErrorCodes) (error : GError)
    (em md : Option String) (location : Option GFile) (u : String)
    (h : error_handled K error) :
    (parse_error K error em md location u).warnings = [] ∧
    (parse_error K error em md location u).message_details.isSome = true ∧
    ((parse_error K error em md location u).error_message = em ∨
      ∃ pre suf, (parse_error K error em md location u).error_message =
        some (pre ++ u ++ suf)) := by
  unfold error_handled at h
  unfold parse_error
  by_cases h1 : error.domain = ErrorDomain.G_IO_ERROR
  · have hc : gio_error_handled error.code := by
      rcases h with h | h
      · exact h.2
      · rw [h1] at h; exact absurd h.1 (by decide)
    obtain ⟨hr, hm, he⟩ := (parse_gio_error_spec error.code em md location u).1 hc
    rw [if_pos h1]
    simp only [hr, if_true]
    exact ⟨trivial, hm, he⟩
  · rw [if_neg h1]
    have hd : error.domain = ErrorDomain.GEDIT_DOCUMENT_ERROR ∧
        error.code = K.GEDIT_DOCUMENT_ERROR_TOO_BIG := by
      rcases h with h | h
      · exact absurd h.1 h1
      · exact h
    rw [if_pos hd.1, (parse_gedit_error_spec K error.code em md location u).1 hd.2]
    exact ⟨rfl, rfl, Or.inl rfl⟩

/-- Whatever the error, `parse_error` called with empty out-parameters leaves a secondary
text, and a primary text only if it names the location. -/
theorem parse_error_shape (K : GeditDocumentErrorCodes) (error : GError)
    (location : Option GFile) (u : String) :
    (∃ s, (parse_error K error none none location u).message_details = some s) ∧
    ((parse_error K error none none location u).error_message = none ∨
      ∃ pre suf, (parse_error K error none none location u).error_message =
        some (pre ++ u ++ suf)) := by
  by_cases h : error_handled K error
  · obtain ⟨_, hm, he⟩ := parse_error_handled K error none none location u h
    exact ⟨Option.isSome_iff_exists.mp hm, he⟩
  · rw [parse_error_unhandled K error none none location u h]
    exact ⟨⟨_, rfl⟩, Or.inl rfl⟩

/-! ## Lemmas on the loading info bar -/

/-- The shape of every bar `gedit_io_loading_error_info_bar_new` builds for an accepted
error: which of the two builders is used, with which flag, and that the primary text
names the location and a secondary text is present. -/
theorem load_result (K : GeditDocumentErrorCodes) (location : Option GFile)
    (encoding : Option GeditEncoding) (error : GError)
    (hacc : error.domain = ErrorDomain.G_CONVERT_ERROR ∨
      error.domain = ErrorDomain.GEDIT_DOCUMENT_ERROR ∨
      error.domain = ErrorDomain.G_IO_ERROR) :
    ∃ pre suf s,
      gedit_io_loading_error_info_bar_new K location encoding error =
        some
          (if (error.domain = ErrorDomain.G_IO_ERROR ∧ error.code = G_IO_ERROR_INVALID_DATA) ∨
              (error.domain = ErrorDomain.GEDIT_DOCUMENT_ERROR ∧
                (error.code = K.GEDIT_DOCUMENT_ERROR_ENCODING_AUTO_DETECTION_FAILED ∨
                 error.code = K.GEDIT_DOCUMENT_ERROR_CONVERSION_FALLBACK)) then
            create_conversion_error_info_bar
              (pre ++ uri_for_display (display_name location) ++ suf) (some s)
              (decide (error.domain = ErrorDomain.GEDIT_DOCUMENT_ERROR ∧
                error.code = K.GEDIT_DOCUMENT_ERROR_CONVERSION_FALLBACK ∧
                error.code ≠ K.GEDIT_DOCUMENT_ERROR_ENCODING_AUTO_DETECTION_FAILED))
          else
            create_io_loading_error_info_bar
              (pre ++ uri_for_display (display_name location) ++ suf) (some s)
              (is_recoverable_error error)) := by
  obtain ⟨dom, code, msg⟩ := error
  simp only at hacc
  unfold gedit_io_loading_error_info_bar_new
  rw [if_neg (not_not.mpr hacc)]
  cases location <;> simp only [is_gio_error, display_name] <;>
    generalize uri_for_display _ = u
  all_goals
    by_cases h1 : (decide (dom = ErrorDomain.G_IO_ERROR) &&
      decide (code = G_IO_ERROR_TOO_MANY_LINKS)) = true
    · rw [if_pos h1]
      simp only [Bool.and_eq_true, decide_eq_true_eq] at h1
      obtain ⟨rfl, rfl⟩ := h1
      refine ⟨"Could not open the file ", ".", ?_⟩
      simp [G_IO_ERROR_TOO_MANY_LINKS, G_IO_ERROR_INVALID_DATA]
      exact ⟨_, rfl⟩
    rw [if_neg h1]
    by_cases h2 : (decide (dom = ErrorDomain.G_IO_ERROR) &&
      decide (code = G_IO_ERROR_PERMISSION_DENIED)) = true
    · rw [if_pos h2]
      simp only [Bool.and_eq_true, decide_eq_true_eq] at h2
      obtain ⟨rfl, rfl⟩ := h2
      refine ⟨"Could not open the file ", ".", ?_⟩
      simp [G_IO_ERROR_PERMISSION_DENIED, G_IO_ERROR_INVALID_DATA]
      exact ⟨_, rfl⟩
    rw [if_neg h2]
    by_cases h3 : (decide (dom = ErrorDomain.G_IO_ERROR) &&
        decide (code = G_IO_ERROR_INVALID_DATA) && encoding.isNone ||
      decide (dom = ErrorDomain.GEDIT_DOCUMENT_ERROR) &&
        decide (code = K.GEDIT_DOCUMENT_ERROR_ENCODING_AUTO_DETECTION_FAILED)) = true
    · rw [if_pos h3]
      simp only [Bool.or_eq_true, Bool.and_eq_true, decide_eq_true_eq] at h3
      refine ⟨"Could not open the file ", ".", ?_⟩
      rcases h3 with ⟨⟨rfl, rfl⟩, _⟩ | ⟨rfl, rfl⟩
      · simp
        exact ⟨_, rfl⟩
      · simp
        exact ⟨_, rfl⟩
    rw [if_neg h3]
    simp only [Bool.or_eq_true, Bool.and_eq_true, decide_eq_true_eq, not_or, not_and] at h3
    by_cases h4 : (decide (dom = ErrorDomain.GEDIT_DOCUMENT_ERROR) &&
        decide (code = K.GEDIT_DOCUMENT_ERROR_CONVERSION_FALLBACK)) = true
    · rw [if_pos h4]
      simp only [Bool.and_eq_true, decide_eq_true_eq] at h4
      obtain ⟨rfl, rfl⟩ := h4
      have hne := h3.2 rfl
      refine ⟨"There was a problem opening the file ", ".", ?_⟩
      simp [hne]
      exact ⟨_, rfl⟩
    rw [if_neg h4]
    simp only [Bool.and_eq_true, decide_eq_true_eq, not_and] at h4
    by_cases h5 : (decide (dom = ErrorDomain.G_IO_ERROR) &&
        decide (code = G_IO_ERROR_INVALID_DATA) && encoding.isSome) = true
    · rw [if_pos h5]
      simp only [Bool.and_eq_true, decide_eq_true_eq] at h5
      obtain ⟨⟨rfl, rfl⟩, he⟩ := h5
      cases encoding with
      | none => simp at he
      | some enc =>
        refine ⟨"Could not open the file ",
          " using the " ++ enc.to_string ++ " character encoding.", ?_⟩
        simp [String.append_assoc]
        exact ⟨_, rfl⟩
    rw [if_neg h5]
    simp only [Bool.and_eq_true, decide_eq_true_eq, not_and] at h5
    have hconv : ¬ ((dom = ErrorDomain.G_IO_ERROR ∧ code = G_IO_ERROR_INVALID_DATA) ∨
        (dom = ErrorDomain.GEDIT_DOCUMENT_ERROR ∧
          (code = K.GEDIT_DOCUMENT_ERROR_ENCODING_AUTO_DETECTION_FAILED ∨
           code = K.GEDIT_DOCUMENT_ERROR_CONVERSION_FALLBACK))) := by
      rintro (⟨hd, hc⟩ | ⟨hd, hc | hc⟩)
      · cases he : encoding.isNone
        · have := h5 ⟨hd, hc⟩
          cases encoding <;> simp_all
        · exact absurd he (h3.1 ⟨hd, hc⟩)
      · exact h3.2 hd hc
      · exact h4 hd hc
    obtain ⟨⟨s, hs⟩, he⟩ := parse_error_shape K ⟨dom, code, msg⟩ _ u
    simp only [Bool.false_eq_true, if_false, hs]
    rcases he with he | ⟨pre, suf, he⟩
    · exact ⟨"Could not open the file ", ".", s, by rw [he, hs, if_neg hconv]⟩
    · exact ⟨pre, suf, s, by rw [he, hs, if_neg hconv]⟩

/-! ## Lemmas on the reverting and saving info bars -/

/-- Every bar `gedit_unrecoverable_reverting_error_info_bar_new` builds comes from
`create_io_loading_error_info_bar` with the flag off; its primary text names the
location and it has a secondary text. -/
theorem revert_result (K : GeditDocumentErrorCodes) (loc : GFile) (error : GError)
    (hacc : error.domain = ErrorDomain.GEDIT_DOCUMENT_ERROR ∨
      error.domain = ErrorDomain.G_IO_ERROR) :
    ∃ pre suf s,
      gedit_unrecoverable_reverting_error_info_bar_new K (some loc) error =
        some (create_io_loading_error_info_bar
          (pre ++ uri_for_display loc.parse_name ++ suf) (some s) false) := by
  unfold gedit_unrecoverable_reverting_error_info_bar_new
  simp only []
  rw [if_neg (not_not.mpr hacc)]
  generalize uri_for_display loc.parse_name = u
  by_cases h1 : is_gio_error error G_IO_ERROR_NOT_FOUND = true
  · rw [if_pos h1]
    exact ⟨"Could not revert the file ", ".", _, rfl⟩
  · rw [if_neg h1]
    obtain ⟨⟨s, hs⟩, he⟩ := parse_error_shape K error (some loc) u
    rcases he with he | ⟨pre, suf, he⟩
    · exact ⟨"Could not revert the file ", ".", s, by rw [he, hs]⟩
    · exact ⟨pre, suf, s, by rw [he, hs]⟩

/-- Every bar `gedit_unrecoverable_saving_error_info_bar_new` builds comes from
`create_io_loading_error_info_bar` with the flag off; its primary text names the
location and it has a secondary text. -/
theorem save_result (K : GeditDocumentErrorCodes) (loc : GFile) (error : GError)
    (hacc : error.domain = ErrorDomain.GEDIT_DOCUMENT_ERROR ∨
      error.domain = ErrorDomain.G_IO_ERROR) :
    ∃ pre suf s,
      gedit_unrecoverable_saving_error_info_bar_new K (some loc) error =
        some (create_io_loading_error_info_bar
          (pre ++ uri_for_display loc.parse_name ++ suf) (some s) false) := by
  unfold gedit_unrecoverable_saving_error_info_bar_new
  simp only []
  rw [if_neg (not_not.mpr hacc)]
  generalize uri_for_display loc.parse_name = u
  by_cases h1 : is_gio_error error G_IO_ERROR_NOT_SUPPORTED = true
  · rw [if_pos h1]
    exact ⟨"Could not save the file ", ".", _, rfl⟩
  rw [if_neg h1]
  by_cases h2 : is_gio_error error G_IO_ERROR_INVALID_FILENAME = true
  · rw [if_pos h2]
    exact ⟨"Could not save the file ", ".", _, rfl⟩
  rw [if_neg h2]
  by_cases h3 : is_gio_error error G_IO_ERROR_PERMISSION_DENIED = true
  · rw [if_pos h3]
    exact ⟨"Could not save the file ", ".", _, rfl⟩
  rw [if_neg h3]
  by_cases h4 : is_gio_error error G_IO_ERROR_NO_SPACE = true
  · rw [if_pos h4]
    exact ⟨"Could not save the file ", ".", _, rfl⟩
  rw [if_neg h4]
  by_cases h5 : is_gio_error error G_IO_ERROR_READ_ONLY = true
  · rw [if_pos h5]
    exact ⟨"Could not save the file ", ".", _, rfl⟩
  rw [if_neg h5]
  by_cases h6 : is_gio_error error G_IO_ERROR_EXISTS = true
  · rw [if_pos h6]
    exact ⟨"Could not save the file ", ".", _, rfl⟩
  rw [if_neg h6]
  by_cases h7 : is_gio_error error G_IO_ERROR_FILENAME_TOO_LONG = true
  · rw [if_pos h7]
    exact ⟨"Could not save the file ", ".", _, rfl⟩
  rw [if_neg h7]
  by_cases h8 : (decide (error.domain = ErrorDomain.GEDIT_DOCUMENT_ERROR) &&
      decide (error.code = K.GEDIT_DOCUMENT_ERROR_TOO_BIG)) = true
  · rw [if_pos h8]
    exact ⟨"Could not save the file ", ".", _, rfl⟩
  rw [if_neg h8]
  obtain ⟨⟨s, hs⟩, he⟩ := parse_error_shape K error (some loc) u
  rcases he with he | ⟨pre, suf, he⟩
  · exact ⟨"Could not save the file ", ".", s, by rw [he, hs]⟩
  · exact ⟨pre, suf, s, by rw [he, hs]⟩

/-! ## Lemmas on texts -/

theorem uri_for_display_ne_empty (name : String) : uri_for_display name ≠ "" := by
  intro h
  have hl := congrArg String.length h
  unfold uri_for_display at hl
  simp only [String.length_append] at hl
  have h3 : "<i>".length = 3 := by decide
  have h0 : "".length = 0 := by decide
  omega

theorem text_around_ne_empty (pre part suf : String) (h : part ≠ "") :
    pre ++ part ++ suf ≠ "" := by
  intro he
  have hl := congrArg String.length he
  simp only [String.length_append] at hl
  have h0 : "".length = 0 := by decide
  have hp : part.length = 0 := by omega
  apply h
  apply String.ext
  have : part.data.length = 0 := hp
  rw [List.length_eq_zero] at this
  rw [this]

theorem revert_text_ne_find_text (u : String) :
    "Could not revert the file " ++ u ++ "." ≠ "Could not find the file " ++ u ++ "." := by
  intro h
  have h2 := congrArg (fun s => s.data.get? 10) h
  simp [String.data_append] at h2

theorem str_middle_truncate_short (name : String) (h : name.length ≤ 50) :
    gedit_utils_str_middle_truncate name 50 = name := by
  unfold gedit_utils_str_middle_truncate
  have hd : "…".length = 1 := by decide
  simp only [hd]
  rw [if_neg (by omega), if_pos h]

theorem str_middle_truncate_long (name : String) (h : 50 < name.length) :
    gedit_utils_str_middle_truncate name 50 =
      String.mk (name.data.take 24) ++ "…" ++ String.mk (name.data.drop (name.length - 25)) := by
  unfold gedit_utils_str_middle_truncate
  have hd : "…".length = 1 := by decide
  simp only [hd]
  rw [if_neg (by omega), if_neg (by omega)]
  have h1 : (50 - 1) / 2 = 24 := by norm_num
  have h2 : name.length - 50 + 24 + 1 = name.length - 25 := by omega
  rw [h1, h2]

/-! ## Claims on the loading and reverting info bars -/

/-- C1: when loading fails with an I/O error whose code is one of PERMISSION_DENIED,
NOT_FOUND, HOST_NOT_FOUND, TIMED_OUT, NOT_MOUNTABLE_FILE, NOT_MOUNTED, BUSY, the info bar
is built whatever the location and the encoding are, and it offers Retry. -/
theorem C1_load_recoverable_code_offers_retry (K : GeditDocumentErrorCodes)
    (location : Option GFile) (encoding : Option GeditEncoding) (error : GError)
    (hd : error.domain = ErrorDomain.G_IO_ERROR) (hc : recoverable_code error.code) :
    ∃ d, gedit_io_loading_error_info_bar_new K location encoding error = some d ∧
      Action.RETRY ∈ d.actions := by
  obtain ⟨dom, code, msg⟩ := error
  simp only [recoverable_code] at hd hc
  subst hd
  rcases hc with h | h | h | h | h | h | h <;> subst h <;>
    simp [gedit_io_loading_error_info_bar_new, is_gio_error, is_recoverable_error,
      create_io_loading_error_info_bar, create_conversion_error_info_bar, parse_error,
      parse_gio_error,
      G_IO_ERROR_PERMISSION_DENIED, G_IO_ERROR_NOT_FOUND, G_IO_ERROR_HOST_NOT_FOUND,
      G_IO_ERROR_TIMED_OUT, G_IO_ERROR_NOT_MOUNTABLE_FILE, G_IO_ERROR_NOT_MOUNTED,
      G_IO_ERROR_BUSY, G_IO_ERROR_TOO_MANY_LINKS, G_IO_ERROR_INVALID_DATA,
      G_IO_ERROR_NOT_DIRECTORY, G_IO_ERROR_NOT_SUPPORTED, G_IO_ERROR_IS_DIRECTORY,
      G_IO_ERROR_INVALID_FILENAME, G_IO_ERROR_NOT_REGULAR_FILE]

/-- C1 at a busy file read from standard input. -/
theorem C1_load_recoverable_code_offers_retry_witness :
    recoverable_code G_IO_ERROR_BUSY ∧
    ∃ d, gedit_io_loading_error_info_bar_new documentErrorCodes none none
        { domain := ErrorDomain.G_IO_ERROR, code := G_IO_ERROR_BUSY, message := "busy" } =
          some d ∧
      Action.RETRY ∈ d.actions :=
  ⟨by decide,
    C1_load_recoverable_code_offers_retry documentErrorCodes none none
      { domain := ErrorDomain.G_IO_ERROR, code := G_IO_ERROR_BUSY, message := "busy" }
      rfl (by decide)⟩

/-- C2 fails for INVALID_DATA: the code is not in the recoverable set, yet the bar built
for it is the conversion bar, which always offers Retry. -/
theorem C2_invalid_data_offers_retry :
    ¬ recoverable_code G_IO_ERROR_INVALID_DATA ∧
    ∃ d, gedit_io_loading_error_info_bar_new documentErrorCodes none none
        { domain := ErrorDomain.G_IO_ERROR, code := G_IO_ERROR_INVALID_DATA,
          message := "Invalid byte sequence in conversion input" } = some d ∧
      Action.RETRY ∈ d.actions := by
  refine ⟨by decide, ?_⟩
  simp [gedit_io_loading_error_info_bar_new, is_gio_error, create_conversion_error_info_bar,
    G_IO_ERROR_TOO_MANY_LINKS, G_IO_ERROR_INVALID_DATA, G_IO_ERROR_PERMISSION_DENIED]

/-- C2, amended: when loading fails with an I/O error whose code is neither in the
recoverable set nor INVALID_DATA, the info bar is built and does not offer Retry. -/
theorem C2_load_other_io_code_no_retry (K : GeditDocumentErrorCodes)
    (location : Option GFile) (encoding : Option GeditEncoding) (error : GError)
    (hd : error.domain = ErrorDomain.G_IO_ERROR) (hc : ¬ recoverable_code error.code)
    (hi : error.code ≠ G_IO_ERROR_INVALID_DATA) :
    ∃ d, gedit_io_loading_error_info_bar_new K location encoding error = some d ∧
      Action.RETRY ∉ d.actions := by
  obtain ⟨pre, suf, s, h⟩ := load_result K location encoding error (Or.inr (Or.inr hd))
  have hconv : ¬ ((error.domain = ErrorDomain.G_IO_ERROR ∧
      error.code = G_IO_ERROR_INVALID_DATA) ∨
      (error.domain = ErrorDomain.GEDIT_DOCUMENT_ERROR ∧
        (error.code = K.GEDIT_DOCUMENT_ERROR_ENCODING_AUTO_DETECTION_FAILED ∨
         error.code = K.GEDIT_DOCUMENT_ERROR_CONVERSION_FALLBACK))) := by
    rintro (⟨_, h2⟩ | ⟨h1, _⟩)
    · exact hi h2
    · rw [hd] at h1; exact absurd h1 (by decide)
  rw [if_neg hconv] at h
  have hrec : is_recoverable_error error = false := by
    unfold is_recoverable_error
    unfold recoverable_code at hc
    rw [if_pos hd, if_neg hc]
  rw [hrec] at h
  exact ⟨_, h, by simp [create_io_loading_error_info_bar]⟩

/-- C2, amended, at a file that is not a regular file. -/
theorem C2_load_other_io_code_no_retry_witness :
    ¬ recoverable_code G_IO_ERROR_NOT_REGULAR_FILE ∧
    G_IO_ERROR_NOT_REGULAR_FILE ≠ G_IO_ERROR_INVALID_DATA ∧
    ∃ d, gedit_io_loading_error_info_bar_new documentErrorCodes none none
        { domain := ErrorDomain.G_IO_ERROR, code := G_IO_ERROR_NOT_REGULAR_FILE,
          message := "not a regular file" } = some d ∧
      Action.RETRY ∉ d.actions :=
  ⟨by decide, by decide,
    C2_load_other_io_code_no_retry documentErrorCodes none none
      { domain := ErrorDomain.G_IO_ERROR, code := G_IO_ERROR_NOT_REGULAR_FILE,
        message := "not a regular file" }
      rfl (by decide) (by decide)⟩

/-- C3: for every error of the I/O, conversion or document domain, every code, every
location and every encoding, `gedit_io_loading_error_info_bar_new` builds an info bar,
and its primary text is not empty. -/
theorem C3_load_total_with_primary_text (K : GeditDocumentErrorCodes)
    (location : Option GFile) (encoding : Option GeditEncoding) (error : GError)
    (hacc : error.domain = ErrorDomain.G_IO_ERROR ∨
      error.domain = ErrorDomain.G_CONVERT_ERROR ∨
      error.domain = ErrorDomain.GEDIT_DOCUMENT_ERROR) :
    ∃ d, gedit_io_loading_error_info_bar_new K location encoding error = some d ∧
      d.primaryMessage ≠ "" := by
  have hacc2 : error.domain = ErrorDomain.G_CONVERT_ERROR ∨
      error.domain = ErrorDomain.GEDIT_DOCUMENT_ERROR ∨
      error.domain = ErrorDomain.G_IO_ERROR := by tauto
  obtain ⟨pre, suf, s, h⟩ := load_result K location encoding error hacc2
  refine ⟨_, h, ?_⟩
  have hne := text_around_ne_empty pre _ suf (uri_for_display_ne_empty (display_name location))
  split_ifs
  · exact hne
  · exact hne

/-- C3 at a conversion error with an unknown code, no location and no encoding. -/
theorem C3_load_total_with_primary_text_witness :
    ∃ d, gedit_io_loading_error_info_bar_new documentErrorCodes none none
        { domain := ErrorDomain.G_CONVERT_ERROR, code := -7, message := "" } = some d ∧
      d.primaryMessage ≠ "" :=
  C3_load_total_with_primary_text documentErrorCodes none none
    { domain := ErrorDomain.G_CONVERT_ERROR, code := -7, message := "" }
    (Or.inr (Or.inl rfl))

/-- C4: `parse_error` on an error that has no entry in the I/O table or in the document
table (every conversion error is such an error) leaves the primary text as the caller
passed it, sets the secondary text to `Unexpected error: ` followed by the raw error
text, and writes one warning; on an error that has an entry it writes no warning and its
result does not depend on the raw error text. -/
theorem C4_parse_error_generic_fallback (K : GeditDocumentErrorCodes) (error : GError)
    (em md : Option String) (location : Option GFile) (u : String) :
    (error.domain = ErrorDomain.G_CONVERT_ERROR → ¬ error_handled K error) ∧
    (¬ error_handled K error →
      parse_error K error em md location u =
        { error_message := em
          message_details := some ("Unexpected error: " ++ error.message)
          warnings := [unhandled_warning error] }) ∧
    (error_handled K error →
      (parse_error K error em md location u).warnings = [] ∧
      ∀ text : String,
        parse_error K { error with message := text } em md location u =
          parse_error K error em md location u) := by
  refine ⟨?_, parse_error_unhandled K error em md location u, fun h => ?_⟩
  · intro hd h
    unfold error_handled at h
    rw [hd] at h
    rcases h with h | h
    · exact absurd h.1 (by decide)
    · exact absurd h.1 (by decide)
  · refine ⟨(parse_error_handled K error em md location u h).1, fun text => ?_⟩
    obtain ⟨dom, code, msg⟩ := error
    unfold error_handled at h
    simp only at h
    unfold parse_error
    simp only []
    by_cases h1 : dom = ErrorDomain.G_IO_ERROR
    · have hc : gio_error_handled code := by
        rcases h with h | h
        · exact h.2
        · rw [h1] at h; exact absurd h.1 (by decide)
      have hr := ((parse_gio_error_spec code em md location u).1 hc).1
      rw [if_pos h1, if_pos hr, if_pos hr]
    · have hd : dom = ErrorDomain.GEDIT_DOCUMENT_ERROR ∧
          code = K.GEDIT_DOCUMENT_ERROR_TOO_BIG := by
        rcases h with h | h
        · exact absurd h.1 h1
        · exact h
      rw [if_neg h1, if_pos hd.1, (parse_gedit_error_spec K code em md location u).1 hd.2]
      rfl

/-- C4 at a conversion error and at a timed-out connection. -/
theorem C4_parse_error_generic_fallback_witness :
    (¬ error_handled documentErrorCodes
        { domain := ErrorDomain.G_CONVERT_ERROR, code := 1, message := "bad sequence" } ∧
      parse_error documentErrorCodes
        { domain := ErrorDomain.G_CONVERT_ERROR, code := 1, message := "bad sequence" }
        none none none "<i>stdin</i>" =
        { error_message := none
          message_details := some "Unexpected error: bad sequence"
          warnings := ["Hit unhandled case 1 (bad sequence) in parse_error."] }) ∧
    (error_handled documentErrorCodes
        { domain := ErrorDomain.G_IO_ERROR, code := G_IO_ERROR_TIMED_OUT, message := "late" } ∧
      (parse_error documentErrorCodes
        { domain := ErrorDomain.G_IO_ERROR, code := G_IO_ERROR_TIMED_OUT, message := "late" }
        none none none "<i>stdin</i>").warnings = []) :=
  ⟨⟨by decide,
      (C4_parse_error_generic_fallback documentErrorCodes
        { domain := ErrorDomain.G_CONVERT_ERROR, code := 1, message := "bad sequence" }
        none none none "<i>stdin</i>").2.1 (by decide)⟩,
    ⟨by decide,
      ((C4_parse_error_generic_fallback documentErrorCodes
        { domain := ErrorDomain.G_IO_ERROR, code := G_IO_ERROR_TIMED_OUT, message := "late" }
        none none none "<i>stdin</i>").2.2 (by decide)).1⟩⟩

/-- C5 fails as stated: the primary text built for the missing file `/tmp/missing.txt`
carries the location inside `<i>` markup, so it is not the plain sentence of the claim. -/
theorem C5_primary_text_carries_markup :
    ∃ d, gedit_io_loading_error_info_bar_new documentErrorCodes
        (some { parse_name := "/tmp/missing.txt", uri_scheme := some "file",
                uri_scheme_is_utf8 := true, uri := some "file:///tmp/missing.txt",
                decode_uri_ok := true, host_name := none })
        none
        { domain := ErrorDomain.G_IO_ERROR, code := G_IO_ERROR_NOT_FOUND,
          message := "No such file or directory" } = some d ∧
      d.primaryMessage = "Could not find the file <i>/tmp/missing.txt</i>." ∧
      d.primaryMessage ≠ "Could not find the file /tmp/missing.txt." := by
  refine ⟨_, rfl, ?_, ?_⟩
  · decide
  · decide

/-- C5, amended: loading a location named `/tmp/missing.txt` that fails with the I/O
error NOT_FOUND builds a bar whose primary text is
`Could not find the file <i>/tmp/missing.txt</i>.` and whose buttons are Cancel and
Retry, and no other. -/
theorem C5_load_not_found_scenario (K : GeditDocumentErrorCodes) (loc : GFile)
    (encoding : Option GeditEncoding) (text : String) :
    ∃ d, gedit_io_loading_error_info_bar_new K
        (some { loc with parse_name := "/tmp/missing.txt" }) encoding
        { domain := ErrorDomain.G_IO_ERROR, code := G_IO_ERROR_NOT_FOUND, message := text } =
          some d ∧
      d.primaryMessage = "Could not find the file <i>/tmp/missing.txt</i>." ∧
      d.actions = [Action.CANCEL, Action.RETRY] ∧
      ∀ a, a ∈ d.actions ↔ (a = Action.RETRY ∨ a = Action.CANCEL) := by
  have hu : uri_for_display "/tmp/missing.txt" = "<i>/tmp/missing.txt</i>" := by decide
  have hp : "Could not find the file " ++ "<i>/tmp/missing.txt</i>" ++ "." =
      "Could not find the file <i>/tmp/missing.txt</i>." := by decide
  simp [gedit_io_loading_error_info_bar_new, is_gio_error, is_recoverable_error,
    create_io_loading_error_info_bar, parse_error, parse_gio_error, hu, hp,
    G_IO_ERROR_NOT_FOUND, G_IO_ERROR_TOO_MANY_LINKS, G_IO_ERROR_PERMISSION_DENIED,
    G_IO_ERROR_INVALID_DATA]
  intro a
  tauto

/-- C6: loading that fails with the document error ENCODING_AUTO_DETECTION_FAILED builds,
for every location and encoding, a bar with the encoding combo box that offers Retry and
does not offer Edit Anyway. -/
theorem C6_load_auto_detection_failed (K : GeditDocumentErrorCodes)
    (location : Option GFile) (encoding : Option GeditEncoding) (text : String) :
    ∃ d, gedit_io_loading_error_info_bar_new K location encoding
        { domain := ErrorDomain.GEDIT_DOCUMENT_ERROR,
          code := K.GEDIT_DOCUMENT_ERROR_ENCODING_AUTO_DETECTION_FAILED, message := text } =
          some d ∧
      d.requiresEncodingChoice = true ∧
      Action.RETRY ∈ d.actions ∧
      Action.EDIT_ANYWAY ∉ d.actions := by
  simp [gedit_io_loading_error_info_bar_new, is_gio_error, create_conversion_error_info_bar]

/-- C7 fails as stated: the bar built for an encoding detection failure has the combo
box, but its buttons are Retry and Cancel; Edit Anyway and Don't Edit are not offered. -/
theorem C7_detection_failure_lacks_edit_anyway :
    ∃ d, gedit_io_loading_error_info_bar_new documentErrorCodes none none
        { domain := ErrorDomain.GEDIT_DOCUMENT_ERROR,
          code := documentErrorCodes.GEDIT_DOCUMENT_ERROR_ENCODING_AUTO_DETECTION_FAILED,
          message := "detection failed" } = some d ∧
      d.requiresEncodingChoice = true ∧
      d.actions ≠ [Action.RETRY, Action.EDIT_ANYWAY, Action.DONT_EDIT] ∧
      Action.EDIT_ANYWAY ∉ d.actions ∧ Action.DONT_EDIT ∉ d.actions := by
  simp [gedit_io_loading_error_info_bar_new, is_gio_error, create_conversion_error_info_bar]

/-- C7, amended: loading that fails with the I/O error INVALID_DATA while no encoding was
given, or with the document error ENCODING_AUTO_DETECTION_FAILED, builds a bar with the
encoding combo box whose buttons are Retry and Cancel. -/
theorem C7_load_encoding_failure (K : GeditDocumentErrorCodes)
    (location : Option GFile) (encoding : Option GeditEncoding) (error : GError)
    (h : (error.domain = ErrorDomain.G_IO_ERROR ∧ error.code = G_IO_ERROR_INVALID_DATA ∧
          encoding = none) ∨
      (error.domain = ErrorDomain.GEDIT_DOCUMENT_ERROR ∧
        error.code = K.GEDIT_DOCUMENT_ERROR_ENCODING_AUTO_DETECTION_FAILED)) :
    ∃ d, gedit_io_loading_error_info_bar_new K location encoding error = some d ∧
      d.requiresEncodingChoice = true ∧
      d.actions = [Action.RETRY, Action.CANCEL] := by
  obtain ⟨dom, code, msg⟩ := error
  simp only at h
  rcases h with ⟨rfl, rfl, rfl⟩ | ⟨rfl, rfl⟩
  · simp [gedit_io_loading_error_info_bar_new, is_gio_error, create_conversion_error_info_bar,
      G_IO_ERROR_TOO_MANY_LINKS, G_IO_ERROR_INVALID_DATA, G_IO_ERROR_PERMISSION_DENIED]
  · simp [gedit_io_loading_error_info_bar_new, is_gio_error, create_conversion_error_info_bar]

/-- C7, amended, at invalid data read from standard input without an encoding. -/
theorem C7_load_encoding_failure_witness :
    ∃ d, gedit_io_loading_error_info_bar_new documentErrorCodes none none
        { domain := ErrorDomain.G_IO_ERROR, code := G_IO_ERROR_INVALID_DATA,
          message := "invalid data" } = some d ∧
      d.requiresEncodingChoice = true ∧
      d.actions = [Action.RETRY, Action.CANCEL] :=
  C7_load_encoding_failure documentErrorCodes none none
    { domain := ErrorDomain.G_IO_ERROR, code := G_IO_ERROR_INVALID_DATA,
      message := "invalid data" }
    (Or.inl ⟨rfl, rfl, rfl⟩)

/-- C8: for every location, reverting that fails with the I/O error NOT_FOUND builds a
bar with the primary text `Could not revert the file <loc>.` and the secondary text
`gedit cannot find the file. Perhaps it has recently been deleted.`; the generic table
has an entry for this error, which loading uses and reverting does not, and both texts
of the two bars differ. -/
theorem C8_revert_not_found_fast_path (K : GeditDocumentErrorCodes) (loc : GFile)
    (encoding : Option GeditEncoding) (text : String) :
    ∃ r l,
      gedit_unrecoverable_reverting_error_info_bar_new K (some loc)
        { domain := ErrorDomain.G_IO_ERROR, code := G_IO_ERROR_NOT_FOUND, message := text } =
          some r ∧
      gedit_io_loading_error_info_bar_new K (some loc) encoding
        { domain := ErrorDomain.G_IO_ERROR, code := G_IO_ERROR_NOT_FOUND, message := text } =
          some l ∧
      r.primaryMessage = "Could not revert the file " ++ uri_for_display loc.parse_name ++ "." ∧
      r.secondaryMessage =
        some "gedit cannot find the file. Perhaps it has recently been deleted." ∧
      l.primaryMessage = "Could not find the file " ++ uri_for_display loc.parse_name ++ "." ∧
      l.secondaryMessage =
        some "Please check that you typed the location correctly and try again." ∧
      (parse_error K
        { domain := ErrorDomain.G_IO_ERROR, code := G_IO_ERROR_NOT_FOUND, message := text }
        none none (some loc) (uri_for_display loc.parse_name)).error_message =
          some l.primaryMessage ∧
      (parse_error K
        { domain := ErrorDomain.G_IO_ERROR, code := G_IO_ERROR_NOT_FOUND, message := text }
        none none (some loc) (uri_for_display loc.parse_name)).message_details =
          l.secondaryMessage ∧
      r.primaryMessage ≠ l.primaryMessage ∧
      r.secondaryMessage ≠ l.secondaryMessage := by
  refine ⟨create_io_loading_error_info_bar
      ("Could not revert the file " ++ uri_for_display loc.parse_name ++ ".")
      (some "gedit cannot find the file. Perhaps it has recently been deleted.") false,
    create_io_loading_error_info_bar
      ("Could not find the file " ++ uri_for_display loc.parse_name ++ ".")
      (some "Please check that you typed the location correctly and try again.") true,
    ?_, ?_, rfl, rfl, rfl, rfl, ?_, ?_, ?_, ?_⟩
  · simp [gedit_unrecoverable_reverting_error_info_bar_new, is_gio_error]
  · simp [gedit_io_loading_error_info_bar_new, is_gio_error, is_recoverable_error,
      parse_error, parse_gio_error,
      G_IO_ERROR_NOT_FOUND, G_IO_ERROR_TOO_MANY_LINKS, G_IO_ERROR_PERMISSION_DENIED,
      G_IO_ERROR_INVALID_DATA]
  · simp [parse_error, parse_gio_error, create_io_loading_error_info_bar]
  · simp [parse_error, parse_gio_error, create_io_loading_error_info_bar]
  · exact revert_text_ne_find_text _
  · simp only [create_io_loading_error_info_bar]
    decide

/-! ## Lemmas on the escaping of markup -/

theorem foldl_append_data (l : List String) (acc : String) :
    (l.foldl (fun r s => r ++ s) acc).data = acc.data ++ (l.map String.data).flatten := by
  induction l generalizing acc with
  | nil => simp
  | cons a l ih => simp [ih, String.data_append]

theorem join_data (l : List String) : (String.join l).data = (l.map String.data).flatten := by
  unfold String.join
  rw [foldl_append_data]
  simp

theorem g_markup_escape_text_data (text : String) :
    (g_markup_escape_text text).data =
      (text.data.map (fun c => (markup_escape_char c).data)).flatten := by
  unfold g_markup_escape_text
  rw [join_data, List.map_map]
  rfl

theorem g_markup_escape_text_append (a b : String) :
    g_markup_escape_text (a ++ b) = g_markup_escape_text a ++ g_markup_escape_text b := by
  apply String.ext
  rw [String.data_append, g_markup_escape_text_data, g_markup_escape_text_data,
    g_markup_escape_text_data, String.data_append, List.map_append, List.flatten_append]

theorem digitChar_no_markup_delimiter (k : Nat) (h : k < 16) :
    no_markup_delimiter (Nat.digitChar k) := by
  interval_cases k <;> decide

theorem toDigitsCore_no_markup_delimiter :
    ∀ (fuel n : Nat) (ds : List Char), (∀ x ∈ ds, no_markup_delimiter x) →
      ∀ x ∈ Nat.toDigitsCore 16 fuel n ds, no_markup_delimiter x := by
  intro fuel
  induction fuel with
  | zero => intro n ds h; simpa [Nat.toDigitsCore] using h
  | succ f ih =>
    intro n ds h
    simp only [Nat.toDigitsCore]
    have hd : no_markup_delimiter (Nat.digitChar (n % 16)) :=
      digitChar_no_markup_delimiter _ (Nat.mod_lt _ (by decide))
    split_ifs
    · intro x hx
      rcases List.mem_cons.1 hx with rfl | hx
      · exact hd
      · exact h x hx
    · apply ih
      intro x hx
      rcases List.mem_cons.1 hx with rfl | hx
      · exact hd
      · exact h x hx

theorem markup_escape_char_no_markup_delimiter (c : Char) :
    ∀ x ∈ (markup_escape_char c).data, no_markup_delimiter x := by
  unfold markup_escape_char
  by_cases h1 : c = Char.ofNat 38
  · rw [if_pos h1]; decide
  rw [if_neg h1]
  by_cases h2 : c = Char.ofNat 60
  · rw [if_pos h2]; decide
  rw [if_neg h2]
  by_cases h3 : c = Char.ofNat 62
  · rw [if_pos h3]; decide
  rw [if_neg h3]
  by_cases h4 : c = Char.ofNat 39
  · rw [if_pos h4]; decide
  rw [if_neg h4]
  by_cases h5 : c = Char.ofNat 34
  · rw [if_pos h5]; decide
  rw [if_neg h5]
  simp only []
  split_ifs
  · intro x hx
    simp only [String.data_append, List.mem_append] at hx
    rcases hx with (hx | hx) | hx
    · revert x; decide
    · exact toDigitsCore_no_markup_delimiter _ _ [] (by simp) x hx
    · revert x; decide
  · intro x hx
    have hx : x = c := by simpa [String.singleton] using hx
    subst hx
    exact ⟨h2, h3, h5, h4⟩

theorem g_markup_escape_text_no_markup_delimiter (text : String) :
    ∀ x ∈ (g_markup_escape_text text).data, no_markup_delimiter x := by
  intro x hx
  rw [g_markup_escape_text_data] at hx
  obtain ⟨l, hl, hxl⟩ := List.mem_flatten.1 hx
  obtain ⟨c, _, rfl⟩ := List.mem_map.1 hl
  exact markup_escape_char_no_markup_delimiter c x hxl

theorem markup_escape_char_plain (c : Char) (h : markup_plain c) :
    markup_escape_char c = String.singleton c := by
  obtain ⟨h1, h2, h3, h4, h5, h6⟩ := h
  unfold markup_escape_char
  rw [if_neg h1, if_neg h2, if_neg h3, if_neg h4, if_neg h5]
  simp only []
  rw [if_neg h6]

theorem g_markup_escape_text_plain (text : String) (h : ∀ c ∈ text.data, markup_plain c) :
    g_markup_escape_text text = text := by
  apply String.ext
  rw [g_markup_escape_text_data]
  have : ∀ l : List Char, (∀ c ∈ l, markup_plain c) →
      (l.map (fun c => (markup_escape_char c).data)).flatten = l := by
    intro l
    induction l with
    | nil => intro _; rfl
    | cons a l ih =>
      intro hl
      rw [List.map_cons, List.flatten_cons, ih (fun c hc => hl c (List.mem_cons_of_mem _ hc)),
        markup_escape_char_plain a (hl a (List.mem_cons_self _ _))]
      rfl
  exact this _ h

/-! ## Claims on the display of locations -/

/-- Whenever one of the eight constructors builds a bar, the primary text of the bar
contains the display form of the location. -/
theorem built_bar_shows_location :
    (∀ K location encoding error d,
      gedit_io_loading_error_info_bar_new K location encoding error = some d →
        shows_location d location) ∧
    (∀ K location error d,
      gedit_unrecoverable_reverting_error_info_bar_new K location error = some d →
        shows_location d location) ∧
    (∀ K location error d,
      gedit_unrecoverable_saving_error_info_bar_new K location error = some d →
        shows_location d location) ∧
    (∀ location encoding error d,
      gedit_conversion_error_while_saving_info_bar_new location encoding error = some d →
        shows_location d location) ∧
    (∀ location d,
      gedit_file_already_open_warning_info_bar_new location = some d →
        shows_location d location) ∧
    (∀ K location error d,
      gedit_externally_modified_saving_error_info_bar_new K location error = some d →
        shows_location d location) ∧
    (∀ K create_backup_copy location error d,
      gedit_no_backup_saving_error_info_bar_new K create_backup_copy location error = some d →
        shows_location d location) ∧
    (∀ location document_modified d,
      gedit_externally_modified_info_bar_new location document_modified = some d →
        shows_location d location) := by
  refine ⟨?_, ?_, ?_, ?_, ?_, ?_, ?_, ?_⟩
  · intro K location encoding error d hd
    by_cases hacc : error.domain = ErrorDomain.G_CONVERT_ERROR ∨
        error.domain = ErrorDomain.GEDIT_DOCUMENT_ERROR ∨
        error.domain = ErrorDomain.G_IO_ERROR
    · obtain ⟨pre, suf, s, h⟩ := load_result K location encoding error hacc
      rw [h] at hd
      injection hd with hd
      subst hd
      refine ⟨pre, suf, ?_⟩
      split_ifs <;> rfl
    · unfold gedit_io_loading_error_info_bar_new at hd
      rw [if_pos hacc] at hd
      exact absurd hd (by simp)
  · intro K location error d hd
    cases location with
    | none => exact absurd hd (by simp [gedit_unrecoverable_reverting_error_info_bar_new])
    | some loc =>
      by_cases hacc : error.domain = ErrorDomain.GEDIT_DOCUMENT_ERROR ∨
          error.domain = ErrorDomain.G_IO_ERROR
      · obtain ⟨pre, suf, s, h⟩ := revert_result K loc error hacc
        rw [h] at hd
        injection hd with hd
        subst hd
        exact ⟨pre, suf, rfl⟩
      · unfold gedit_unrecoverable_reverting_error_info_bar_new at hd
        simp only [] at hd
        rw [if_pos hacc] at hd
        exact absurd hd (by simp)
  · intro K location error d hd
    cases location with
    | none => exact absurd hd (by simp [gedit_unrecoverable_saving_error_info_bar_new])
    | some loc =>
      by_cases hacc : error.domain = ErrorDomain.GEDIT_DOCUMENT_ERROR ∨
          error.domain = ErrorDomain.G_IO_ERROR
      · obtain ⟨pre, suf, s, h⟩ := save_result K loc error hacc
        rw [h] at hd
        injection hd with hd
        subst hd
        exact ⟨pre, suf, rfl⟩
      · unfold gedit_unrecoverable_saving_error_info_bar_new at hd
        simp only [] at hd
        rw [if_pos hacc] at hd
        exact absurd hd (by simp)
  · intro location encoding error d hd
    unfold gedit_conversion_error_while_saving_info_bar_new at hd
    cases location with
    | none => exact absurd hd (by simp)
    | some loc =>
      simp only [] at hd
      split_ifs at hd
      cases encoding with
      | none => exact absurd hd (by simp)
      | some enc =>
        simp only [Option.some.injEq] at hd
        subst hd
        exact ⟨"Could not save the file ",
          " using the " ++ enc.to_string ++ " character encoding.",
          by simp only [create_conversion_error_info_bar, display_name, uri_for_display,
            MAX_URI_IN_DIALOG_LENGTH, String.append_assoc]⟩
  · intro location d hd
    unfold gedit_file_already_open_warning_info_bar_new at hd
    cases location with
    | none => exact absurd hd (by simp)
    | some loc =>
      simp only [Option.some.injEq] at hd
      subst hd
      exact ⟨"This file (", ") is already open in another gedit window.", rfl⟩
  · intro K location error d hd
    unfold gedit_externally_modified_saving_error_info_bar_new at hd
    cases location with
    | none => exact absurd hd (by simp)
    | some loc =>
      simp only [] at hd
      split_ifs at hd
      simp only [Option.some.injEq] at hd
      subst hd
      exact ⟨"The file ", " has been modified since reading it.", rfl⟩
  · intro K create_backup_copy location error d hd
    unfold gedit_no_backup_saving_error_info_bar_new at hd
    cases location with
    | none => exact absurd hd (by simp)
    | some loc =>
      simp only [] at hd
      split_ifs at hd
      · simp only [Option.some.injEq] at hd
        subst hd
        exact ⟨"Could not create a backup file while saving ", "",
          by simp only [display_name, uri_for_display, MAX_URI_IN_DIALOG_LENGTH,
            String.append_empty]⟩
      · simp only [Option.some.injEq] at hd
        subst hd
        exact ⟨"Could not create a temporary backup file while saving ", "",
          by simp only [display_name, uri_for_display, MAX_URI_IN_DIALOG_LENGTH,
            String.append_empty]⟩
  · intro location document_modified d hd
    unfold gedit_externally_modified_info_bar_new at hd
    cases location with
    | none => exact absurd hd (by simp)
    | some loc =>
      simp only [Option.some.injEq] at hd
      subst hd
      exact ⟨"The file ", " changed on disk.", rfl⟩

/-- On the inputs it accepts, each of the eight constructors builds a bar. -/
theorem accepted_input_builds_bar :
    (∀ K location encoding error,
      (error.domain = ErrorDomain.G_CONVERT_ERROR ∨
        error.domain = ErrorDomain.GEDIT_DOCUMENT_ERROR ∨
        error.domain = ErrorDomain.G_IO_ERROR) →
      ∃ d, gedit_io_loading_error_info_bar_new K location encoding error = some d) ∧
    (∀ K loc error,
      (error.domain = ErrorDomain.GEDIT_DOCUMENT_ERROR ∨
        error.domain = ErrorDomain.G_IO_ERROR) →
      ∃ d, gedit_unrecoverable_reverting_error_info_bar_new K (some loc) error = some d) ∧
    (∀ K loc error,
      (error.domain = ErrorDomain.GEDIT_DOCUMENT_ERROR ∨
        error.domain = ErrorDomain.G_IO_ERROR) →
      ∃ d, gedit_unrecoverable_saving_error_info_bar_new K (some loc) error = some d) ∧
    (∀ loc enc error,
      (error.domain = ErrorDomain.G_CONVERT_ERROR ∨ error.domain = ErrorDomain.G_IO_ERROR) →
      ∃ d, gedit_conversion_error_while_saving_info_bar_new (some loc) (some enc) error =
        some d) ∧
    (∀ loc, ∃ d, gedit_file_already_open_warning_info_bar_new (some loc) = some d) ∧
    (∀ K loc error,
      error.domain = ErrorDomain.GEDIT_DOCUMENT_ERROR →
      error.code = K.GEDIT_DOCUMENT_ERROR_EXTERNALLY_MODIFIED →
      ∃ d, gedit_externally_modified_saving_error_info_bar_new K (some loc) error = some d) ∧
    (∀ K create_backup_copy loc error,
      ((error.domain = ErrorDomain.GEDIT_DOCUMENT_ERROR ∧
          error.code = K.GEDIT_DOCUMENT_ERROR_CANT_CREATE_BACKUP) ∨
        (error.domain = ErrorDomain.G_IO_ERROR ∧
          error.code = G_IO_ERROR_CANT_CREATE_BACKUP)) →
      ∃ d, gedit_no_backup_saving_error_info_bar_new K create_backup_copy (some loc) error =
        some d) ∧
    (∀ loc document_modified,
      ∃ d, gedit_externally_modified_info_bar_new (some loc) document_modified = some d) := by
  refine ⟨?_, ?_, ?_, ?_, ?_, ?_, ?_, ?_⟩
  · intro K location encoding error h
    obtain ⟨pre, suf, s, h⟩ := load_result K location encoding error h
    exact ⟨_, h⟩
  · intro K loc error h
    obtain ⟨pre, suf, s, h⟩ := revert_result K loc error h
    exact ⟨_, h⟩
  · intro K loc error h
    obtain ⟨pre, suf, s, h⟩ := save_result K loc error h
    exact ⟨_, h⟩
  · intro loc enc error h
    unfold gedit_conversion_error_while_saving_info_bar_new
    simp only []
    rw [if_neg (not_not.2 h)]
    exact ⟨_, rfl⟩
  · intro loc
    exact ⟨_, rfl⟩
  · intro K loc error h1 h2
    unfold gedit_externally_modified_saving_error_info_bar_new
    simp only []
    rw [if_neg (not_not.2 h1), if_neg (not_not.2 h2)]
    exact ⟨_, rfl⟩
  · intro K create_backup_copy loc error h
    unfold gedit_no_backup_saving_error_info_bar_new
    simp only []
    rw [if_neg (not_not.2 h)]
    exact ⟨_, rfl⟩
  · intro loc document_modified
    exact ⟨_, rfl⟩

/-- C10: whatever state the job is in, after `begin_print_cb` its status is PAGINATING
and its progress is 0, and the callback has emitted the signal `printing` once, with the
status PAGINATING. -/
theorem C10_begin_print_sets_paginating (job : GeditPrintJob) :
    (begin_print_cb job).1.status = GeditPrintJobStatus.GEDIT_PRINT_JOB_STATUS_PAGINATING ∧
    (begin_print_cb job).1.progress = 0 ∧
    (begin_print_cb job).2 =
      [Signal.PRINTING GeditPrintJobStatus.GEDIT_PRINT_JOB_STATUS_PAGINATING] :=
  ⟨rfl, rfl, rfl⟩

/-! ## Lemmas on the print job -/

theorem print_step_status (job : GeditPrintJob) (event : PrintEvent) :
    (print_step job event).status =
      match event with
      | PrintEvent.begin_print => GeditPrintJobStatus.GEDIT_PRINT_JOB_STATUS_PAGINATING
      | PrintEvent.paginate _ _ _ => GeditPrintJobStatus.GEDIT_PRINT_JOB_STATUS_PAGINATING
      | PrintEvent.draw_page _ _ =>
        if job.is_preview then job.status
        else GeditPrintJobStatus.GEDIT_PRINT_JOB_STATUS_DRAWING
      | PrintEvent.end_print => job.status
      | PrintEvent.done _ _ => job.status := by
  cases event with
  | begin_print => rfl
  | paginate res n f =>
    simp only [print_step, paginate_cb]
    split_ifs <;> rfl
  | draw_page p n =>
    simp only [print_step, draw_page_cb]
    cases job.is_preview <;> simp
  | end_print =>
    simp only [print_step, end_print_cb]
    split_ifs <;> rfl
  | done result e =>
    simp only [print_step, done_cb]
    cases result <;> rfl

theorem print_step_progress (job : GeditPrintJob) (event : PrintEvent) :
    (print_step job event).progress =
      match event with
      | PrintEvent.begin_print => 0
      | PrintEvent.paginate _ _ pagination_progress =>
        if job.is_preview then pagination_progress else pagination_progress / 2
      | PrintEvent.draw_page page_nr n_pages =>
        if job.is_preview then job.progress
        else (page_nr : ℚ) / (2 * (n_pages : ℚ)) + 1 / 2
      | PrintEvent.end_print => job.progress
      | PrintEvent.done _ _ => job.progress := by
  cases event with
  | begin_print => rfl
  | paginate res n f =>
    simp only [print_step, paginate_cb]
    cases job.is_preview <;> simp
  | draw_page p n =>
    simp only [print_step, draw_page_cb]
    cases job.is_preview <;> simp
  | end_print =>
    simp only [print_step, end_print_cb]
    split_ifs <;> rfl
  | done result e =>
    simp only [print_step, done_cb]
    cases result <;> rfl

theorem print_step_is_preview (job : GeditPrintJob) (event : PrintEvent) :
    (print_step job event).is_preview = job.is_preview := by
  cases event with
  | begin_print => rfl
  | paginate res n f =>
    simp only [print_step, paginate_cb]
    cases job.is_preview <;> simp
  | draw_page p n =>
    simp only [print_step, draw_page_cb]
    cases h : job.is_preview <;> simp [h]
  | end_print =>
    simp only [print_step, end_print_cb]
    split_ifs <;> rfl
  | done result e =>
    simp only [print_step, done_cb]
    cases result <;> rfl

theorem draw_progress_mono (p q n : Int) (hn : 0 < n) (hpq : p ≤ q) :
    (p : ℚ) / (2 * (n : ℚ)) + 1 / 2 ≤ (q : ℚ) / (2 * (n : ℚ)) + 1 / 2 := by
  have hn2 : (0 : ℚ) < 2 * (n : ℚ) := by
    have : (0 : ℚ) < (n : ℚ) := by exact_mod_cast hn
    linarith
  have hpq2 : (p : ℚ) ≤ (q : ℚ) := by exact_mod_cast hpq
  have := div_le_div_of_nonneg_right hpq2 (le_of_lt hn2)
  linarith

theorem draw_progress_ge_half (p n : Int) (hn : 0 < n) (hp : 0 ≤ p) :
    (1 : ℚ) / 2 ≤ (p : ℚ) / (2 * (n : ℚ)) + 1 / 2 := by
  have h := draw_progress_mono 0 p n hn hp
  simpa using h

theorem draw_progress_lt_one (p n : Int) (hp : p < n) (hn : 0 < n) :
    (p : ℚ) / (2 * (n : ℚ)) + 1 / 2 < 1 := by
  have hn2 : (0 : ℚ) < 2 * (n : ℚ) := by
    have : (0 : ℚ) < (n : ℚ) := by exact_mod_cast hn
    linarith
  have hpq2 : (p : ℚ) < (n : ℚ) := by exact_mod_cast hp
  have h : (p : ℚ) / (2 * (n : ℚ)) < 1 / 2 := by
    rw [div_lt_iff₀ hn2]
    linarith
  linarith

/-- Drawing pages in non-decreasing order never lowers the progress, once the progress is
not above the value of any page still to be drawn. -/
theorem draw_pages_chain (n_pages : Int) (pages : List Int) (job : GeditPrintJob)
    (hp : pages.Pairwise (· ≤ ·)) (hpr : ∀ p ∈ pages, 0 ≤ p ∧ p < n_pages)
    (hjob : job.is_preview = false →
      ∀ p ∈ pages, job.progress ≤ (p : ℚ) / (2 * (n_pages : ℚ)) + 1 / 2) :
    List.Chain (fun a b : GeditPrintJob => a.progress ≤ b.progress) job
      (print_trace job (pages.map (fun p => PrintEvent.draw_page p n_pages))) := by
  induction pages generalizing job with
  | nil => exact List.Chain.nil
  | cons p ps ih =>
    simp only [List.map_cons, print_trace]
    rw [List.pairwise_cons] at hp
    have hpp := hpr p (List.mem_cons_self p ps)
    have hn : 0 < n_pages := lt_of_le_of_lt hpp.1 hpp.2
    refine List.Chain.cons ?_ (ih _ hp.2 (fun q hq => hpr q (List.mem_cons_of_mem p hq)) ?_)
    · rw [print_step_progress]
      cases hb : job.is_preview
      · simpa using hjob hb p (List.mem_cons_self p ps)
      · simp
    · intro hb q hq
      rw [print_step_is_preview] at hb
      rw [print_step_progress]
      simp only [hb, Bool.false_eq_true, if_false]
      exact draw_progress_mono p q n_pages hn (hp.1 q hq)

theorem print_step_keeps_not_done (job : GeditPrintJob) (event : PrintEvent)
    (h : job.status ≠ GeditPrintJobStatus.GEDIT_PRINT_JOB_STATUS_DONE) :
    (print_step job event).status ≠ GeditPrintJobStatus.GEDIT_PRINT_JOB_STATUS_DONE := by
  rw [print_step_status]
  cases event with
  | begin_print => simp
  | paginate res n f => simp
  | draw_page p n =>
    simp only []
    split_ifs
    · exact h
    · simp
  | end_print => exact h
  | done result e => exact h

theorem print_run_keeps_not_done (events : List PrintEvent) (job : GeditPrintJob)
    (h : job.status ≠ GeditPrintJobStatus.GEDIT_PRINT_JOB_STATUS_DONE) :
    (print_run job events).status ≠ GeditPrintJobStatus.GEDIT_PRINT_JOB_STATUS_DONE := by
  induction events generalizing job with
  | nil => exact h
  | cons e es ih =>
    simp only [print_run, List.foldl_cons]
    exact ih _ (print_step_keeps_not_done job e h)

/-- When no `begin_print` and no `paginate` step is left, the status only moves forward
towards DRAWING. -/
theorem phase_chain_after (after : List PrintEvent) (job : GeditPrintJob)
    (ha : ∀ e ∈ after, sets_paginating e = false)
    (h : job.status ≠ GeditPrintJobStatus.GEDIT_PRINT_JOB_STATUS_DONE) :
    List.Chain (fun a b : GeditPrintJob => phase_rank a.status ≤ phase_rank b.status) job
        (print_trace job after) ∧
      ∀ j ∈ print_trace job after,
        j.status ≠ GeditPrintJobStatus.GEDIT_PRINT_JOB_STATUS_DONE := by
  induction after generalizing job with
  | nil => exact ⟨List.Chain.nil, fun j hj => absurd hj (List.not_mem_nil j)⟩
  | cons e es ih =>
    have hnd := print_step_keeps_not_done job e h
    obtain ⟨hc, hall⟩ := ih (print_step job e)
      (fun x hx => ha x (List.mem_cons_of_mem e hx)) hnd
    have he := ha e (List.mem_cons_self e es)
    simp only [print_trace]
    refine ⟨List.Chain.cons ?_ hc, ?_⟩
    · rw [print_step_status]
      cases e with
      | begin_print => simp [sets_paginating] at he
      | paginate res n f => simp [sets_paginating] at he
      | draw_page p n =>
        simp only []
        split_ifs
        · exact le_refl _
        · cases hs : job.status <;> simp [phase_rank]
          exact h hs
      | end_print => exact le_refl _
      | done result e => exact le_refl _
    · intro j hj
      rcases List.mem_cons.mp hj with rfl | hj
      · exact hnd
      · exact hall j hj

/-- A callback whose report is in range keeps the progress in [0, 1]. -/
theorem print_step_progress_in_range (job : GeditPrintJob) (event : PrintEvent)
    (hj : 0 ≤ job.progress ∧ job.progress ≤ 1) (he : event_in_range event) :
    0 ≤ (print_step job event).progress ∧ (print_step job event).progress ≤ 1 := by
  rw [print_step_progress]
  cases event with
  | begin_print => exact ⟨le_refl _, zero_le_one⟩
  | paginate res n f =>
    simp only [event_in_range] at he
    simp only []
    split_ifs
    · exact he
    · constructor <;> linarith [he.1, he.2]
  | draw_page p n =>
    simp only [event_in_range] at he
    simp only []
    split_ifs
    · exact hj
    · have hn : 0 < n := lt_of_le_of_lt he.1 he.2
      have h1 := draw_progress_ge_half p n hn he.1
      have h2 := draw_progress_lt_one p n he.2 hn
      constructor <;> linarith
  | end_print => exact hj
  | done result e => exact hj

theorem print_run_progress_in_range (events : List PrintEvent) (job : GeditPrintJob)
    (hj : 0 ≤ job.progress ∧ job.progress ≤ 1) (he : ∀ e ∈ events, event_in_range e) :
    0 ≤ (print_run job events).progress ∧ (print_run job events).progress ≤ 1 := by
  induction events generalizing job with
  | nil => exact hj
  | cons e es ih =>
    simp only [print_run, List.foldl_cons]
    exact ih _ (print_step_progress_in_range job e hj (he e (List.mem_cons_self e es)))
      (fun x hx => he x (List.mem_cons_of_mem e hx))

/-! ## Claims on the callbacks of the print job -/

/-- C11: after `paginate_cb` the progress of the job is the pagination progress the
compositor reports when the job is a preview and half of it otherwise, the status is
PAGINATING, and the callback returns what the paginate call of the compositor
returned. -/
theorem C11_paginate_cb_progress (job : GeditPrintJob) (res : Bool) (n_pages : Int)
    (pagination_progress : ℚ) :
    (paginate_cb job res n_pages pagination_progress).job.progress =
      (if job.is_preview then pagination_progress else pagination_progress / 2) ∧
    (paginate_cb job res n_pages pagination_progress).job.status =
      GeditPrintJobStatus.GEDIT_PRINT_JOB_STATUS_PAGINATING ∧
    (paginate_cb job res n_pages pagination_progress).res = res := by
  unfold paginate_cb
  cases job.is_preview <;> simp

/-- C13 fails as stated: after pagination has reported 1 and page 5 of 10 has been drawn
the progress is 3/4, and one more `paginate_cb` puts it back to 1/2. -/
theorem C13_paginate_after_draw_lowers_progress :
    (print_run sample_print_job
      [PrintEvent.begin_print, PrintEvent.paginate true 10 1,
        PrintEvent.draw_page 5 10]).progress = 3 / 4 ∧
    (print_step
      (print_run sample_print_job
        [PrintEvent.begin_print, PrintEvent.paginate true 10 1, PrintEvent.draw_page 5 10])
      (PrintEvent.paginate true 10 1)).progress = 1 / 2 ∧
    (print_step
      (print_run sample_print_job
        [PrintEvent.begin_print, PrintEvent.paginate true 10 1, PrintEvent.draw_page 5 10])
      (PrintEvent.paginate true 10 1)).progress <
    (print_run sample_print_job
      [PrintEvent.begin_print, PrintEvent.paginate true 10 1,
        PrintEvent.draw_page 5 10]).progress := by
  have h1 : (print_run sample_print_job
      [PrintEvent.begin_print, PrintEvent.paginate true 10 1,
        PrintEvent.draw_page 5 10]).progress = 3 / 4 := by
    simp only [print_run, List.foldl, print_step_progress, print_step_is_preview]
    simp only [sample_print_job, gedit_print_job_new]
    norm_num
  have h2 : (print_step
      (print_run sample_print_job
        [PrintEvent.begin_print, PrintEvent.paginate true 10 1, PrintEvent.draw_page 5 10])
      (PrintEvent.paginate true 10 1)).progress = 1 / 2 := by
    simp only [print_run, List.foldl, print_step_progress, print_step_is_preview]
    simp only [sample_print_job, gedit_print_job_new]
    norm_num
  refine ⟨h1, h2, ?_⟩
  rw [h1, h2]
  norm_num

/-- C13, amended: in a print run that starts with `begin_print_cb`, goes on with
pagination steps whose reported progress lies in [0, 1] and does not decrease, and ends
with page drawings whose page numbers lie in [0, n) and do not decrease, the progress of
the job after each callback is at least the progress before it. -/
theorem C13_progress_monotone_in_ordered_run (job : GeditPrintJob)
    (steps : List (Bool × Int × ℚ)) (pages : List Int) (n_pages : Int)
    (hf : (steps.map (fun s => s.2.2)).Pairwise (· ≤ ·))
    (hf01 : ∀ s ∈ steps, 0 ≤ s.2.2 ∧ s.2.2 ≤ 1)
    (hp : pages.Pairwise (· ≤ ·))
    (hpr : ∀ p ∈ pages, 0 ≤ p ∧ p < n_pages) :
    List.Chain (fun a b : GeditPrintJob => a.progress ≤ b.progress)
      (begin_print_cb job).1
      (print_trace (begin_print_cb job).1
        (steps.map (fun s => PrintEvent.paginate s.1 s.2.1 s.2.2) ++
          pages.map (fun p => PrintEvent.draw_page p n_pages))) := by
  have key : ∀ (steps : List (Bool × Int × ℚ)) (j : GeditPrintJob),
      (steps.map (fun s => s.2.2)).Pairwise (· ≤ ·) →
      (∀ s ∈ steps, 0 ≤ s.2.2 ∧ s.2.2 ≤ 1) →
      (∀ s ∈ steps, j.progress ≤ (if j.is_preview then s.2.2 else s.2.2 / 2)) →
      (j.is_preview = false → j.progress ≤ 1 / 2) →
      List.Chain (fun a b : GeditPrintJob => a.progress ≤ b.progress) j
        (print_trace j
          (steps.map (fun s => PrintEvent.paginate s.1 s.2.1 s.2.2) ++
            pages.map (fun p => PrintEvent.draw_page p n_pages))) := by
    intro steps
    induction steps with
    | nil =>
      intro j _ _ _ h2
      simp only [List.map_nil, List.nil_append]
      refine draw_pages_chain n_pages pages j hp hpr (fun hb p hpm => ?_)
      have hpp := hpr p hpm
      exact le_trans (h2 hb)
        (draw_progress_ge_half p n_pages (lt_of_le_of_lt hpp.1 hpp.2) hpp.1)
    | cons s ss ih =>
      intro j hf hf01 h1 h2
      simp only [List.map_cons, List.cons_append, print_trace]
      rw [List.map_cons, List.pairwise_cons] at hf
      have hs := hf01 s (List.mem_cons_self s ss)
      refine List.Chain.cons ?_ (ih _ hf.2
        (fun t ht => hf01 t (List.mem_cons_of_mem s ht)) ?_ ?_)
      · rw [print_step_progress]
        exact h1 s (List.mem_cons_self s ss)
      · intro t ht
        rw [print_step_progress, print_step_is_preview]
        have hst : s.2.2 ≤ t.2.2 := hf.1 t.2.2 (List.mem_map_of_mem (fun s => s.2.2) ht)
        cases j.is_preview
        · simp only [Bool.false_eq_true, if_false]
          linarith
        · simpa using hst
      · intro hb
        rw [print_step_is_preview] at hb
        rw [print_step_progress]
        simp only [hb, Bool.false_eq_true, if_false]
        linarith [hs.2]
  refine key steps _ hf hf01 (fun s hs => ?_) (fun _ => ?_)
  · have h0 := (hf01 s hs).1
    have hz : (begin_print_cb job).1.progress = 0 := rfl
    rw [hz]
    split_ifs
    · exact h0
    · linarith
  · have hz : (begin_print_cb job).1.progress = 0 := rfl
    rw [hz]
    norm_num

/-- C13, amended, at a run of the sample job with two pagination steps and two pages. -/
theorem C13_progress_monotone_in_ordered_run_witness :
    List.Chain (fun a b : GeditPrintJob => a.progress ≤ b.progress)
      (begin_print_cb sample_print_job).1
      (print_trace (begin_print_cb sample_print_job).1
        ([(false, 0, 1 / 2), (true, 2, 1)].map
            (fun s => PrintEvent.paginate s.1 s.2.1 s.2.2) ++
          [0, 1].map (fun p => PrintEvent.draw_page p 2))) :=
  C13_progress_monotone_in_ordered_run sample_print_job
    [(false, 0, 1 / 2), (true, 2, 1)] [0, 1] 2
    (by simp; norm_num)
    (by
      intro s hs
      simp only [List.mem_cons, List.mem_singleton, List.not_mem_nil, or_false] at hs
      rcases hs with rfl | rfl <;> norm_num)
    (by simp)
    (by
      intro p hp
      simp only [List.mem_cons, List.mem_singleton, List.not_mem_nil, or_false] at hp
      rcases hp with rfl | rfl <;> norm_num)

/-- C14 fails as stated: once a page has been drawn the status is DRAWING, and one more
`paginate_cb` moves it back to PAGINATING. -/
theorem C14_paginate_after_draw_moves_phase_back :
    (print_run sample_print_job
      [PrintEvent.begin_print, PrintEvent.paginate true 3 1,
        PrintEvent.draw_page 0 3]).status =
      GeditPrintJobStatus.GEDIT_PRINT_JOB_STATUS_DRAWING ∧
    (print_step
      (print_run sample_print_job
        [PrintEvent.begin_print, PrintEvent.paginate true 3 1, PrintEvent.draw_page 0 3])
      (PrintEvent.paginate true 3 1)).status =
      GeditPrintJobStatus.GEDIT_PRINT_JOB_STATUS_PAGINATING ∧
    phase_rank GeditPrintJobStatus.GEDIT_PRINT_JOB_STATUS_PAGINATING <
      phase_rank GeditPrintJobStatus.GEDIT_PRINT_JOB_STATUS_DRAWING := by
  refine ⟨?_, ?_, by decide⟩
  · simp only [print_run, List.foldl, print_step_status, print_step_is_preview]
    simp [sample_print_job, gedit_print_job_new]
  · simp only [print_step_status]

/-- C14, amended: on a job whose status is INIT, as a fresh job's is, under every sequence
of callbacks in which no `begin_print_cb` and no `paginate_cb` comes after a
`draw_page_cb`, no callback moves the status to an earlier one in the order INIT,
PAGINATING, DRAWING, DONE, and the status never becomes DONE. -/
theorem C14_phase_order_in_ordered_run (job : GeditPrintJob)
    (before after : List PrintEvent)
    (h0 : job.status = GeditPrintJobStatus.GEDIT_PRINT_JOB_STATUS_INIT)
    (hb : ∀ e ∈ before, is_draw_page e = false)
    (ha : ∀ e ∈ after, sets_paginating e = false) :
    List.Chain (fun a b : GeditPrintJob => phase_rank a.status ≤ phase_rank b.status) job
        (print_trace job (before ++ after)) ∧
      ∀ j ∈ print_trace job (before ++ after),
        j.status ≠ GeditPrintJobStatus.GEDIT_PRINT_JOB_STATUS_DONE := by
  have key : ∀ (before : List PrintEvent) (j : GeditPrintJob),
      (∀ e ∈ before, is_draw_page e = false) →
      (j.status = GeditPrintJobStatus.GEDIT_PRINT_JOB_STATUS_INIT ∨
        j.status = GeditPrintJobStatus.GEDIT_PRINT_JOB_STATUS_PAGINATING) →
      List.Chain (fun a b : GeditPrintJob => phase_rank a.status ≤ phase_rank b.status) j
          (print_trace j (before ++ after)) ∧
        ∀ x ∈ print_trace j (before ++ after),
          x.status ≠ GeditPrintJobStatus.GEDIT_PRINT_JOB_STATUS_DONE := by
    intro before
    induction before with
    | nil =>
      intro j _ hj
      simp only [List.nil_append]
      refine phase_chain_after after j ha ?_
      rcases hj with hj | hj <;> rw [hj] <;> decide
    | cons e es ih =>
      intro j hb hj
      have he := hb e (List.mem_cons_self e es)
      have hst : (print_step j e).status = GeditPrintJobStatus.GEDIT_PRINT_JOB_STATUS_INIT ∨
          (print_step j e).status = GeditPrintJobStatus.GEDIT_PRINT_JOB_STATUS_PAGINATING := by
        rw [print_step_status]
        cases e with
        | begin_print => exact Or.inr rfl
        | paginate res n f => exact Or.inr rfl
        | draw_page p n => simp [is_draw_page] at he
        | end_print => exact hj
        | done result e => exact hj
      obtain ⟨hc, hall⟩ := ih (print_step j e)
        (fun x hx => hb x (List.mem_cons_of_mem e hx)) hst
      simp only [List.cons_append, print_trace]
      refine ⟨List.Chain.cons ?_ hc, ?_⟩
      · rcases hj with hj | hj <;> rcases hst with hst | hst <;> rw [hj, hst] <;>
          first
          | decide
          | (exfalso
             rw [print_step_status] at hst
             cases e with
             | begin_print => simp at hst
             | paginate res n f => simp at hst
             | draw_page p n => simp [is_draw_page] at he
             | end_print => simp [hj] at hst
             | done result e => simp [hj] at hst)
      · intro x hx
        rcases List.mem_cons.mp hx with rfl | hx
        · rcases hst with hst | hst <;> rw [hst] <;> decide
        · exact hall x hx
  exact key before job hb (Or.inl h0)

/-- C14, amended, at a run of the sample job: begin, two pagination steps, two pages,
end, done. -/
theorem C14_phase_order_in_ordered_run_witness :
    List.Chain (fun a b : GeditPrintJob => phase_rank a.status ≤ phase_rank b.status)
        sample_print_job
        (print_trace sample_print_job
          ([PrintEvent.begin_print, PrintEvent.paginate false 0 (1 / 2),
              PrintEvent.paginate true 2 1] ++
            [PrintEvent.draw_page 0 2, PrintEvent.draw_page 1 2, PrintEvent.end_print,
              PrintEvent.done GtkPrintOperationResult.GTK_PRINT_OPERATION_RESULT_APPLY
                none])) ∧
      ∀ j ∈ print_trace sample_print_job
          ([PrintEvent.begin_print, PrintEvent.paginate false 0 (1 / 2),
              PrintEvent.paginate true 2 1] ++
            [PrintEvent.draw_page 0 2, PrintEvent.draw_page 1 2, PrintEvent.end_print,
              PrintEvent.done GtkPrintOperationResult.GTK_PRINT_OPERATION_RESULT_APPLY
                none]),
        j.status ≠ GeditPrintJobStatus.GEDIT_PRINT_JOB_STATUS_DONE :=
  C14_phase_order_in_ordered_run sample_print_job _ _ rfl
    (by
      intro e he
      simp only [List.mem_cons, List.mem_singleton, List.not_mem_nil, or_false] at he
      rcases he with rfl | rfl | rfl <;> rfl)
    (by
      intro e he
      simp only [List.mem_cons, List.mem_singleton, List.not_mem_nil, or_false] at he
      rcases he with rfl | rfl | rfl | rfl <;> rfl)

/-- C15 fails as stated: after `done_cb` the status of the job is still PAGINATING, not
DONE, and a page drawn afterwards changes it to DRAWING. -/
theorem C15_done_cb_does_not_end_the_phases :
    (print_run sample_print_job
      [PrintEvent.begin_print,
        PrintEvent.done GtkPrintOperationResult.GTK_PRINT_OPERATION_RESULT_APPLY none]).status =
      GeditPrintJobStatus.GEDIT_PRINT_JOB_STATUS_PAGINATING ∧
    (print_run sample_print_job
      [PrintEvent.begin_print,
        PrintEvent.done GtkPrintOperationResult.GTK_PRINT_OPERATION_RESULT_APPLY none]).status ≠
      GeditPrintJobStatus.GEDIT_PRINT_JOB_STATUS_DONE ∧
    (print_run sample_print_job
      [PrintEvent.begin_print,
        PrintEvent.done GtkPrintOperationResult.GTK_PRINT_OPERATION_RESULT_APPLY none,
        PrintEvent.draw_page 0 3]).status =
      GeditPrintJobStatus.GEDIT_PRINT_JOB_STATUS_DRAWING := by
  have h1 : (print_run sample_print_job
      [PrintEvent.begin_print,
        PrintEvent.done GtkPrintOperationResult.GTK_PRINT_OPERATION_RESULT_APPLY none]).status =
      GeditPrintJobStatus.GEDIT_PRINT_JOB_STATUS_PAGINATING := by
    simp only [print_run, List.foldl, print_step_status]
  refine ⟨h1, ?_, ?_⟩
  · rw [h1]
    decide
  · simp only [print_run, List.foldl, print_step_status, print_step_is_preview]
    simp [sample_print_job, gedit_print_job_new]

/-- C15, amended: `done_cb` does not touch the status: for every result of the print
operation the status, the progress and the status text of the job are after the call what
they were before it; no sequence of callbacks makes the status of a fresh job DONE; and
after `done_cb` the callbacks `begin_print_cb` and `paginate_cb` still set the status to
PAGINATING and `draw_page_cb` on a job that is not a preview still sets it to DRAWING. -/
theorem C15_done_cb_keeps_phase (job : GeditPrintJob) (result : GtkPrintOperationResult)
    (operation_error : Option GError) :
    (done_cb job result operation_error).1.status = job.status ∧
    (done_cb job result operation_error).1.progress = job.progress ∧
    (done_cb job result operation_error).1.status_string = job.status_string ∧
    (done_cb job result operation_error).1.is_preview = job.is_preview ∧
    (∀ (print_settings : PrintSettings) (view_tab_width : Nat) ( doc_highlight_syntax : Bool)
        (doc_uri_for_display : String) (events : List PrintEvent),
      (print_run
        (gedit_print_job_new print_settings view_tab_width doc_highlight_syntax
          doc_uri_for_display) events).status ≠
        GeditPrintJobStatus.GEDIT_PRINT_JOB_STATUS_DONE) ∧
    (begin_print_cb (done_cb job result operation_error).1).1.status =
      GeditPrintJobStatus.GEDIT_PRINT_JOB_STATUS_PAGINATING ∧
    (∀ (res : Bool) (n_pages : Int) (pagination_progress : ℚ),
      (paginate_cb (done_cb job result operation_error).1 res n_pages
        pagination_progress).job.status =
        GeditPrintJobStatus.GEDIT_PRINT_JOB_STATUS_PAGINATING) ∧
    (∀ (page_nr n_pages : Int),
      (draw_page_cb (done_cb job result operation_error).1 page_nr n_pages).1.status =
        if job.is_preview then job.status
        else GeditPrintJobStatus.GEDIT_PRINT_JOB_STATUS_DRAWING) := by
  have hs : (done_cb job result operation_error).1.status = job.status :=
    print_step_status job (PrintEvent.done result operation_error)
  have hv : (done_cb job result operation_error).1.is_preview = job.is_preview :=
    print_step_is_preview job (PrintEvent.done result operation_error)
  refine ⟨hs, print_step_progress job (PrintEvent.done result operation_error), ?_, hv,
    ?_, rfl, ?_, ?_⟩
  · unfold done_cb
    cases result <;> rfl
  · intro print_settings view_tab_width doc_highlight_syntax doc_uri_for_display events
    exact print_run_keeps_not_done events _ (by simp [gedit_print_job_new])
  · intro res n_pages pagination_progress
    exact print_step_status (done_cb job result operation_error).1
      (PrintEvent.paginate res n_pages pagination_progress)
  · intro page_nr n_pages
    have h := print_step_status (done_cb job result operation_error).1
      (PrintEvent.draw_page page_nr n_pages)
    simp only [print_step] at h
    rw [h, hv, hs]

/-- C16: for the results CANCEL, APPLY and ERROR of the print operation `done_cb` emits
the signal `done` once, with the job result CANCEL, OK and ERROR in turn; with ERROR it
passes the error of the operation on as it is, with CANCEL and APPLY it passes no error;
for every other result it emits nothing and leaves the job as it is. -/
theorem C16_done_cb_notification (job : GeditPrintJob) (operation_error : Option GError) :
    (done_cb job GtkPrintOperationResult.GTK_PRINT_OPERATION_RESULT_CANCEL
      operation_error).2 =
      [Signal.DONE GeditPrintJobResult.GEDIT_PRINT_JOB_RESULT_CANCEL none] ∧
    (done_cb job GtkPrintOperationResult.GTK_PRINT_OPERATION_RESULT_APPLY
      operation_error).2 =
      [Signal.DONE GeditPrintJobResult.GEDIT_PRINT_JOB_RESULT_OK none] ∧
    (done_cb job GtkPrintOperationResult.GTK_PRINT_OPERATION_RESULT_ERROR
      operation_error).2 =
      [Signal.DONE GeditPrintJobResult.GEDIT_PRINT_JOB_RESULT_ERROR operation_error] ∧
    (∀ result : GtkPrintOperationResult,
      result ≠ GtkPrintOperationResult.GTK_PRINT_OPERATION_RESULT_CANCEL →
      result ≠ GtkPrintOperationResult.GTK_PRINT_OPERATION_RESULT_APPLY →
      result ≠ GtkPrintOperationResult.GTK_PRINT_OPERATION_RESULT_ERROR →
      done_cb job result operation_error = (job, [])) := by
  refine ⟨rfl, rfl, rfl, ?_⟩
  intro result h1 h2 h3
  cases result with
  | GTK_PRINT_OPERATION_RESULT_ERROR => exact absurd rfl h3
  | GTK_PRINT_OPERATION_RESULT_APPLY => exact absurd rfl h2
  | GTK_PRINT_OPERATION_RESULT_CANCEL => exact absurd rfl h1
  | GTK_PRINT_OPERATION_RESULT_IN_PROGRESS => rfl
  | other value => rfl

/-- C16 at the result IN_PROGRESS on the sample job. -/
theorem C16_done_cb_notification_witness :
    done_cb sample_print_job GtkPrintOperationResult.GTK_PRINT_OPERATION_RESULT_IN_PROGRESS
      none = (sample_print_job, []) :=
  (C16_done_cb_notification sample_print_job none).2.2.2
    GtkPrintOperationResult.GTK_PRINT_OPERATION_RESULT_IN_PROGRESS
    (by decide) (by decide) (by decide)

/-- C17 on the code: `gedit_print_job_print` turns a second call down only while the
compositor exists. On a job that has been started once, a second call before
`begin_print_cb` and a second call after `end_print_cb` both create and run a new
operation, return what the run returns and set the preview flag anew; a second call
between `begin_print_cb` and `end_print_cb` is turned down. -/
theorem C17_second_print_runs_outside_begin_and_end :
    (gedit_print_job_print
      (gedit_print_job_print sample_print_job
        GtkPrintOperationAction.GTK_PRINT_OPERATION_ACTION_PRINT
        GtkPrintOperationResult.GTK_PRINT_OPERATION_RESULT_IN_PROGRESS).job
      GtkPrintOperationAction.GTK_PRINT_OPERATION_ACTION_PREVIEW
      GtkPrintOperationResult.GTK_PRINT_OPERATION_RESULT_APPLY) =
      { job := { sample_print_job with operation := true, is_preview := true }
        calls := [PrintCall.gtk_print_operation_new,
          PrintCall.gtk_print_operation_run
            GtkPrintOperationAction.GTK_PRINT_OPERATION_ACTION_PREVIEW]
        result := GtkPrintOperationResult.GTK_PRINT_OPERATION_RESULT_APPLY } ∧
    (gedit_print_job_print
      (print_run
        (gedit_print_job_print sample_print_job
          GtkPrintOperationAction.GTK_PRINT_OPERATION_ACTION_PRINT
          GtkPrintOperationResult.GTK_PRINT_OPERATION_RESULT_IN_PROGRESS).job
        [PrintEvent.begin_print, PrintEvent.paginate true 1 1, PrintEvent.draw_page 0 1,
          PrintEvent.end_print,
          PrintEvent.done GtkPrintOperationResult.GTK_PRINT_OPERATION_RESULT_APPLY none])
      GtkPrintOperationAction.GTK_PRINT_OPERATION_ACTION_PREVIEW
      GtkPrintOperationResult.GTK_PRINT_OPERATION_RESULT_APPLY).calls =
      [PrintCall.gtk_print_operation_new,
        PrintCall.gtk_print_operation_run
          GtkPrintOperationAction.GTK_PRINT_OPERATION_ACTION_PREVIEW] ∧
    (gedit_print_job_print
      (print_run
        (gedit_print_job_print sample_print_job
          GtkPrintOperationAction.GTK_PRINT_OPERATION_ACTION_PRINT
          GtkPrintOperationResult.GTK_PRINT_OPERATION_RESULT_IN_PROGRESS).job
        [PrintEvent.begin_print, PrintEvent.paginate true 1 1, PrintEvent.draw_page 0 1,
          PrintEvent.end_print,
          PrintEvent.done GtkPrintOperationResult.GTK_PRINT_OPERATION_RESULT_APPLY none])
      GtkPrintOperationAction.GTK_PRINT_OPERATION_ACTION_PREVIEW
      GtkPrintOperationResult.GTK_PRINT_OPERATION_RESULT_APPLY).result =
      GtkPrintOperationResult.GTK_PRINT_OPERATION_RESULT_APPLY ∧
    (gedit_print_job_print
      (print_run
        (gedit_print_job_print sample_print_job
          GtkPrintOperationAction.GTK_PRINT_OPERATION_ACTION_PRINT
          GtkPrintOperationResult.GTK_PRINT_OPERATION_RESULT_IN_PROGRESS).job
        [PrintEvent.begin_print, PrintEvent.paginate true 1 1, PrintEvent.draw_page 0 1,
          PrintEvent.end_print,
          PrintEvent.done GtkPrintOperationResult.GTK_PRINT_OPERATION_RESULT_APPLY none])
      GtkPrintOperationAction.GTK_PRINT_OPERATION_ACTION_PREVIEW
      GtkPrintOperationResult.GTK_PRINT_OPERATION_RESULT_APPLY).job.is_preview = true ∧
    (gedit_print_job_print
      (print_run
        (gedit_print_job_print sample_print_job
          GtkPrintOperationAction.GTK_PRINT_OPERATION_ACTION_PRINT
          GtkPrintOperationResult.GTK_PRINT_OPERATION_RESULT_IN_PROGRESS).job
        [PrintEvent.begin_print, PrintEvent.paginate true 1 1])
      GtkPrintOperationAction.GTK_PRINT_OPERATION_ACTION_PREVIEW
      GtkPrintOperationResult.GTK_PRINT_OPERATION_RESULT_APPLY).calls = [] ∧
    (gedit_print_job_print
      (print_run
        (gedit_print_job_print sample_print_job
          GtkPrintOperationAction.GTK_PRINT_OPERATION_ACTION_PRINT
          GtkPrintOperationResult.GTK_PRINT_OPERATION_RESULT_IN_PROGRESS).job
        [PrintEvent.begin_print, PrintEvent.paginate true 1 1])
      GtkPrintOperationAction.GTK_PRINT_OPERATION_ACTION_PREVIEW
      GtkPrintOperationResult.GTK_PRINT_OPERATION_RESULT_APPLY).result =
      GtkPrintOperationResult.GTK_PRINT_OPERATION_RESULT_ERROR := by
  refine ⟨?_, ?_, ?_, ?_, ?_, ?_⟩ <;>
    simp [gedit_print_job_print, print_run, print_step, begin_print_cb, create_compositor,
      paginate_cb, draw_page_cb, end_print_cb, done_cb, sample_print_job, gedit_print_job_new]

/-- C18: take a fresh job, as it is or started by `gedit_print_job_print` with any action,
and any sequence of callbacks in which every reported pagination progress lies in [0, 1]
and every drawn page number is at least 0 and below the page count; the progress
`gedit_print_job_get_progress` then returns lies in [0, 1]. -/
theorem C18_progress_in_unit_interval (print_settings : PrintSettings) (view_tab_width : Nat)
    ( doc_highlight_syntax : Bool) (doc_uri_for_display : String)
    (action : GtkPrintOperationAction) (run_result : GtkPrintOperationResult)
    (events : List PrintEvent) (he : ∀ e ∈ events, event_in_range e) :
    (0 ≤ gedit_print_job_get_progress
        (print_run
          (gedit_print_job_new print_settings view_tab_width doc_highlight_syntax
            doc_uri_for_display) events) ∧
      gedit_print_job_get_progress
        (print_run
          (gedit_print_job_new print_settings view_tab_width doc_highlight_syntax
            doc_uri_for_display) events) ≤ 1) ∧
    (0 ≤ gedit_print_job_get_progress
        (print_run
          (gedit_print_job_print
            (gedit_print_job_new print_settings view_tab_width doc_highlight_syntax
              doc_uri_for_display) action run_result).job events) ∧
      gedit_print_job_get_progress
        (print_run
          (gedit_print_job_print
            (gedit_print_job_new print_settings view_tab_width doc_highlight_syntax
              doc_uri_for_display) action run_result).job events) ≤ 1) := by
  unfold gedit_print_job_get_progress
  constructor
  · exact print_run_progress_in_range events _ ⟨le_refl _, zero_le_one⟩ he
  · refine print_run_progress_in_range events _ ?_ he
    simp [gedit_print_job_print, gedit_print_job_new]

/-- C18 at a printing run of the sample job: begin, two pagination steps, two pages. -/
theorem C18_progress_in_unit_interval_witness :
    0 ≤ gedit_print_job_get_progress
        (print_run
          (gedit_print_job_print sample_print_job
            GtkPrintOperationAction.GTK_PRINT_OPERATION_ACTION_PRINT
            GtkPrintOperationResult.GTK_PRINT_OPERATION_RESULT_IN_PROGRESS).job
          [PrintEvent.begin_print, PrintEvent.paginate false 0 (1 / 2),
            PrintEvent.paginate true 2 1, PrintEvent.draw_page 0 2,
            PrintEvent.draw_page 1 2]) ∧
      gedit_print_job_get_progress
        (print_run
          (gedit_print_job_print sample_print_job
            GtkPrintOperationAction.GTK_PRINT_OPERATION_ACTION_PRINT
            GtkPrintOperationResult.GTK_PRINT_OPERATION_RESULT_IN_PROGRESS).job
          [PrintEvent.begin_print, PrintEvent.paginate false 0 (1 / 2),
            PrintEvent.paginate true 2 1, PrintEvent.draw_page 0 2,
            PrintEvent.draw_page 1 2]) ≤ 1 :=
  (C18_progress_in_unit_interval _ 8 true "/tmp/notes.txt"
    GtkPrintOperationAction.GTK_PRINT_OPERATION_ACTION_PRINT
    GtkPrintOperationResult.GTK_PRINT_OPERATION_RESULT_IN_PROGRESS
    [PrintEvent.begin_print, PrintEvent.paginate false 0 (1 / 2),
      PrintEvent.paginate true 2 1, PrintEvent.draw_page 0 2, PrintEvent.draw_page 1 2]
    (by
      intro e he
      simp only [List.mem_cons, List.mem_singleton, List.not_mem_nil, or_false] at he
      rcases he with rfl | rfl | rfl | rfl | rfl <;> norm_num [event_in_range])).2

/-- C19: on a job that is a preview, `draw_page_cb` leaves the job as it is, so status,
progress and status text are unchanged, and it emits no signal, whatever the page number
and the page count are. -/
theorem C19_draw_page_cb_preview_frame (job : GeditPrintJob) (page_nr n_pages : Int)
    (hp : job.is_preview = true) :
    draw_page_cb job page_nr n_pages = (job, []) ∧
    (draw_page_cb job page_nr n_pages).1.status = job.status ∧
    (draw_page_cb job page_nr n_pages).1.progress = job.progress ∧
    (draw_page_cb job page_nr n_pages).1.status_string = job.status_string ∧
    (draw_page_cb job page_nr n_pages).2 = [] := by
  have h : draw_page_cb job page_nr n_pages = (job, []) := by
    unfold draw_page_cb
    simp [hp]
  rw [h]
  exact ⟨rfl, rfl, rfl, rfl, rfl⟩

/-- C19 at a preview of the sample job, with a page number beyond the page count. -/
theorem C19_draw_page_cb_preview_frame_witness :
    draw_page_cb (preview_ready sample_print_job).1 7 3 =
      ((preview_ready sample_print_job).1, []) :=
  (C19_draw_page_cb_preview_frame (preview_ready sample_print_job).1 7 3 rfl).1

/-! ## Claims on the classification of errors -/

/-- C20: `is_recoverable_error` is true exactly for the errors of the I/O domain whose
code is PERMISSION_DENIED, NOT_FOUND, HOST_NOT_FOUND, TIMED_OUT, NOT_MOUNTABLE_FILE,
NOT_MOUNTED or BUSY; it is false for every error of another domain, whatever its code. -/
theorem C20_is_recoverable_error_iff (error : GError) :
    (is_recoverable_error error = true ↔
      error.domain = ErrorDomain.G_IO_ERROR ∧ recoverable_code error.code) ∧
    (error.domain ≠ ErrorDomain.G_IO_ERROR → is_recoverable_error error = false) := by
  unfold is_recoverable_error recoverable_code
  by_cases hd : error.domain = ErrorDomain.G_IO_ERROR
  · rw [if_pos hd]
    refine ⟨?_, fun h => absurd hd h⟩
    split_ifs with hc
    · exact ⟨fun _ => ⟨hd, hc⟩, fun _ => rfl⟩
    · exact ⟨fun h => absurd h (by decide), fun h => absurd h.2 hc⟩
  · rw [if_neg hd]
    exact ⟨⟨fun h => absurd h (by decide), fun h => absurd h.1 hd⟩, fun _ => rfl⟩

/-- C20 at a document error and a conversion error whose code is the number of the I/O
code NOT_FOUND. -/
theorem C20_is_recoverable_error_iff_witness :
    is_recoverable_error
      { domain := ErrorDomain.GEDIT_DOCUMENT_ERROR, code := G_IO_ERROR_NOT_FOUND,
        message := "" } = false ∧
    is_recoverable_error
      { domain := ErrorDomain.G_CONVERT_ERROR, code := G_IO_ERROR_NOT_FOUND,
        message := "" } = false :=
  ⟨(C20_is_recoverable_error_iff
      { domain := ErrorDomain.GEDIT_DOCUMENT_ERROR, code := G_IO_ERROR_NOT_FOUND,
        message := "" }).2 (by decide),
    (C20_is_recoverable_error_iff
      { domain := ErrorDomain.G_CONVERT_ERROR, code := G_IO_ERROR_NOT_FOUND,
        message := "" }).2 (by decide)⟩

/-! ## More lemmas on texts and on the print job -/

theorem write_mode_text_ne_table_text (m : String) :
    "gedit cannot handle " ++ m ++
        " locations in write mode. Please check that you typed the location correctly and try again." ≠
      "gedit cannot handle " ++ m ++ " locations." := by
  intro h
  have hl := congrArg String.length h
  simp only [String.length_append] at hl
  have h1 : 11 < " locations in write mode. Please check that you typed the location correctly and try again.".length := by
    decide
  have h2 : " locations.".length = 11 := by decide
  omega

theorem print_run_is_preview (events : List PrintEvent) (job : GeditPrintJob) :
    (print_run job events).is_preview = job.is_preview := by
  induction events generalizing job with
  | nil => rfl
  | cons e es ih =>
    simp only [print_run, List.foldl_cons]
    exact (ih (print_step job e)).trans (print_step_is_preview job e)

/-- Every job of a trace is the result of one of the callbacks of the sequence, run on a
job with the same preview flag as the first one. -/
theorem print_trace_mem (events : List PrintEvent) (job j : GeditPrintJob)
    (hj : j ∈ print_trace job events) :
    ∃ (before : GeditPrintJob) (event : PrintEvent),
      event ∈ events ∧ before.is_preview = job.is_preview ∧ j = print_step before event := by
  induction events generalizing job with
  | nil => exact absurd hj (List.not_mem_nil j)
  | cons e es ih =>
    simp only [print_trace] at hj
    rcases List.mem_cons.mp hj with rfl | hj
    · exact ⟨job, e, List.mem_cons_self e es, rfl, rfl⟩
    · obtain ⟨b, ev, hev, hb, hje⟩ := ih (print_step job e) hj
      exact ⟨b, ev, List.mem_cons_of_mem e hev,
        hb.trans (print_step_is_preview job e), hje⟩

/-- Pagination steps with a progress that does not decrease, followed by pages drawn in
an order that does not decrease, never lower the progress of a job whose progress is not
above what the steps report and, when it is not a preview, not above one half. -/
theorem paginate_then_draw_chain (n_pages : Int) (pages : List Int)
    (hp : pages.Pairwise (· ≤ ·)) (hpr : ∀ p ∈ pages, 0 ≤ p ∧ p < n_pages)
    (steps : List (Bool × Int × ℚ)) (job : GeditPrintJob)
    (hf : (steps.map (fun s => s.2.2)).Pairwise (· ≤ ·))
    (hf01 : ∀ s ∈ steps, 0 ≤ s.2.2 ∧ s.2.2 ≤ 1)
    (h1 : ∀ s ∈ steps, job.progress ≤ (if job.is_preview then s.2.2 else s.2.2 / 2))
    (h2 : job.is_preview = false → job.progress ≤ 1 / 2) :
    List.Chain (fun a b : GeditPrintJob => a.progress ≤ b.progress) job
      (print_trace job
        (steps.map (fun s => PrintEvent.paginate s.1 s.2.1 s.2.2) ++
          pages.map (fun p => PrintEvent.draw_page p n_pages))) := by
  induction steps generalizing job with
  | nil =>
    simp only [List.map_nil, List.nil_append]
    refine draw_pages_chain n_pages pages job hp hpr (fun hb p hpm => ?_)
    have hpp := hpr p hpm
    exact le_trans (h2 hb)
      (draw_progress_ge_half p n_pages (lt_of_le_of_lt hpp.1 hpp.2) hpp.1)
  | cons s ss ih =>
    simp only [List.map_cons, List.cons_append, print_trace]
    rw [List.map_cons, List.pairwise_cons] at hf
    have hs := hf01 s (List.mem_cons_self s ss)
    refine List.Chain.cons ?_ (ih _ hf.2
      (fun t ht => hf01 t (List.mem_cons_of_mem s ht)) ?_ ?_)
    · rw [print_step_progress]
      exact h1 s (List.mem_cons_self s ss)
    · intro t ht
      rw [print_step_progress, print_step_is_preview]
      have hst : s.2.2 ≤ t.2.2 := hf.1 t.2.2 (List.mem_map_of_mem (fun s => s.2.2) ht)
      cases job.is_preview
      · simp only [Bool.false_eq_true, if_false]
        linarith
      · simpa using hst
    · intro hb
      rw [print_step_is_preview] at hb
      rw [print_step_progress]
      simp only [hb, Bool.false_eq_true, if_false]
      linarith [hs.2]

/-- The two wrap check boxes after `create_custom_widget_cb`. -/
theorem create_custom_widget_wrap_boxes (job : GeditPrintJob) (ui : PrintPreferencesWidget) :
    (create_custom_widget_cb job ui).text_wrapping_checkbutton =
      (match job.print_settings.print_wrap_mode with
      | GtkWrapMode.GTK_WRAP_WORD => true
      | GtkWrapMode.GTK_WRAP_CHAR => true
      | _ => false) ∧
    (create_custom_widget_cb job ui).do_not_split_checkbutton =
      (match job.print_settings.print_wrap_mode with
      | GtkWrapMode.GTK_WRAP_WORD => true
      | GtkWrapMode.GTK_WRAP_CHAR => false
      | _ => ui.do_not_split_checkbutton) := by
  unfold create_custom_widget_cb gtk_spin_button_set_value
  by_cases hl : guint_as_gint job.print_settings.print_line_numbers > 0 <;>
    cases hw : job.print_settings.print_wrap_mode <;>
    simp [hl]

/-- The wrap mode `custom_widget_apply_cb` stores. -/
theorem custom_widget_apply_wrap_mode (job : GeditPrintJob) (widget : PrintPreferencesWidget) :
    (custom_widget_apply_cb job widget).print_settings.print_wrap_mode =
      (if widget.text_wrapping_checkbutton = false then GtkWrapMode.GTK_WRAP_NONE
      else if widget.do_not_split_checkbutton = true then GtkWrapMode.GTK_WRAP_WORD
      else GtkWrapMode.GTK_WRAP_CHAR) := by
  unfold custom_widget_apply_cb
  cases widget.text_wrapping_checkbutton <;> cases widget.do_not_split_checkbutton <;> rfl

theorem guint_as_gint_small (n : Nat) (h : n < 2 ^ 31) : guint_as_gint n = (n : Int) := by
  unfold guint_as_gint
  have h1 : n % 2 ^ 32 = n := Nat.mod_eq_of_lt (by omega)
  rw [h1, if_pos h]

theorem gint_as_guint_small (i : Int) (h0 : 0 ≤ i) (h : i < 2 ^ 31) :
    ((gint_as_guint i : Nat) : Int) = i := by
  unfold gint_as_guint
  have h1 : i % 2 ^ 32 = i := Int.emod_eq_of_lt h0 (by omega)
  rw [h1]
  exact Int.toNat_of_nonneg h0

theorem CLAMP_inside (x low high : Int) (h1 : low ≤ x) (h2 : x ≤ high) :
    CLAMP x low high = x := by
  unfold CLAMP
  rw [if_neg (by omega), if_neg (by omega)]

theorem MAX_one (v : Int) : 1 ≤ MAX 1 v ∧ v ≤ MAX 1 v ∧ (MAX 1 v = 1 ∨ MAX 1 v = v) := by
  unfold MAX
  split_ifs <;> omega

/-- The line number widgets after `create_custom_widget_cb`. -/
theorem create_custom_widget_line_numbers (job : GeditPrintJob) (ui : PrintPreferencesWidget) :
    (create_custom_widget_cb job ui).line_numbers_checkbutton =
      decide (guint_as_gint job.print_settings.print_line_numbers > 0) ∧
    (create_custom_widget_cb job ui).line_numbers_spinbutton =
      (if guint_as_gint job.print_settings.print_line_numbers > 0 then
        CLAMP (gint_as_guint (guint_as_gint job.print_settings.print_line_numbers))
          ui.line_numbers_spinbutton_lower ui.line_numbers_spinbutton_upper
      else CLAMP 1 ui.line_numbers_spinbutton_lower ui.line_numbers_spinbutton_upper) := by
  unfold create_custom_widget_cb gtk_spin_button_set_value
  by_cases hl : guint_as_gint job.print_settings.print_line_numbers > 0 <;>
    cases hw : job.print_settings.print_wrap_mode <;>
    simp [hl]

/-- The line number interval `custom_widget_apply_cb` stores. -/
theorem custom_widget_apply_line_numbers (job : GeditPrintJob)
    (widget : PrintPreferencesWidget) :
    (custom_widget_apply_cb job widget).print_settings.print_line_numbers =
      (if widget.line_numbers_checkbutton = true then
        gint_as_guint (MAX 1 widget.line_numbers_spinbutton)
      else 0) := by
  unfold custom_widget_apply_cb
  rfl

/-! ## Claims on the saving info bar and on the shape of the bars -/

/-- C21: in `gedit_unrecoverable_saving_error_info_bar_new` the inline cases win over the
generic table. For the I/O errors NOT_SUPPORTED and INVALID_FILENAME and for the document
error TOO_BIG the bar has the default primary text `Could not save the file <loc>.` and
the secondary text of the inline case, which is not the text `parse_error` has for the
same error; for INVALID_FILENAME the primary text of the table is not used either. -/
theorem C21_save_inline_cases_win (K : GeditDocumentErrorCodes) (loc : GFile)
    (text : String) :
    (∃ d s,
      gedit_unrecoverable_saving_error_info_bar_new K (some loc)
        { domain := ErrorDomain.G_IO_ERROR, code := G_IO_ERROR_NOT_SUPPORTED,
          message := text } = some d ∧
      d.primaryMessage = "Could not save the file " ++ uri_for_display loc.parse_name ++ "." ∧
      d.secondaryMessage = some s ∧
      contains_text " in write mode. " s ∧
      d.secondaryMessage ≠
        (parse_error K
          { domain := ErrorDomain.G_IO_ERROR, code := G_IO_ERROR_NOT_SUPPORTED,
            message := text }
          none none (some loc) (uri_for_display loc.parse_name)).message_details) ∧
    (∃ d,
      gedit_unrecoverable_saving_error_info_bar_new K (some loc)
        { domain := ErrorDomain.G_IO_ERROR, code := G_IO_ERROR_INVALID_FILENAME,
          message := text } = some d ∧
      d.primaryMessage = "Could not save the file " ++ uri_for_display loc.parse_name ++ "." ∧
      d.secondaryMessage =
        some "%s is not a valid location. Please check that you typed the location correctly and try again." ∧
      (parse_error K
          { domain := ErrorDomain.G_IO_ERROR, code := G_IO_ERROR_INVALID_FILENAME,
            message := text }
          none none (some loc) (uri_for_display loc.parse_name)).error_message =
        some (uri_for_display loc.parse_name ++ " is not a valid location.") ∧
      d.secondaryMessage ≠
        (parse_error K
          { domain := ErrorDomain.G_IO_ERROR, code := G_IO_ERROR_INVALID_FILENAME,
            message := text }
          none none (some loc) (uri_for_display loc.parse_name)).message_details) ∧
    (∃ d,
      gedit_unrecoverable_saving_error_info_bar_new K (some loc)
        { domain := ErrorDomain.GEDIT_DOCUMENT_ERROR, code := K.GEDIT_DOCUMENT_ERROR_TOO_BIG,
          message := text } = some d ∧
      d.primaryMessage = "Could not save the file " ++ uri_for_display loc.parse_name ++ "." ∧
      d.secondaryMessage =
        some "The disk where you are trying to save the file has a limitation on file sizes. Please try saving a smaller file or saving it to a disk that does not have this limitation." ∧
      (parse_error K
          { domain := ErrorDomain.GEDIT_DOCUMENT_ERROR,
            code := K.GEDIT_DOCUMENT_ERROR_TOO_BIG, message := text }
          none none (some loc) (uri_for_display loc.parse_name)).message_details =
        some "The file is too big." ∧
      d.secondaryMessage ≠
        (parse_error K
          { domain := ErrorDomain.GEDIT_DOCUMENT_ERROR,
            code := K.GEDIT_DOCUMENT_ERROR_TOO_BIG, message := text }
          none none (some loc) (uri_for_display loc.parse_name)).message_details) := by
  refine ⟨?_, ?_, ?_⟩
  · have hsave : gedit_unrecoverable_saving_error_info_bar_new K (some loc)
        { domain := ErrorDomain.G_IO_ERROR, code := G_IO_ERROR_NOT_SUPPORTED,
          message := text } =
        some (create_io_loading_error_info_bar
          ("Could not save the file " ++ uri_for_display loc.parse_name ++ ".")
          (some
            (match loc.uri_scheme with
            | some scheme =>
              if loc.uri_scheme_is_utf8 then
                "gedit cannot handle " ++ ("<i>" ++ g_markup_escape_text scheme ++ ":</i>") ++
                  " locations in write mode. Please check that you typed the location correctly and try again."
              else
                "gedit cannot handle this location in write mode. Please check that you typed the location correctly and try again."
            | none =>
              "gedit cannot handle this location in write mode. Please check that you typed the location correctly and try again."))
          false) := by
      simp only [gedit_unrecoverable_saving_error_info_bar_new, is_gio_error]
      simp only [decide_True, Bool.and_self, if_true, true_or, or_true, not_true, if_false]
    have htab : (parse_error K
          { domain := ErrorDomain.G_IO_ERROR, code := G_IO_ERROR_NOT_SUPPORTED,
            message := text }
          none none (some loc) (uri_for_display loc.parse_name)).message_details =
        some
          (match loc.uri_scheme with
          | some scheme =>
            if loc.uri_scheme_is_utf8 then
              "gedit cannot handle " ++ ("<i>" ++ g_markup_escape_text scheme ++ ":</i>") ++
                " locations."
            else "gedit cannot handle this location."
          | none => "gedit cannot handle this location.") := by
      simp only [parse_error, parse_gio_error, G_IO_ERROR_NOT_SUPPORTED, G_IO_ERROR_NOT_FOUND,
        G_IO_ERROR_NOT_DIRECTORY]
      simp only [if_true, Int.reduceEq, or_self, if_false]
      cases loc.uri_scheme with
      | none => rfl
      | some scheme => cases loc.uri_scheme_is_utf8 <;> rfl
    refine ⟨_, _, hsave, rfl, rfl, ?_, ?_⟩
    · cases loc.uri_scheme with
      | none =>
        exact ⟨"gedit cannot handle this location",
          "Please check that you typed the location correctly and try again.", by
            show "gedit cannot handle this location in write mode. Please check that you typed the location correctly and try again." = _
            decide⟩
      | some scheme =>
        cases loc.uri_scheme_is_utf8
        · exact ⟨"gedit cannot handle this location",
            "Please check that you typed the location correctly and try again.", by
            show "gedit cannot handle this location in write mode. Please check that you typed the location correctly and try again." = _
            decide⟩
        · refine ⟨"gedit cannot handle " ++ ("<i>" ++ g_markup_escape_text scheme ++ ":</i>") ++
              " locations",
            "Please check that you typed the location correctly and try again.", ?_⟩
          have hsplit : " locations in write mode. Please check that you typed the location correctly and try again." =
              " locations" ++ (" in write mode. " ++
                "Please check that you typed the location correctly and try again.") := by
            decide
          simp only [if_true]
          rw [hsplit]
          simp only [String.append_assoc]
    · rw [htab]
      simp only [create_io_loading_error_info_bar]
      cases loc.uri_scheme with
      | none => simp only []; decide
      | some scheme =>
        cases loc.uri_scheme_is_utf8
        · simp only [Bool.false_eq_true, if_false]; decide
        · simp only [if_true, ne_eq, Option.some.injEq]
          exact write_mode_text_ne_table_text _
  · refine ⟨create_io_loading_error_info_bar
        ("Could not save the file " ++ uri_for_display loc.parse_name ++ ".")
        (some "%s is not a valid location. Please check that you typed the location correctly and try again.")
        false, ?_, rfl, rfl, ?_, ?_⟩
    · simp [gedit_unrecoverable_saving_error_info_bar_new, is_gio_error,
        G_IO_ERROR_NOT_SUPPORTED, G_IO_ERROR_INVALID_FILENAME]
    · simp [parse_error, parse_gio_error, G_IO_ERROR_INVALID_FILENAME, G_IO_ERROR_NOT_FOUND,
        G_IO_ERROR_NOT_DIRECTORY, G_IO_ERROR_NOT_SUPPORTED, G_IO_ERROR_NOT_MOUNTABLE_FILE,
        G_IO_ERROR_NOT_MOUNTED, G_IO_ERROR_IS_DIRECTORY]
    · simp [parse_error, parse_gio_error, create_io_loading_error_info_bar,
        G_IO_ERROR_INVALID_FILENAME, G_IO_ERROR_NOT_FOUND,
        G_IO_ERROR_NOT_DIRECTORY, G_IO_ERROR_NOT_SUPPORTED, G_IO_ERROR_NOT_MOUNTABLE_FILE,
        G_IO_ERROR_NOT_MOUNTED, G_IO_ERROR_IS_DIRECTORY]
  · refine ⟨create_io_loading_error_info_bar
        ("Could not save the file " ++ uri_for_display loc.parse_name ++ ".")
        (some "The disk where you are trying to save the file has a limitation on file sizes. Please try saving a smaller file or saving it to a disk that does not have this limitation.")
        false, ?_, rfl, rfl, ?_, ?_⟩
    · simp [gedit_unrecoverable_saving_error_info_bar_new, is_gio_error]
    · simp [parse_error, parse_gedit_error]
    · simp [parse_error, parse_gedit_error, create_io_loading_error_info_bar]

/-- C22: for every error `gedit_io_loading_error_info_bar_new` accepts, the bar it builds
has the encoding combo box exactly when the error is the I/O error INVALID_DATA, with or
without an encoding, or one of the document errors ENCODING_AUTO_DETECTION_FAILED and
CONVERSION_FALLBACK; for every conversion error the bar has no combo box. -/
theorem C22_load_requires_encoding_choice_iff (K : GeditDocumentErrorCodes)
    (location : Option GFile) (encoding : Option GeditEncoding) (error : GError)
    (hacc : error.domain = ErrorDomain.G_IO_ERROR ∨
      error.domain = ErrorDomain.G_CONVERT_ERROR ∨
      error.domain = ErrorDomain.GEDIT_DOCUMENT_ERROR) :
    ∃ d, gedit_io_loading_error_info_bar_new K location encoding error = some d ∧
      (d.requiresEncodingChoice = true ↔
        (error.domain = ErrorDomain.G_IO_ERROR ∧ error.code = G_IO_ERROR_INVALID_DATA) ∨
        (error.domain = ErrorDomain.GEDIT_DOCUMENT_ERROR ∧
          error.code = K.GEDIT_DOCUMENT_ERROR_ENCODING_AUTO_DETECTION_FAILED) ∨
        (error.domain = ErrorDomain.GEDIT_DOCUMENT_ERROR ∧
          error.code = K.GEDIT_DOCUMENT_ERROR_CONVERSION_FALLBACK)) ∧
      (error.domain = ErrorDomain.G_CONVERT_ERROR → d.requiresEncodingChoice = false) := by
  have hacc2 : error.domain = ErrorDomain.G_CONVERT_ERROR ∨
      error.domain = ErrorDomain.GEDIT_DOCUMENT_ERROR ∨
      error.domain = ErrorDomain.G_IO_ERROR := by tauto
  obtain ⟨pre, suf, s, h⟩ := load_result K location encoding error hacc2
  refine ⟨_, h, ?_, ?_⟩
  · split_ifs with hc
    · simp only [create_conversion_error_info_bar, true_iff]
      tauto
    · simp only [create_io_loading_error_info_bar, Bool.false_eq_true, false_iff]
      tauto
  · intro hd
    have hc : ¬ ((error.domain = ErrorDomain.G_IO_ERROR ∧
        error.code = G_IO_ERROR_INVALID_DATA) ∨
        (error.domain = ErrorDomain.GEDIT_DOCUMENT_ERROR ∧
          (error.code = K.GEDIT_DOCUMENT_ERROR_ENCODING_AUTO_DETECTION_FAILED ∨
           error.code = K.GEDIT_DOCUMENT_ERROR_CONVERSION_FALLBACK))) := by
      rw [hd]
      rintro (⟨h1, _⟩ | ⟨h1, _⟩) <;> exact absurd h1 (by decide)
    rw [if_neg hc]
    rfl

/-- C22 at a conversion error on a load from standard input. -/
theorem C22_load_requires_encoding_choice_iff_witness :
    ∃ d, gedit_io_loading_error_info_bar_new documentErrorCodes none none
        { domain := ErrorDomain.G_CONVERT_ERROR, code := 1, message := "bad sequence" } =
          some d ∧
      d.requiresEncodingChoice = false := by
  obtain ⟨d, h, _, h2⟩ := C22_load_requires_encoding_choice_iff documentErrorCodes none none
    { domain := ErrorDomain.G_CONVERT_ERROR, code := 1, message := "bad sequence" }
    (Or.inr (Or.inl rfl))
  exact ⟨d, h, h2 rfl⟩

/-- C23: let the codes ENCODING_AUTO_DETECTION_FAILED and CONVERSION_FALLBACK differ, as
two enumerators do. For every error `gedit_io_loading_error_info_bar_new` accepts, these
say the same about the bar it builds: the error is the document error
CONVERSION_FALLBACK; the message type is WARNING; Edit Anyway and Don't Edit are among
the buttons. In that case the buttons are Retry, Edit Anyway, Don't Edit in this order;
in every other case the message type is ERROR and Cancel is among the buttons. -/
theorem C23_load_warning_iff_conversion_fallback (K : GeditDocumentErrorCodes)
    (location : Option GFile) (encoding : Option GeditEncoding) (error : GError)
    (hK : K.GEDIT_DOCUMENT_ERROR_ENCODING_AUTO_DETECTION_FAILED ≠
      K.GEDIT_DOCUMENT_ERROR_CONVERSION_FALLBACK)
    (hacc : error.domain = ErrorDomain.G_IO_ERROR ∨
      error.domain = ErrorDomain.G_CONVERT_ERROR ∨
      error.domain = ErrorDomain.GEDIT_DOCUMENT_ERROR) :
    ∃ d, gedit_io_loading_error_info_bar_new K location encoding error = some d ∧
      ((error.domain = ErrorDomain.GEDIT_DOCUMENT_ERROR ∧
          error.code = K.GEDIT_DOCUMENT_ERROR_CONVERSION_FALLBACK) ↔
        d.severity = Severity.WARNING) ∧
      ((error.domain = ErrorDomain.GEDIT_DOCUMENT_ERROR ∧
          error.code = K.GEDIT_DOCUMENT_ERROR_CONVERSION_FALLBACK) ↔
        (Action.EDIT_ANYWAY ∈ d.actions ∧ Action.DONT_EDIT ∈ d.actions)) ∧
      ((error.domain = ErrorDomain.GEDIT_DOCUMENT_ERROR ∧
          error.code = K.GEDIT_DOCUMENT_ERROR_CONVERSION_FALLBACK) →
        d.actions = [Action.RETRY, Action.EDIT_ANYWAY, Action.DONT_EDIT]) ∧
      (¬ (error.domain = ErrorDomain.GEDIT_DOCUMENT_ERROR ∧
          error.code = K.GEDIT_DOCUMENT_ERROR_CONVERSION_FALLBACK) →
        d.severity = Severity.ERROR ∧ Action.CANCEL ∈ d.actions) := by
  have hacc2 : error.domain = ErrorDomain.G_CONVERT_ERROR ∨
      error.domain = ErrorDomain.GEDIT_DOCUMENT_ERROR ∨
      error.domain = ErrorDomain.G_IO_ERROR := by tauto
  obtain ⟨pre, suf, s, h⟩ := load_result K location encoding error hacc2
  refine ⟨_, h, ?_⟩
  by_cases hf : error.domain = ErrorDomain.GEDIT_DOCUMENT_ERROR ∧
      error.code = K.GEDIT_DOCUMENT_ERROR_CONVERSION_FALLBACK
  · have hne : error.code ≠ K.GEDIT_DOCUMENT_ERROR_ENCODING_AUTO_DETECTION_FAILED := by
      rw [hf.2]
      exact fun h => hK h.symm
    rw [if_pos (Or.inr ⟨hf.1, Or.inr hf.2⟩)]
    have he : decide (error.domain = ErrorDomain.GEDIT_DOCUMENT_ERROR ∧
        error.code = K.GEDIT_DOCUMENT_ERROR_CONVERSION_FALLBACK ∧
        error.code ≠ K.GEDIT_DOCUMENT_ERROR_ENCODING_AUTO_DETECTION_FAILED) = true :=
      decide_eq_true ⟨hf.1, hf.2, hne⟩
    rw [he]
    simp [create_conversion_error_info_bar, hf]
  · have he : decide (error.domain = ErrorDomain.GEDIT_DOCUMENT_ERROR ∧
        error.code = K.GEDIT_DOCUMENT_ERROR_CONVERSION_FALLBACK ∧
        error.code ≠ K.GEDIT_DOCUMENT_ERROR_ENCODING_AUTO_DETECTION_FAILED) = false :=
      decide_eq_false (fun h => hf ⟨h.1, h.2.1⟩)
    rw [he]
    split_ifs
    · simp [create_conversion_error_info_bar, hf]
    · simp only [create_io_loading_error_info_bar]
      cases is_recoverable_error error <;> simp [hf]

/-- C23 at a conversion fallback on a load from standard input. -/
theorem C23_load_warning_iff_conversion_fallback_witness :
    ∃ d, gedit_io_loading_error_info_bar_new documentErrorCodes none none
        { domain := ErrorDomain.GEDIT_DOCUMENT_ERROR,
          code := documentErrorCodes.GEDIT_DOCUMENT_ERROR_CONVERSION_FALLBACK,
          message := "fallback" } = some d ∧
      d.severity = Severity.WARNING ∧
      d.actions = [Action.RETRY, Action.EDIT_ANYWAY, Action.DONT_EDIT] := by
  obtain ⟨d, h, h1, _, h3, _⟩ := C23_load_warning_iff_conversion_fallback documentErrorCodes
    none none
    { domain := ErrorDomain.GEDIT_DOCUMENT_ERROR,
      code := documentErrorCodes.GEDIT_DOCUMENT_ERROR_CONVERSION_FALLBACK,
      message := "fallback" }
    (by decide) (Or.inr (Or.inr rfl))
  exact ⟨d, h, h1.mp ⟨rfl, rfl⟩, h3 ⟨rfl, rfl⟩⟩

/-- C24: for every location and every error of the document or the I/O domain, also one
with a code `is_recoverable_error` marks as recoverable, the bars built by
`gedit_unrecoverable_reverting_error_info_bar_new` and by
`gedit_unrecoverable_saving_error_info_bar_new` have the message type ERROR and the one
button Cancel. -/
theorem C24_revert_and_save_offer_cancel_only (K : GeditDocumentErrorCodes) (loc : GFile)
    (error : GError)
    (hacc : error.domain = ErrorDomain.G_IO_ERROR ∨
      error.domain = ErrorDomain.GEDIT_DOCUMENT_ERROR) :
    (∃ d, gedit_unrecoverable_reverting_error_info_bar_new K (some loc) error = some d ∧
      d.severity = Severity.ERROR ∧ d.actions = [Action.CANCEL]) ∧
    (∃ d, gedit_unrecoverable_saving_error_info_bar_new K (some loc) error = some d ∧
      d.severity = Severity.ERROR ∧ d.actions = [Action.CANCEL]) := by
  have hacc2 : error.domain = ErrorDomain.GEDIT_DOCUMENT_ERROR ∨
      error.domain = ErrorDomain.G_IO_ERROR := by tauto
  obtain ⟨pre, suf, s, h⟩ := revert_result K loc error hacc2
  obtain ⟨pre2, suf2, s2, h2⟩ := save_result K loc error hacc2
  exact ⟨⟨_, h, rfl, rfl⟩, ⟨_, h2, rfl, rfl⟩⟩

/-- C24 at a denied permission, which `is_recoverable_error` marks as recoverable. -/
theorem C24_revert_and_save_offer_cancel_only_witness :
    is_recoverable_error
      { domain := ErrorDomain.G_IO_ERROR, code := G_IO_ERROR_PERMISSION_DENIED,
        message := "denied" } = true ∧
    (∃ d, gedit_unrecoverable_reverting_error_info_bar_new documentErrorCodes
        (some { parse_name := "/tmp/notes.txt", uri_scheme := some "file",
                uri_scheme_is_utf8 := true, uri := some "file:///tmp/notes.txt",
                decode_uri_ok := true, host_name := none })
        { domain := ErrorDomain.G_IO_ERROR, code := G_IO_ERROR_PERMISSION_DENIED,
          message := "denied" } = some d ∧
      d.severity = Severity.ERROR ∧ d.actions = [Action.CANCEL]) ∧
    (∃ d, gedit_unrecoverable_saving_error_info_bar_new documentErrorCodes
        (some { parse_name := "/tmp/notes.txt", uri_scheme := some "file",
                uri_scheme_is_utf8 := true, uri := some "file:///tmp/notes.txt",
                decode_uri_ok := true, host_name := none })
        { domain := ErrorDomain.G_IO_ERROR, code := G_IO_ERROR_PERMISSION_DENIED,
          message := "denied" } = some d ∧
      d.severity = Severity.ERROR ∧ d.actions = [Action.CANCEL]) :=
  ⟨by decide,
    (C24_revert_and_save_offer_cancel_only documentErrorCodes _ _ (Or.inl rfl)).1,
    (C24_revert_and_save_offer_cancel_only documentErrorCodes _ _ (Or.inl rfl)).2⟩

/-- C25: every bar built by `gedit_io_loading_error_info_bar_new`, by
`gedit_unrecoverable_reverting_error_info_bar_new` and by
`gedit_unrecoverable_saving_error_info_bar_new` has a secondary text. In particular
`parse_gio_error` leaves a secondary text whenever it reports the code as handled, and
for HOST_NOT_FOUND without a location or without a host name the text is the one for an
invalid host name. -/
theorem C25_secondary_text_always_present (K : GeditDocumentErrorCodes) :
    (∀ (location : Option GFile) (encoding : Option GeditEncoding) (error : GError),
      (error.domain = ErrorDomain.G_IO_ERROR ∨ error.domain = ErrorDomain.G_CONVERT_ERROR ∨
        error.domain = ErrorDomain.GEDIT_DOCUMENT_ERROR) →
      ∃ d s, gedit_io_loading_error_info_bar_new K location encoding error = some d ∧
        d.secondaryMessage = some s) ∧
    (∀ (loc : GFile) (error : GError),
      (error.domain = ErrorDomain.G_IO_ERROR ∨
        error.domain = ErrorDomain.GEDIT_DOCUMENT_ERROR) →
      ∃ d s, gedit_unrecoverable_reverting_error_info_bar_new K (some loc) error = some d ∧
        d.secondaryMessage = some s) ∧
    (∀ (loc : GFile) (error : GError),
      (error.domain = ErrorDomain.G_IO_ERROR ∨
        error.domain = ErrorDomain.GEDIT_DOCUMENT_ERROR) →
      ∃ d s, gedit_unrecoverable_saving_error_info_bar_new K (some loc) error = some d ∧
        d.secondaryMessage = some s) ∧
    (∀ (code : Int) (em md : Option String) (location : Option GFile) (u : String),
      (parse_gio_error code em md location u).ret = true →
      ∃ s, (parse_gio_error code em md location u).message_details = some s) ∧
    (∀ (em : Option String) (u : String),
      (parse_gio_error G_IO_ERROR_HOST_NOT_FOUND em none none u).message_details =
        some "Hostname was invalid. Please check that you typed the location correctly and try again.") ∧
    (∀ (em : Option String) (loc : GFile) (u : String),
      (parse_gio_error G_IO_ERROR_HOST_NOT_FOUND em none
        (some { loc with host_name := none }) u).message_details =
        some "Hostname was invalid. Please check that you typed the location correctly and try again.") := by
  refine ⟨?_, ?_, ?_, ?_, ?_, ?_⟩
  · intro location encoding error hacc
    have hacc2 : error.domain = ErrorDomain.G_CONVERT_ERROR ∨
        error.domain = ErrorDomain.GEDIT_DOCUMENT_ERROR ∨
        error.domain = ErrorDomain.G_IO_ERROR := by tauto
    obtain ⟨pre, suf, s, h⟩ := load_result K location encoding error hacc2
    refine ⟨_, s, h, ?_⟩
    split_ifs <;> rfl
  · intro loc error hacc
    obtain ⟨pre, suf, s, h⟩ := revert_result K loc error (by tauto)
    exact ⟨_, s, h, rfl⟩
  · intro loc error hacc
    obtain ⟨pre, suf, s, h⟩ := save_result K loc error (by tauto)
    exact ⟨_, s, h, rfl⟩
  · intro code em md location u hret
    by_cases hc : gio_error_handled code
    · exact Option.isSome_iff_exists.mp
        ((parse_gio_error_spec code em md location u).1 hc).2.1
    · rw [(parse_gio_error_spec code em md location u).2 hc] at hret
      exact absurd hret (by simp)
  · intro em u
    simp [parse_gio_error, G_IO_ERROR_HOST_NOT_FOUND, G_IO_ERROR_NOT_FOUND,
      G_IO_ERROR_NOT_DIRECTORY, G_IO_ERROR_NOT_SUPPORTED, G_IO_ERROR_NOT_MOUNTABLE_FILE,
      G_IO_ERROR_NOT_MOUNTED, G_IO_ERROR_IS_DIRECTORY, G_IO_ERROR_INVALID_FILENAME]
  · intro em loc u
    simp [parse_gio_error, G_IO_ERROR_HOST_NOT_FOUND, G_IO_ERROR_NOT_FOUND,
      G_IO_ERROR_NOT_DIRECTORY, G_IO_ERROR_NOT_SUPPORTED, G_IO_ERROR_NOT_MOUNTABLE_FILE,
      G_IO_ERROR_NOT_MOUNTED, G_IO_ERROR_IS_DIRECTORY, G_IO_ERROR_INVALID_FILENAME]

/-- C25 at a conversion error on a load from standard input and at a host that is not
found while reverting. -/
theorem C25_secondary_text_always_present_witness :
    (∃ d s, gedit_io_loading_error_info_bar_new documentErrorCodes none none
        { domain := ErrorDomain.G_CONVERT_ERROR, code := 1, message := "bad sequence" } =
          some d ∧
      d.secondaryMessage = some s) ∧
    (∃ d s, gedit_unrecoverable_reverting_error_info_bar_new documentErrorCodes
        (some { parse_name := "/tmp/notes.txt", uri_scheme := none,
                uri_scheme_is_utf8 := false, uri := none,
                decode_uri_ok := false, host_name := none })
        { domain := ErrorDomain.G_IO_ERROR, code := G_IO_ERROR_HOST_NOT_FOUND,
          message := "no host" } = some d ∧
      d.secondaryMessage = some s) :=
  ⟨(C25_secondary_text_always_present documentErrorCodes).1 none none _ (Or.inr (Or.inl rfl)),
    (C25_secondary_text_always_present documentErrorCodes).2.1 _ _ (Or.inl rfl)⟩

/-- C26 on the code: for the I/O error INVALID_FILENAME
`gedit_unrecoverable_saving_error_info_bar_new` copies its template with `g_strdup`, so
the secondary text of the bar still holds the placeholder `%s` and does not name the
location, although the name of the location holds no `%s`. -/
theorem C26_save_invalid_filename_keeps_placeholder :
    ¬ contains_text "%s" "/tmp/report?.txt" ∧
    ∃ d s,
      gedit_unrecoverable_saving_error_info_bar_new documentErrorCodes
        (some { parse_name := "/tmp/report?.txt", uri_scheme := some "file",
                uri_scheme_is_utf8 := true, uri := some "file:///tmp/report%3F.txt",
                decode_uri_ok := true, host_name := none })
        { domain := ErrorDomain.G_IO_ERROR, code := G_IO_ERROR_INVALID_FILENAME,
          message := "Invalid filename" } = some d ∧
      d.primaryMessage = "Could not save the file <i>/tmp/report?.txt</i>." ∧
      d.secondaryMessage = some s ∧
      s = "%s is not a valid location. Please check that you typed the location correctly and try again." ∧
      contains_text "%s" s := by
  constructor
  · rintro ⟨before, after, h⟩
    have hd := congrArg String.data h
    simp only [String.data_append] at hd
    have hm : '%' ∈ before.data ++ ['%', 's'] ++ after.data := by simp
    rw [← hd] at hm
    revert hm
    decide
  · refine ⟨_, _, rfl, by decide, rfl, rfl, ?_⟩
    exact ⟨"", " is not a valid location. Please check that you typed the location correctly and try again.", by decide⟩

/-- C27: `gedit_unrecoverable_reverting_error_info_bar_new` and
`gedit_unrecoverable_saving_error_info_bar_new` return no bar exactly when the location
is absent or the domain of the error is neither the I/O nor the document domain, so they
return none for every conversion error; `gedit_io_loading_error_info_bar_new` builds a bar
without a location and shows the name `stdin` in it. -/
theorem C27_revert_and_save_reject_out_of_contract (K : GeditDocumentErrorCodes)
    (location : Option GFile) (encoding : Option GeditEncoding) (error : GError) :
    (gedit_unrecoverable_reverting_error_info_bar_new K location error = none ↔
      location = none ∨
        ¬ (error.domain = ErrorDomain.G_IO_ERROR ∨
          error.domain = ErrorDomain.GEDIT_DOCUMENT_ERROR)) ∧
    (gedit_unrecoverable_saving_error_info_bar_new K location error = none ↔
      location = none ∨
        ¬ (error.domain = ErrorDomain.G_IO_ERROR ∨
          error.domain = ErrorDomain.GEDIT_DOCUMENT_ERROR)) ∧
    (error.domain = ErrorDomain.G_CONVERT_ERROR →
      gedit_unrecoverable_reverting_error_info_bar_new K location error = none ∧
      gedit_unrecoverable_saving_error_info_bar_new K location error = none) ∧
    ((error.domain = ErrorDomain.G_IO_ERROR ∨ error.domain = ErrorDomain.G_CONVERT_ERROR ∨
        error.domain = ErrorDomain.GEDIT_DOCUMENT_ERROR) →
      ∃ d, gedit_io_loading_error_info_bar_new K none encoding error = some d ∧
        shows_location d none) ∧
    display_name none = "stdin" := by
  have hrev : gedit_unrecoverable_reverting_error_info_bar_new K location error = none ↔
      location = none ∨
        ¬ (error.domain = ErrorDomain.G_IO_ERROR ∨
          error.domain = ErrorDomain.GEDIT_DOCUMENT_ERROR) := by
    cases location with
    | none => simp [gedit_unrecoverable_reverting_error_info_bar_new]
    | some loc =>
      by_cases hacc : error.domain = ErrorDomain.GEDIT_DOCUMENT_ERROR ∨
          error.domain = ErrorDomain.G_IO_ERROR
      · obtain ⟨pre, suf, s, h⟩ := revert_result K loc error hacc
        rw [h]
        constructor
        · intro hc
          exact absurd hc (Option.some_ne_none _)
        · rintro (hc | hc)
          · exact absurd hc (Option.some_ne_none _)
          · exact absurd (by tauto) hc
      · have hnone : gedit_unrecoverable_reverting_error_info_bar_new K (some loc) error =
            none := by
          unfold gedit_unrecoverable_reverting_error_info_bar_new
          simp only []
          rw [if_pos hacc]
        rw [hnone]
        simp only [true_iff]
        right
        tauto
  have hsave : gedit_unrecoverable_saving_error_info_bar_new K location error = none ↔
      location = none ∨
        ¬ (error.domain = ErrorDomain.G_IO_ERROR ∨
          error.domain = ErrorDomain.GEDIT_DOCUMENT_ERROR) := by
    cases location with
    | none => simp [gedit_unrecoverable_saving_error_info_bar_new]
    | some loc =>
      by_cases hacc : error.domain = ErrorDomain.GEDIT_DOCUMENT_ERROR ∨
          error.domain = ErrorDomain.G_IO_ERROR
      · obtain ⟨pre, suf, s, h⟩ := save_result K loc error hacc
        rw [h]
        constructor
        · intro hc
          exact absurd hc (Option.some_ne_none _)
        · rintro (hc | hc)
          · exact absurd hc (Option.some_ne_none _)
          · exact absurd (by tauto) hc
      · have hnone : gedit_unrecoverable_saving_error_info_bar_new K (some loc) error =
            none := by
          unfold gedit_unrecoverable_saving_error_info_bar_new
          simp only []
          rw [if_pos hacc]
        rw [hnone]
        simp only [true_iff]
        right
        tauto
  refine ⟨hrev, hsave, ?_, ?_, rfl⟩
  · intro hd
    have hn : ¬ (error.domain = ErrorDomain.G_IO_ERROR ∨
        error.domain = ErrorDomain.GEDIT_DOCUMENT_ERROR) := by
      rw [hd]
      decide
    exact ⟨hrev.mpr (Or.inr hn), hsave.mpr (Or.inr hn)⟩
  · intro hacc
    obtain ⟨pre, suf, s, h⟩ := load_result K none encoding error (by tauto)
    refine ⟨_, h, pre, suf, ?_⟩
    split_ifs <;> rfl

/-- C27 at a conversion error with a location, and at a load from standard input. -/
theorem C27_revert_and_save_reject_out_of_contract_witness :
    (gedit_unrecoverable_reverting_error_info_bar_new documentErrorCodes
        (some { parse_name := "/tmp/notes.txt", uri_scheme := some "file",
                uri_scheme_is_utf8 := true, uri := some "file:///tmp/notes.txt",
                decode_uri_ok := true, host_name := none })
        { domain := ErrorDomain.G_CONVERT_ERROR, code := 1, message := "bad sequence" } =
          none ∧
      gedit_unrecoverable_saving_error_info_bar_new documentErrorCodes
        (some { parse_name := "/tmp/notes.txt", uri_scheme := some "file",
                uri_scheme_is_utf8 := true, uri := some "file:///tmp/notes.txt",
                decode_uri_ok := true, host_name := none })
        { domain := ErrorDomain.G_CONVERT_ERROR, code := 1, message := "bad sequence" } =
          none) ∧
    (∃ d, gedit_io_loading_error_info_bar_new documentErrorCodes none none
        { domain := ErrorDomain.G_CONVERT_ERROR, code := 1, message := "bad sequence" } =
          some d ∧
      shows_location d none) :=
  ⟨(C27_revert_and_save_reject_out_of_contract documentErrorCodes _ none
      { domain := ErrorDomain.G_CONVERT_ERROR, code := 1, message := "bad sequence" }).2.2.1
      rfl,
    (C27_revert_and_save_reject_out_of_contract documentErrorCodes none none
      { domain := ErrorDomain.G_CONVERT_ERROR, code := 1, message := "bad sequence" }).2.2.2.1
      (Or.inr (Or.inl rfl))⟩

/-! ## Claims on ordered print runs and on the print preferences -/

/-- C28: take a job that is not a preview, and a run that starts with `begin_print_cb`,
goes on with pagination steps whose reported progress lies in [0, 1] and does not
decrease, and ends with the drawing of pages whose numbers lie in [0, n) and do not
decrease, for one page count n > 0. The progress then never goes down from one callback
to the next, it is at most 1/2 after every pagination step, and it is at least 1/2 and
below 1 after every drawn page. -/
theorem C28_progress_monotone_in_printing_run (job : GeditPrintJob)
    (steps : List (Bool × Int × ℚ)) (pages : List Int) (n_pages : Int)
    (hjob : job.is_preview = false) (hn : 0 < n_pages)
    (hf : (steps.map (fun s => s.2.2)).Pairwise (· ≤ ·))
    (hf01 : ∀ s ∈ steps, 0 ≤ s.2.2 ∧ s.2.2 ≤ 1)
    (hp : pages.Pairwise (· ≤ ·))
    (hpr : ∀ p ∈ pages, 0 ≤ p ∧ p < n_pages) :
    List.Chain (fun a b : GeditPrintJob => a.progress ≤ b.progress)
      (begin_print_cb job).1
      (print_trace (begin_print_cb job).1
        (steps.map (fun s => PrintEvent.paginate s.1 s.2.1 s.2.2) ++
          pages.map (fun p => PrintEvent.draw_page p n_pages))) ∧
    (∀ j ∈ print_trace (begin_print_cb job).1
        (steps.map (fun s => PrintEvent.paginate s.1 s.2.1 s.2.2)),
      j.progress ≤ 1 / 2) ∧
    (∀ j ∈ print_trace
        (print_run (begin_print_cb job).1
          (steps.map (fun s => PrintEvent.paginate s.1 s.2.1 s.2.2)))
        (pages.map (fun p => PrintEvent.draw_page p n_pages)),
      1 / 2 ≤ j.progress ∧ j.progress < 1) := by
  have h0 : (begin_print_cb job).1.progress = 0 := rfl
  have hv : (begin_print_cb job).1.is_preview = false := hjob
  refine ⟨?_, ?_, ?_⟩
  · refine paginate_then_draw_chain n_pages pages hp hpr steps _ hf hf01 (fun s hs => ?_)
      (fun _ => ?_)
    · rw [h0, hv]
      simp only [Bool.false_eq_true, if_false]
      linarith [(hf01 s hs).1]
    · rw [h0]
      norm_num
  · intro j hj
    obtain ⟨b, ev, hev, hb, rfl⟩ := print_trace_mem _ _ j hj
    obtain ⟨s, hs, rfl⟩ := List.mem_map.mp hev
    rw [print_step_progress]
    simp only [hb.trans hv, Bool.false_eq_true, if_false]
    linarith [(hf01 s hs).2]
  · intro j hj
    obtain ⟨b, ev, hev, hb, rfl⟩ := print_trace_mem _ _ j hj
    obtain ⟨p, hpm, rfl⟩ := List.mem_map.mp hev
    rw [print_step_progress]
    have hb2 : b.is_preview = false := hb.trans ((print_run_is_preview _ _).trans hv)
    simp only [hb2, Bool.false_eq_true, if_false]
    have hpp := hpr p hpm
    exact ⟨draw_progress_ge_half p n_pages hn hpp.1, draw_progress_lt_one p n_pages hpp.2 hn⟩

/-- C28 at a run of the sample job with two pagination steps and three pages. -/
theorem C28_progress_monotone_in_printing_run_witness :
    List.Chain (fun a b : GeditPrintJob => a.progress ≤ b.progress)
      (begin_print_cb sample_print_job).1
      (print_trace (begin_print_cb sample_print_job).1
        ([(false, 0, 1 / 4), (true, 3, 1)].map
            (fun s => PrintEvent.paginate s.1 s.2.1 s.2.2) ++
          [0, 1, 2].map (fun p => PrintEvent.draw_page p 3))) :=
  (C28_progress_monotone_in_printing_run sample_print_job
    [(false, 0, 1 / 4), (true, 3, 1)] [0, 1, 2] 3 rfl (by decide)
    (by simp; norm_num)
    (by
      intro s hs
      simp only [List.mem_cons, List.mem_singleton, List.not_mem_nil, or_false] at hs
      rcases hs with rfl | rfl <;> norm_num)
    (by simp)
    (by
      intro p hp
      simp only [List.mem_cons, List.mem_singleton, List.not_mem_nil, or_false] at hp
      rcases hp with rfl | rfl | rfl <;> norm_num)).1

/-- C29: filling the two check boxes from the stored wrap mode and applying them at once
stores the same mode again when it is NONE, CHAR or WORD, and stores NONE when it is
WORD_CHAR. Whatever the state of the widgets, the mode `custom_widget_apply_cb` stores is
NONE exactly when the text wrapping box is not active, WORD exactly when both boxes are
active, and CHAR exactly when the text wrapping box is active and the other one is
not. -/
theorem C29_wrap_mode_round_trip (job : GeditPrintJob) (ui widget : PrintPreferencesWidget) :
    (job.print_settings.print_wrap_mode ≠ GtkWrapMode.GTK_WRAP_WORD_CHAR →
      (custom_widget_apply_cb job (create_custom_widget_cb job ui)).print_settings.print_wrap_mode =
        job.print_settings.print_wrap_mode) ∧
    (job.print_settings.print_wrap_mode = GtkWrapMode.GTK_WRAP_WORD_CHAR →
      (custom_widget_apply_cb job (create_custom_widget_cb job ui)).print_settings.print_wrap_mode =
        GtkWrapMode.GTK_WRAP_NONE) ∧
    ((custom_widget_apply_cb job widget).print_settings.print_wrap_mode =
        GtkWrapMode.GTK_WRAP_NONE ↔
      widget.text_wrapping_checkbutton = false) ∧
    ((custom_widget_apply_cb job widget).print_settings.print_wrap_mode =
        GtkWrapMode.GTK_WRAP_WORD ↔
      (widget.text_wrapping_checkbutton = true ∧ widget.do_not_split_checkbutton = true)) ∧
    ((custom_widget_apply_cb job widget).print_settings.print_wrap_mode =
        GtkWrapMode.GTK_WRAP_CHAR ↔
      (widget.text_wrapping_checkbutton = true ∧ widget.do_not_split_checkbutton = false)) := by
  rw [custom_widget_apply_wrap_mode, custom_widget_apply_wrap_mode,
    (create_custom_widget_wrap_boxes job ui).1, (create_custom_widget_wrap_boxes job ui).2]
  refine ⟨?_, ?_, ?_, ?_, ?_⟩
  · intro hm
    cases hw : job.print_settings.print_wrap_mode
    · cases ui.do_not_split_checkbutton <;> rfl
    · rfl
    · rfl
    · exact absurd hw hm
  · intro hm
    rw [hm]
    cases ui.do_not_split_checkbutton <;> rfl
  · cases widget.text_wrapping_checkbutton <;> cases widget.do_not_split_checkbutton <;> decide
  · cases widget.text_wrapping_checkbutton <;> cases widget.do_not_split_checkbutton <;> decide
  · cases widget.text_wrapping_checkbutton <;> cases widget.do_not_split_checkbutton <;> decide

/-- C29 at the sample job, whose stored wrap mode is WORD. -/
theorem C29_wrap_mode_round_trip_witness :
    (custom_widget_apply_cb sample_print_job
      (create_custom_widget_cb sample_print_job
        sample_preferences_ui)).print_settings.print_wrap_mode =
      GtkWrapMode.GTK_WRAP_WORD :=
  (C29_wrap_mode_round_trip sample_print_job sample_preferences_ui sample_preferences_ui).1
    (by decide)

/-- C30: let the stored line number interval `n` fit a `gint`, as every value of the spin
button does, and be 0 or within the bounds of the spin button. Filling the widgets from
`n` makes the check box active exactly when `n > 0` and sets the spin button to `n` when
`n > 0` and to 1 otherwise (when 1 is within its bounds), and applying them at once
stores `n` again. Whatever the state of the widgets, `custom_widget_apply_cb` stores 0
when the check box is not active and the greater of 1 and the value of the spin button
when it is active, so it stores 0 exactly when the check box is not active. -/
theorem C30_line_numbers_round_trip (job : GeditPrintJob) (ui widget : PrintPreferencesWidget) :
    (job.print_settings.print_line_numbers < 2 ^ 31 →
      (job.print_settings.print_line_numbers = 0 ∨
        (ui.line_numbers_spinbutton_lower ≤ (job.print_settings.print_line_numbers : Int) ∧
          (job.print_settings.print_line_numbers : Int) ≤ ui.line_numbers_spinbutton_upper)) →
      ((create_custom_widget_cb job ui).line_numbers_checkbutton = true ↔
          0 < job.print_settings.print_line_numbers) ∧
        (0 < job.print_settings.print_line_numbers →
          (create_custom_widget_cb job ui).line_numbers_spinbutton =
            (job.print_settings.print_line_numbers : Int)) ∧
        (job.print_settings.print_line_numbers = 0 →
          ui.line_numbers_spinbutton_lower ≤ 1 → 1 ≤ ui.line_numbers_spinbutton_upper →
          (create_custom_widget_cb job ui).line_numbers_spinbutton = 1) ∧
        (custom_widget_apply_cb job
          (create_custom_widget_cb job ui)).print_settings.print_line_numbers =
          job.print_settings.print_line_numbers) ∧
    (widget.line_numbers_checkbutton = false →
      (custom_widget_apply_cb job widget).print_settings.print_line_numbers = 0) ∧
    (widget.line_numbers_checkbutton = true → widget.line_numbers_spinbutton < 2 ^ 31 →
      (((custom_widget_apply_cb job widget).print_settings.print_line_numbers : Nat) : Int) =
          MAX 1 widget.line_numbers_spinbutton ∧
        MAX 1 widget.line_numbers_spinbutton = max 1 widget.line_numbers_spinbutton ∧
        (custom_widget_apply_cb job widget).print_settings.print_line_numbers ≠ 0) := by
  refine ⟨?_, ?_, ?_⟩
  · intro hint hrange
    have hg := guint_as_gint_small _ hint
    obtain ⟨hc, hs⟩ := create_custom_widget_line_numbers job ui
    rw [hg] at hc hs
    have hpos : ((job.print_settings.print_line_numbers : Int) > 0) ↔
        0 < job.print_settings.print_line_numbers := by
      constructor <;> intro h <;> omega
    have h1 : (create_custom_widget_cb job ui).line_numbers_checkbutton = true ↔
        0 < job.print_settings.print_line_numbers := by
      rw [hc, decide_eq_true_iff]
      exact hpos
    have h2 : 0 < job.print_settings.print_line_numbers →
        (create_custom_widget_cb job ui).line_numbers_spinbutton =
          (job.print_settings.print_line_numbers : Int) := by
      intro hn
      have hr : ui.line_numbers_spinbutton_lower ≤
          (job.print_settings.print_line_numbers : Int) ∧
          (job.print_settings.print_line_numbers : Int) ≤ ui.line_numbers_spinbutton_upper := by
        rcases hrange with h0 | hr
        · omega
        · exact hr
      have hgu := gint_as_guint_small (job.print_settings.print_line_numbers : Int)
        (by omega) (by exact_mod_cast hint)
      rw [hs, if_pos (hpos.mpr hn), hgu]
      exact CLAMP_inside _ _ _ hr.1 hr.2
    refine ⟨h1, h2, ?_, ?_⟩
    · intro h0 hl hu
      rw [hs, if_neg (by omega)]
      exact CLAMP_inside _ _ _ hl hu
    · rw [custom_widget_apply_line_numbers]
      by_cases hn : 0 < job.print_settings.print_line_numbers
      · rw [if_pos (h1.mpr hn), h2 hn]
        have hm := MAX_one (job.print_settings.print_line_numbers : Int)
        have hmx : MAX 1 (job.print_settings.print_line_numbers : Int) =
            (job.print_settings.print_line_numbers : Int) := by
          rcases hm.2.2 with h | h
          · omega
          · exact h
        rw [hmx]
        have hgu := gint_as_guint_small (job.print_settings.print_line_numbers : Int)
          (by omega) (by exact_mod_cast hint)
        exact_mod_cast hgu
      · have hf : ¬ (create_custom_widget_cb job ui).line_numbers_checkbutton = true :=
          fun h => hn (h1.mp h)
        rw [if_neg hf]
        omega
  · intro hc
    rw [custom_widget_apply_line_numbers, hc]
    rfl
  · intro hc hv
    rw [custom_widget_apply_line_numbers, if_pos hc]
    have hm := MAX_one widget.line_numbers_spinbutton
    have hlt : MAX 1 widget.line_numbers_spinbutton < 2 ^ 31 := by
      rcases hm.2.2 with h | h <;> rw [h]
      · norm_num
      · exact hv
    have hgu := gint_as_guint_small (MAX 1 widget.line_numbers_spinbutton) (by omega) hlt
    refine ⟨hgu, ?_, ?_⟩
    · unfold MAX
      split_ifs with h
      · exact (max_eq_left (le_of_lt h)).symm
      · exact (max_eq_right (not_lt.mp h)).symm
    · intro h0
      rw [h0] at hgu
      have := hm.1
      omega

/-- C30 at the sample job with the interval 5 stored, on a spin button from 1 to 100. -/
theorem C30_line_numbers_round_trip_witness :
    (custom_widget_apply_cb
      { sample_print_job with
        print_settings := { sample_print_job.print_settings with print_line_numbers := 5 } }
      (create_custom_widget_cb
        { sample_print_job with
          print_settings := { sample_print_job.print_settings with print_line_numbers := 5 } }
        sample_preferences_ui)).print_settings.print_line_numbers = 5 :=
  ((C30_line_numbers_round_trip
    { sample_print_job with
      print_settings := { sample_print_job.print_settings with print_line_numbers := 5 } }
    sample_preferences_ui sample_preferences_ui).1 (by decide)
    (Or.inr ⟨by decide, by decide⟩)).2.2.2

end Gedit
